import Mathlib

/-!
Operand recognition of the MUZ Z80 assembler.

A shallow embedding of `MUZ/MUZ/MUZ-Assembler/Z80-Operands.cpp`: the register
tables filled by `InitRegisterMap`, the low-level matchers (`reg8`, `reg16`,
`indirectC` ... `indirect16`) and the `Get*` methods of `OperandTools`.

Conventions of the embedding.

* A C++ `int` is a Lean `Int` (token indices and operand values stay far from
  the 32-bit limits; signed overflow is undefined behaviour in C++ and is not
  modelled).  Where an `int` is compared with a `size_t`, the conversion to an
  unsigned 64-bit value is written out (`% 2 ^ 64`).
* A parameter passed by reference becomes an argument (the value on entry) and
  a component of the result (the value on exit).
* `tokens->at(i)` throws on an index out of range: functions that index the
  token vector return an `Option`, `none` standing for the exception.
* The expression evaluator, `ParseToken::asNumber` and the numbering of the
  `OperandType` enumeration live in other files of the repository; they are
  taken as parameters, gathered in `Externals`.
-/

namespace MUZ.Z80

/-! ## Data model -/

/-- Modelled from the spec: the token kinds, an enumeration declared in `ParseToken.h`,
which is not part of the sources at hand.  The kinds named by `Z80-Operands.cpp` and
by the spec (section 6.1) are listed; `tokenTypeUNKNOWN` stands for every other kind. -/
inductive TokenType
  | tokenTypeUNKNOWN
  | tokenTypeLETTERS
  | tokenTypeDECNUMBER
  | tokenTypeHEXNUMBER
  | tokenTypeBINNUMBER
  | tokenTypeOCTNUMBER
  | tokenTypeSTRING
  | tokenTypeBOOL
  | tokenTypePAROPEN
  | tokenTypePARCLOSE
  | tokenTypeOP_PLUS
  deriving DecidableEq, Repr

/-- Modelled from the spec: a token (`ParseToken.h`, spec section 6.1): its kind, its
lexeme and the flag the evaluator raises on a result that depends on an unresolved
symbol. -/
structure ParseToken where
  type : TokenType
  source : String
  unsolved : Bool
  deriving DecidableEq, Repr

/-- Modelled from the spec: the operand variants (`Z80-Operands.h`, spec section 3.1).
Every enumerator named in `Z80-Operands.cpp` is present, with `indIX` and `indIY` of
the `indirectX` documentation. -/
inductive OperandType
  | regA | regB | regC | regD | regE | regH | regL | regI | regR | regF
  | regIXH | regIXL | regIYH | regIYL
  | regAF | regAFp | regBC | regDE | regHL | regSP | regIX | regIY
  | indBC | indDE | indHL | indSP | indC
  | indIX | indIY
  | condNZ | condZ | condNC | condC | condPO | condPE | condP | condM
  | bit0 | bit1 | bit2 | bit3 | bit4 | bit5 | bit6 | bit7
  deriving DecidableEq, Repr

/-- Modelled from the spec: the result codes (`Z80-Operands.h`, spec section 7). -/
inductive OperandError
  | operrOK
  | operrTOKENNUMBER
  | operrMISSINGPAROPEN
  | operrMISSINGPARCLOSE
  | operrREGISTERNAME
  | operrWRONGREGISTER
  | operrNOTREGISTER
  | operrWRONGOP
  | operrUNSOLVED
  | operrNOTNUMBER
  | operrTOOBIG
  | operrNOTBIT
  | operrNOTSTRING
  | operrNOTCONDITION
  deriving DecidableEq, Repr

open TokenType OperandType OperandError

/-- Modelled from the spec: the assembler context a code line points to; only the pass
it is running is read here (spec section 6.3). -/
structure Assembler where
  firstpass : Bool
  deriving DecidableEq, Repr

/-- Modelled from the spec: `Assembler::IsFirstPass` (spec section 6.3). -/
def IsFirstPass (as : Assembler) : Bool :=
  as.firstpass

/-- Modelled from the spec: the code line (`CodeLine.h`, spec section 3.4): the token
vector, the cursor and the back-reference to the assembler. -/
structure CodeLine where
  tokens : List ParseToken
  curtoken : Int
  as : Assembler
  deriving DecidableEq, Repr

/-- The collaborators of `Z80-Operands.cpp` that are defined in other files.
`Evaluate tokens start last` is `evalNumber.Evaluate(*tokens, start, last)`: it returns
the evaluated token together with the value it leaves in its in/out argument `last`.
`asNumber` is `ParseToken::asNumber`, and `ordinal` is the integer value of an
`OperandType` enumerator. -/
structure Externals where
  Evaluate : List ParseToken → Int → Int → ParseToken × Int
  asNumber : ParseToken → Int
  ordinal : OperandType → Nat

/-- Modelled from the spec: `std::to_upper` of `StrUtils.h`, the upper-casing applied to
a register name before it is looked up (spec section 4.2.1). -/
def to_upper (s : String) : String :=
  String.mk (s.data.map Char.toUpper)

/-- Modelled from the spec: `OperandTools::EnoughTokensLeft`, whose body is not in
`Z80-Operands.cpp`: at least `number` tokens remain from the cursor on (spec
sections 4.2 and 7, "not enough tokens remain for this shape"). -/
def EnoughTokensLeft (codeline : CodeLine) (number : Int) : Bool :=
  decide (codeline.curtoken + number ≤ (codeline.tokens.length : Int))

/-- The bounds-checked access `tokens->at(i)`; `none` is the `std::out_of_range`
exception.  The `int` index is converted to `size_t`, so a negative one is out of
range. -/
def tokenAt (tokens : List ParseToken) (i : Int) : Option ParseToken :=
  if i < 0 then none else tokens[i.toNat]?

/-- The test `i >= tokens->size()` between an `int` and a `size_t`: the `int` is
converted to an unsigned 64-bit value before the comparison. -/
def geSize (i : Int) (tokens : List ParseToken) : Bool :=
  decide ((tokens.length : Int) ≤ i % 2 ^ 64)

/-! ## The tables of `InitRegisterMap` -/

/-- The five global maps of the file.  A `std::map` or `std::unordered_map` is a list
of key/value pairs; `List.lookup` is `count` followed by `operator[]`. -/
structure RegisterMaps where
  registers8 : List (String × OperandType)
  registers16 : List (String × OperandType)
  conditions : List (String × OperandType)
  regsubcode : List (OperandType × Int)
  regprefix : List (OperandType × Int)

/-- The maps after `InitRegisterMap()` has run (it runs once, at start-up, from the
constructor of a global object).  Each assignment `m[k] = v` of the source is one
pair, in the order of the source; no key is assigned twice. -/
def InitRegisterMap : RegisterMaps where
  regsubcode :=
    [ (regB, 0), (regC, 1), (regD, 2), (regE, 3), (regH, 4), (regL, 5), (regF, 6),
      (indHL, 6), (regA, 7),
      (regIXH, 4), (regIXL, 5), (regIYH, 4), (regIYL, 5),
      (regI, 0x07), (regR, 0x0F),
      (regBC, 0x00), (regDE, 0x10), (regHL, 0x20), (regSP, 0x30), (regAF, 0x30),
      (regIX, 0x20), (regIY, 0x20),
      (bit0, 0x00), (bit1, 0x08), (bit2, 0x10), (bit3, 0x18),
      (bit4, 0x20), (bit5, 0x28), (bit6, 0x30), (bit7, 0x38),
      (condNZ, 0x00), (condZ, 0x08), (condNC, 0x10), (condC, 0x18),
      (condPO, 0x20), (condPE, 0x28), (condP, 0x30), (condM, 0x38) ]
  regprefix :=
    [ (regIXH, 0xDD), (regIYH, 0xFD), (regIXL, 0xDD), (regIYL, 0xFD),
      (regIX, 0xDD), (regIY, 0xFD) ]
  registers8 :=
    [ ("A", regA), ("B", regB), ("C", regC), ("D", regD), ("E", regE), ("H", regH),
      ("L", regL), ("I", regI), ("R", regR), ("F", regF),
      ("IXH", regIXH), ("IXL", regIXL), ("IYH", regIYH), ("IYL", regIYL) ]
  registers16 :=
    [ ("AF", regAF), ("AF'", regAFp), ("BC", regBC), ("DE", regDE), ("HL", regHL),
      ("SP", regSP), ("IX", regIX), ("IY", regIY) ]
  conditions :=
    [ ("NC", condNC), ("C", condC), ("NZ", condNZ), ("Z", condZ),
      ("PE", condPE), ("PO", condPO), ("P", condP), ("M", condM) ]

/-- The global `registers8`, as initialised. -/
def registers8 : List (String × OperandType) := InitRegisterMap.registers8

/-- The global `registers16`, as initialised. -/
def registers16 : List (String × OperandType) := InitRegisterMap.registers16

/-- The global `conditions`, as initialised. -/
def conditions : List (String × OperandType) := InitRegisterMap.conditions

/-- The global `regsubcode`, as initialised. -/
def regsubcode : List (OperandType × Int) := InitRegisterMap.regsubcode

/-- The global `regprefix`, as initialised. -/
def regprefix : List (OperandType × Int) := InitRegisterMap.regprefix

/-! ## Low level token analysis -/

/-- Source function `OperandTools::reg8`. The result is the returned flag, the cursor and
the register, the last two being the reference parameters on exit. -/
def reg8 (tokens : List ParseToken) (curtoken : Int) (reg : OperandType) :
    Option (Bool × Int × OperandType) :=
  (tokenAt tokens curtoken).bind fun token =>
    if token.type ≠ tokenTypeLETTERS then some (false, curtoken, reg)
    else
      match registers8.lookup (to_upper token.source) with
      | some r => some (true, curtoken + 1, r)
      | none => some (false, curtoken, reg)

/-- Source function `OperandTools::reg16`. -/
def reg16 (tokens : List ParseToken) (curtoken : Int) (reg : OperandType) :
    Option (Bool × Int × OperandType) :=
  (tokenAt tokens curtoken).bind fun token =>
    if token.type ≠ tokenTypeLETTERS then some (false, curtoken, reg)
    else
      match registers16.lookup (to_upper token.source) with
      | some r => some (true, curtoken + 1, r)
      | none => some (false, curtoken, reg)

/-- The body shared by `indirectC`, `indirectHL`, `indirectBC`, `indirectDE` and
`indirectSP`, which differ in the source only by the literal compared with the token
(`name`) and by the variant written out (`ind`). -/
def indirectReg (name : String) (ind : OperandType) (tokens : List ParseToken)
    (curtoken : Int) (reg : OperandType) : Option (Bool × Int × OperandType) :=
  if geSize (curtoken + 2) tokens then some (false, curtoken, reg)
  else
    (tokenAt tokens curtoken).bind fun token0 =>
      if token0.type ≠ tokenTypePAROPEN then some (false, curtoken, reg)
      else
        (tokenAt tokens (curtoken + 1)).bind fun token1 =>
          if token1.type ≠ tokenTypeLETTERS then some (false, curtoken, reg)
          else if token1.source ≠ name then some (false, curtoken, reg)
          else
            (tokenAt tokens (curtoken + 2)).bind fun token2 =>
              if token2.type ≠ tokenTypePARCLOSE then some (false, curtoken, reg)
              else some (true, curtoken + 3, ind)

/-- Source function `OperandTools::indirectC`. -/
def indirectC (tokens : List ParseToken) (curtoken : Int) (reg : OperandType) :
    Option (Bool × Int × OperandType) :=
  indirectReg "C" indC tokens curtoken reg

/-- Source function `OperandTools::indirectHL`. -/
def indirectHL (tokens : List ParseToken) (curtoken : Int) (reg : OperandType) :
    Option (Bool × Int × OperandType) :=
  indirectReg "HL" indHL tokens curtoken reg

/-- Source function `OperandTools::indirectBC`. -/
def indirectBC (tokens : List ParseToken) (curtoken : Int) (reg : OperandType) :
    Option (Bool × Int × OperandType) :=
  indirectReg "BC" indBC tokens curtoken reg

/-- Source function `OperandTools::indirectDE`. -/
def indirectDE (tokens : List ParseToken) (curtoken : Int) (reg : OperandType) :
    Option (Bool × Int × OperandType) :=
  indirectReg "DE" indDE tokens curtoken reg

/-- Source function `OperandTools::indirectSP`. -/
def indirectSP (tokens : List ParseToken) (curtoken : Int) (reg : OperandType) :
    Option (Bool × Int × OperandType) :=
  indirectReg "SP" indSP tokens curtoken reg

/-- The loop `for ( ; index < tokens->size() ; index++)` that `indirectX` and
`indirect16` run to find the closing parenthesis.  The first argument is the part of
the token vector from `index` on, `parlevel` the current depth and `token` the last
token read.  The result is the index and the last token read when the loop ends:
either on the `break` (the index is that of the closing parenthesis) or because the
vector is exhausted (the index is its size). -/
def findClose : List ParseToken → Int → Int → ParseToken → Int × ParseToken
  | [], index, _, token => (index, token)
  | t :: rest, index, parlevel, _ =>
    if t.type = tokenTypePAROPEN then findClose rest (index + 1) (parlevel + 1) t
    else if t.type = tokenTypePARCLOSE then
      if parlevel - 1 = 0 then (index, t)
      else findClose rest (index + 1) (parlevel - 1) t
    else findClose rest (index + 1) parlevel t

/-- Source function `OperandTools::indirectX`. The result is the error code, the cursor,
`regX` and `value` on exit. -/
def indirectX (ext : Externals) (tokens : List ParseToken) (curtoken : Int)
    (regX : OperandType) (value : Int) : Option (OperandError × Int × OperandType × Int) :=
  if geSize (curtoken + 4) tokens then some (operrTOKENNUMBER, curtoken, regX, value)
  else
    (tokenAt tokens curtoken).bind fun token0 =>
      if token0.type ≠ tokenTypePAROPEN then some (operrMISSINGPAROPEN, curtoken, regX, value)
      else
        (reg16 tokens (curtoken + 1) regX).bind fun r =>
          if r.1 = false then some (operrREGISTERNAME, curtoken, r.2.2, value)
          else if r.2.2 ≠ regIX ∧ r.2.2 ≠ regIY then
            some (operrREGISTERNAME, curtoken, r.2.2, value)
          else
            (tokenAt tokens (curtoken + 2)).bind fun token2 =>
              if token2.type ≠ tokenTypeOP_PLUS then
                some (operrWRONGOP, curtoken, r.2.2, value)
              else
                let indextoken :=
                  (findClose (tokens.drop (curtoken + 3).toNat) (curtoken + 3) 1 token2).1
                let ev := ext.Evaluate tokens (curtoken + 3) (indextoken - 1)
                if ev.1.unsolved then some (operrUNSOLVED, ev.2 + 1, r.2.2, 0)
                else some (operrOK, ev.2 + 1, r.2.2, ext.asNumber ev.1)

/-- Source function `OperandTools::bitnumber`. The result is the error code, the cursor and
`bit` on exit. -/
def bitnumber (ext : Externals) (tokens : List ParseToken) (curtoken : Int)
    (bit : OperandType) : OperandError × Int × OperandType :=
  let ev := ext.Evaluate tokens curtoken (-1)
  if ev.1.unsolved then (operrUNSOLVED, ev.2, bit0)
  else if ev.1.type = tokenTypeSTRING ∨ ev.1.type = tokenTypeDECNUMBER then
    let value := ext.asNumber ev.1
    if value < 0 ∨ value > 7 then (operrNOTBIT, curtoken, bit)
    else
      (operrOK, ev.2,
        if value = 0 then bit0
        else if value = 1 then bit1
        else if value = 2 then bit2
        else if value = 3 then bit3
        else if value = 4 then bit4
        else if value = 5 then bit5
        else if value = 6 then bit6
        else bit7)
  else (operrNOTBIT, curtoken, bit)

/-- Source function `OperandTools::condition`. -/
def condition (tokens : List ParseToken) (curtoken : Int) (cond : OperandType) :
    Option (OperandError × Int × OperandType) :=
  (tokenAt tokens curtoken).bind fun token =>
    if token.type ≠ tokenTypeLETTERS then some (operrNOTSTRING, curtoken, cond)
    else
      match conditions.lookup token.source with
      | some c => some (operrOK, curtoken + 1, c)
      | none => some (operrNOTCONDITION, curtoken, cond)

/-- Source function `OperandTools::number8`. The result is the error code, the cursor and
`value` on exit. -/
def number8 (ext : Externals) (tokens : List ParseToken) (curtoken : Int) (value : Int) :
    OperandError × Int × Int :=
  let ev := ext.Evaluate tokens curtoken (-1)
  if ev.1.unsolved then (operrUNSOLVED, ev.2 + 1, 0)
  else if ev.1.type = tokenTypeSTRING ∨ ev.1.type = tokenTypeDECNUMBER then
    if ext.asNumber ev.1 > 255 then (operrTOOBIG, curtoken, ext.asNumber ev.1)
    else (operrOK, ev.2 + 1, ext.asNumber ev.1)
  else (operrNOTNUMBER, curtoken, value)

/-- Source function `OperandTools::number16`. -/
def number16 (ext : Externals) (tokens : List ParseToken) (curtoken : Int) (value : Int) :
    OperandError × Int × Int :=
  let ev := ext.Evaluate tokens curtoken (-1)
  if ev.1.unsolved then (operrUNSOLVED, ev.2 + 1, 0)
  else if ev.1.type = tokenTypeSTRING ∨ ev.1.type = tokenTypeDECNUMBER then
    if ext.asNumber ev.1 > 65535 then (operrTOOBIG, curtoken, ext.asNumber ev.1)
    else (operrOK, ev.2 + 1, ext.asNumber ev.1)
  else (operrNOTNUMBER, curtoken, value)

/-- Source function `OperandTools::indirect16`. The cursor is passed by value; the result is
the error code, `value` and `lasttoken` on exit. -/
def indirect16 (ext : Externals) (tokens : List ParseToken) (curtoken : Int)
    (value : Int) (lasttoken : Int) : Option (OperandError × Int × Int) :=
  if geSize (curtoken + 2) tokens then some (operrTOKENNUMBER, value, lasttoken)
  else
    (tokenAt tokens curtoken).bind fun token0 =>
      if token0.type ≠ tokenTypePAROPEN then some (operrMISSINGPAROPEN, value, lasttoken)
      else
        (tokenAt tokens (curtoken + 1)).bind fun token1 =>
          let scan := findClose (tokens.drop (curtoken + 2).toNat) (curtoken + 2) 1 token1
          if scan.2.type ≠ tokenTypePARCLOSE then some (operrMISSINGPARCLOSE, value, scan.1)
          else
            let ev := ext.Evaluate tokens (curtoken + 1) (scan.1 - 1)
            if ev.1.unsolved then some (operrUNSOLVED, 0, ev.2 + 1)
            else if ev.1.type = tokenTypeSTRING ∨ ev.1.type = tokenTypeDECNUMBER then
              some (operrOK, ext.asNumber ev.1, ev.2 + 1)
            else some (operrNOTNUMBER, value, ev.2 + 1)

/-! ## High level functions on a code line -/

/-- The C++ expression `1 << n` on a 32-bit `int`, as a bit pattern.  The shift
instruction of the target takes its count modulo 32, and so does this definition; for a
count below 32 it is the plain `1 << n`. -/
def oneShiftLeft32 (n : Nat) : Nat :=
  1 <<< (n % 32)

/-- Source function `OperandTools::RegAccept`: `int f = 1 << (int)reg` followed by the
test `(f & flags) == f`.  The mask `flags` is read as a bit pattern, of which only the
bit selected by `f` counts. -/
def RegAccept (ext : Externals) (flags : Nat) (reg : OperandType) : Bool :=
  let f := oneShiftLeft32 (ext.ordinal reg)
  (f &&& flags) == f

/-- Source function `OperandTools::GetSubCode`. -/
def GetSubCode (reg : OperandType) : Int :=
  match regsubcode.lookup reg with
  | some code => code
  | none => 0

/-- Source function `OperandTools::GetPrefix`. -/
def GetPrefix (reg : OperandType) : Int :=
  match regprefix.lookup reg with
  | some code => code
  | none => 0

/-- Source function `OperandTools::GetReg8`. The result is the error code, the code line and
`reg` on exit. -/
def GetReg8 (ext : Externals) (codeline : CodeLine) (reg : OperandType) (regs : Nat) :
    Option (OperandError × CodeLine × OperandType) :=
  if EnoughTokensLeft codeline 1 = false then some (operrTOKENNUMBER, codeline, reg)
  else
    (reg8 codeline.tokens codeline.curtoken reg).bind fun r =>
      if r.1 = true then
        if RegAccept ext regs r.2.2 = true then
          some (operrOK, { codeline with curtoken := r.2.1 }, r.2.2)
        else some (operrWRONGREGISTER, codeline, r.2.2)
      else some (operrNOTREGISTER, codeline, r.2.2)

/-- Source function `OperandTools::GetReg16`. -/
def GetReg16 (ext : Externals) (codeline : CodeLine) (reg : OperandType) (regs : Nat) :
    Option (OperandError × CodeLine × OperandType) :=
  if EnoughTokensLeft codeline 1 = false then some (operrTOKENNUMBER, codeline, reg)
  else
    (reg16 codeline.tokens codeline.curtoken reg).bind fun r =>
      if r.1 = true then
        if RegAccept ext regs r.2.2 = true then
          some (operrOK, { codeline with curtoken := r.2.1 }, r.2.2)
        else some (operrWRONGREGISTER, codeline, r.2.2)
      else some (operrNOTREGISTER, codeline, r.2.2)

/-- The body shared by `GetIndC`, `GetIndHL`, `GetIndBC`, `GetIndDE` and `GetIndSP`,
which differ only by the matcher they call.  The matcher works on
`codeline.curtoken` itself; the register it writes goes to a local variable that is
never read (`scratch` is its content on entry, left uninitialised by the source). -/
def GetIndReg (matcher : List ParseToken → Int → OperandType → Option (Bool × Int × OperandType))
    (scratch : OperandType) (codeline : CodeLine) : Option (OperandError × CodeLine) :=
  if EnoughTokensLeft codeline 3 = false then some (operrTOKENNUMBER, codeline)
  else
    (matcher codeline.tokens codeline.curtoken scratch).bind fun r =>
      if r.1 = true then some (operrOK, { codeline with curtoken := r.2.1 })
      else some (operrWRONGREGISTER, { codeline with curtoken := r.2.1 })

/-- Source function `OperandTools::GetIndC`. -/
def GetIndC (scratch : OperandType) (codeline : CodeLine) : Option (OperandError × CodeLine) :=
  GetIndReg indirectC scratch codeline

/-- Source function `OperandTools::GetIndHL`. -/
def GetIndHL (scratch : OperandType) (codeline : CodeLine) : Option (OperandError × CodeLine) :=
  GetIndReg indirectHL scratch codeline

/-- Source function `OperandTools::GetIndBC`. -/
def GetIndBC (scratch : OperandType) (codeline : CodeLine) : Option (OperandError × CodeLine) :=
  GetIndReg indirectBC scratch codeline

/-- Source function `OperandTools::GetIndDE`. -/
def GetIndDE (scratch : OperandType) (codeline : CodeLine) : Option (OperandError × CodeLine) :=
  GetIndReg indirectDE scratch codeline

/-- Source function `OperandTools::GetIndSP`. -/
def GetIndSP (scratch : OperandType) (codeline : CodeLine) : Option (OperandError × CodeLine) :=
  GetIndReg indirectSP scratch codeline

/-- Source function `OperandTools::GetIndX`. `indirectX` receives `codeline.curtoken` by
reference, so the cursor it leaves is the cursor of the code line whatever is returned.
The result is the error code, the code line, `regX` and `value` on exit. -/
def GetIndX (ext : Externals) (codeline : CodeLine) (regX : OperandType) (value : Int) :
    Option (OperandError × CodeLine × OperandType × Int) :=
  if EnoughTokensLeft codeline 5 = false then some (operrTOKENNUMBER, codeline, regX, value)
  else
    (indirectX ext codeline.tokens codeline.curtoken regX value).bind fun r =>
      if r.1 = operrOK then
        some (operrOK, { codeline with curtoken := r.2.1 }, r.2.2.1, r.2.2.2)
      else if IsFirstPass codeline.as = true ∧ r.1 = operrUNSOLVED then
        some (operrOK, { codeline with curtoken := r.2.1 }, r.2.2.1, 0)
      else some (operrWRONGREGISTER, { codeline with curtoken := r.2.1 }, r.2.2.1, r.2.2.2)

/-- Source function `OperandTools::GetBitNumber`. The two register probes work on the
scratch cursor `worktoken`; `bitnumber` works on `codeline.curtoken` itself. -/
def GetBitNumber (ext : Externals) (codeline : CodeLine) (bit : OperandType) :
    Option (OperandError × CodeLine × OperandType) :=
  if EnoughTokensLeft codeline 1 = false then some (operrTOKENNUMBER, codeline, bit)
  else
    (reg8 codeline.tokens codeline.curtoken bit).bind fun r8 =>
      if r8.1 = true then some (operrWRONGREGISTER, codeline, r8.2.2)
      else
        (reg16 codeline.tokens r8.2.1 r8.2.2).bind fun r16 =>
          if r16.1 = true then some (operrWRONGREGISTER, codeline, r16.2.2)
          else
            let r := bitnumber ext codeline.tokens codeline.curtoken r16.2.2
            if r.1 = operrOK then some (operrOK, { codeline with curtoken := r.2.1 }, r.2.2)
            else if IsFirstPass codeline.as = true ∧ r.1 = operrUNSOLVED then
              some (operrOK, { codeline with curtoken := r.2.1 }, bit0)
            else some (r.1, { codeline with curtoken := r.2.1 }, r.2.2)

/-- Source function `OperandTools::GetCond`. -/
def GetCond (codeline : CodeLine) (cond : OperandType) :
    Option (OperandError × CodeLine × OperandType) :=
  if EnoughTokensLeft codeline 1 = false then some (operrTOKENNUMBER, codeline, cond)
  else
    (condition codeline.tokens codeline.curtoken cond).bind fun r =>
      if r.1 = operrOK then some (operrOK, { codeline with curtoken := r.2.1 }, r.2.2)
      else some (operrNOTCONDITION, { codeline with curtoken := r.2.1 }, r.2.2)

/-- Source function `OperandTools::GetNum8`. `scratch` is the content on entry of the local
`num8`, which receives the register of the two probes and is never read. The result is
the error code, the code line and `value` on exit. -/
def GetNum8 (ext : Externals) (scratch : OperandType) (codeline : CodeLine) (value : Int) :
    Option (OperandError × CodeLine × Int) :=
  if EnoughTokensLeft codeline 1 = false then some (operrTOKENNUMBER, codeline, value)
  else
    (reg8 codeline.tokens codeline.curtoken scratch).bind fun r8 =>
      if r8.1 = true then some (operrWRONGREGISTER, codeline, value)
      else
        (reg16 codeline.tokens r8.2.1 r8.2.2).bind fun r16 =>
          if r16.1 = true then some (operrWRONGREGISTER, codeline, value)
          else
            let r := number8 ext codeline.tokens codeline.curtoken value
            if r.1 = operrOK then some (operrOK, { codeline with curtoken := r.2.1 }, r.2.2)
            else if IsFirstPass codeline.as = true ∧ r.1 = operrUNSOLVED then
              some (operrOK, { codeline with curtoken := r.2.1 }, 0)
            else some (operrNOTNUMBER, { codeline with curtoken := r.2.1 }, r.2.2)

/-- Source function `OperandTools::GetNum16`. -/
def GetNum16 (ext : Externals) (scratch : OperandType) (codeline : CodeLine) (value : Int) :
    Option (OperandError × CodeLine × Int) :=
  if EnoughTokensLeft codeline 1 = false then some (operrTOKENNUMBER, codeline, value)
  else
    (reg8 codeline.tokens codeline.curtoken scratch).bind fun r8 =>
      if r8.1 = true then some (operrWRONGREGISTER, codeline, value)
      else
        (reg16 codeline.tokens r8.2.1 r8.2.2).bind fun r16 =>
          if r16.1 = true then some (operrWRONGREGISTER, codeline, value)
          else
            let r := number16 ext codeline.tokens codeline.curtoken value
            if r.1 = operrOK then some (operrOK, { codeline with curtoken := r.2.1 }, r.2.2)
            else if IsFirstPass codeline.as = true ∧ r.1 = operrUNSOLVED then
              some (operrOK, { codeline with curtoken := r.2.1 }, 0)
            else some (operrNOTNUMBER, { codeline with curtoken := r.2.1 }, r.2.2)

/-- Source function `OperandTools::GetInd16`. `scratch` is the content on entry of the local
`lasttoken`. `indirect16` receives the cursor by value: the code line changes only where
the source assigns `codeline.curtoken`. -/
def GetInd16 (ext : Externals) (scratch : Int) (codeline : CodeLine) (value : Int) :
    Option (OperandError × CodeLine × Int) :=
  if EnoughTokensLeft codeline 3 = false then some (operrTOKENNUMBER, codeline, value)
  else
    (indirect16 ext codeline.tokens codeline.curtoken value scratch).bind fun r =>
      if r.1 = operrOK then some (operrOK, { codeline with curtoken := r.2.2 }, r.2.1)
      else if r.1 = operrUNSOLVED ∧ IsFirstPass codeline.as = true then
        some (operrOK, { codeline with curtoken := r.2.2 }, 0)
      else some (operrNOTNUMBER, codeline, r.2.1)

/-! ## Predicates used to state the properties -/

/-- The token names a register: it is a name whose upper-cased lexeme is a key of
`registers8` or of `registers16`.  This is the case in which one of the two probes
(`reg8`, then `reg16`) that open `GetBitNumber`, `GetNum8` and `GetNum16` succeeds. -/
def isRegisterName (token : ParseToken) : Bool :=
  decide (token.type = tokenTypeLETTERS) &&
    ((registers8.lookup (to_upper token.source)).isSome ||
      (registers16.lookup (to_upper token.source)).isSome)

/-- The protocol the spec gives for the evaluator (sections 6.2 and 9): the index it
writes back is that of the last token it consumed, which is not before the first token
of the expression. -/
def EvaluatorWritesLastConsumed (ext : Externals) : Prop :=
  ∀ (tokens : List ParseToken) (start last : Int), start ≤ (ext.Evaluate tokens start last).2

/-- Follows the wording of the spec, not the code: the index of the closing parenthesis
that balances an opening one, the depth being raised by every opening parenthesis and
lowered by every closing one over the tokens that follow it.  `rest` is the part of the
line after the opening parenthesis, `index` the index of its first token and `depth`
the current depth (1 just after the opening parenthesis). -/
def specBalancedClose : List ParseToken → Int → Int → Option Int
  | [], _, _ => none
  | t :: rest, index, depth =>
    if t.type = tokenTypePAROPEN then specBalancedClose rest (index + 1) (depth + 1)
    else if t.type = tokenTypePARCLOSE then
      if depth - 1 = 0 then some index
      else specBalancedClose rest (index + 1) (depth - 1)
    else specBalancedClose rest (index + 1) depth

/-- The bit variants in the order of their number, `bit0` first. -/
def bitVariants : List OperandType :=
  [bit0, bit1, bit2, bit3, bit4, bit5, bit6, bit7]

/-- The condition variants in the order the spec gives them (section 3.2): `NZ`, `Z`,
`NC`, `C`, `PO`, `PE`, `P`, `M`. -/
def conditionVariants : List OperandType :=
  [condNZ, condZ, condNC, condC, condPO, condPE, condP, condM]

/-- Follows the wording of the spec, not the code: the bitwise complement `~m` of a
32-bit mask. -/
def complement32 (m : Nat) : Nat :=
  2 ^ 32 - 1 - m % 2 ^ 32

/-- The names of the 8-bit registers, as the claims list them: the keys of
`registers8`. -/
def reg8Names : List String :=
  ["A", "B", "C", "D", "E", "H", "L", "I", "R", "F", "IXH", "IXL", "IYH", "IYL"]

/-- The names of the 16-bit registers: the keys of `registers16`. -/
def reg16Names : List String :=
  ["AF", "AF'", "BC", "DE", "HL", "SP", "IX", "IY"]

/-- The names of the conditions: the keys of `conditions`, in the order of the spec. -/
def conditionNames : List String :=
  ["NZ", "Z", "NC", "C", "PO", "PE", "P", "M"]

/-- The 8-bit register a token names, if any: the token is a name and its upper-cased
lexeme is a key of `registers8`. -/
def lookupReg8 (token : ParseToken) : Option OperandType :=
  if token.type = tokenTypeLETTERS then registers8.lookup (to_upper token.source) else none

/-- The 16-bit register a token names, if any. -/
def lookupReg16 (token : ParseToken) : Option OperandType :=
  if token.type = tokenTypeLETTERS then registers16.lookup (to_upper token.source) else none

/-- The three-token shape `(` `name` `)` at the cursor: the tokens at `curtoken`,
`curtoken + 1` and `curtoken + 2` exist and are an opening parenthesis, a name whose
lexeme is exactly `name`, and a closing parenthesis. -/
def indirectShape (name : String) (tokens : List ParseToken) (curtoken : Int) : Bool :=
  match tokenAt tokens curtoken, tokenAt tokens (curtoken + 1),
    tokenAt tokens (curtoken + 2) with
  | some t0, some t1, some t2 =>
    decide (t0.type = tokenTypePAROPEN) && decide (t1.type = tokenTypeLETTERS) &&
      decide (t1.source = name) && decide (t2.type = tokenTypePARCLOSE)
  | _, _, _ => false

/-- The five indirect-register matchers, each with the register name it compares the
token with and the variant it writes out. -/
def indirectMatchers :
    List (String × OperandType ×
      (List ParseToken → Int → OperandType → Option (Bool × Int × OperandType))) :=
  [("C", indC, indirectC), ("HL", indHL, indirectHL), ("BC", indBC, indirectBC),
   ("DE", indDE, indirectDE), ("SP", indSP, indirectSP)]

/-! ## Sample collaborators and token lines

Concrete instances of the external parts, used to run the definitions above on
explicit inputs. -/

/-- A digit of a number lexeme: its value in base 16 (0 for any other character). -/
def digitValue (c : Char) : Int :=
  if '0' ≤ c ∧ c ≤ '9' then (c.toNat : Int) - 48
  else if 'a' ≤ c ∧ c ≤ 'f' then (c.toNat : Int) - 87
  else if 'A' ≤ c ∧ c ≤ 'F' then (c.toNat : Int) - 55
  else 0

/-- A sample `asNumber`: a lexeme starting with `0x` is read in base 16, any other in
base 10. -/
def sampleAsNumber (token : ParseToken) : Int :=
  match token.source.data with
  | '0' :: 'x' :: digits => digits.foldl (fun n c => 16 * n + digitValue c) 0
  | digits => digits.foldl (fun n c => 10 * n + digitValue c) 0

/-- A sample evaluator that follows the protocol of the spec (section 6.2): called
with a `last` before `start` (the caller passes `-1` for "find the end") it consumes
the single token at `start`, otherwise the tokens from `start` to `last`, and in both
cases it writes back the index of the last token it consumed.  Its result is a decimal
number carrying the lexeme of the token at `start`, unresolved when that token is a
name (a label that is not defined). -/
def sampleEvaluate (tokens : List ParseToken) (start last : Int) : ParseToken × Int :=
  let stop := if last < start then start else last
  match tokenAt tokens start with
  | some t => ({ type := tokenTypeDECNUMBER, source := t.source,
                 unsolved := decide (t.type = tokenTypeLETTERS) }, stop)
  | none => ({ type := tokenTypeUNKNOWN, source := "", unsolved := false }, stop)

/-- The sample collaborators; the enumerators are numbered in the order of their
declaration. -/
def sampleExt : Externals where
  Evaluate := sampleEvaluate
  asNumber := sampleAsNumber
  ordinal := fun reg => reg.toCtorIdx

/-- A token of the given kind and lexeme, as the tokenizer produces it. -/
def tok (type : TokenType) (source : String) : ParseToken :=
  { type := type, source := source, unsolved := false }

/-- A code line with the cursor on its first token. -/
def lineOf (tokens : List ParseToken) (firstpass : Bool) : CodeLine :=
  { tokens := tokens, curtoken := 0, as := { firstpass := firstpass } }

/-- The tokens of `(IX+LABEL)`. -/
def tokensIXLabel : List ParseToken :=
  [tok tokenTypePAROPEN "(", tok tokenTypeLETTERS "IX", tok tokenTypeOP_PLUS "+",
   tok tokenTypeLETTERS "LABEL", tok tokenTypePARCLOSE ")"]

/-- The tokens of `(IX+5)`. -/
def tokensIX5 : List ParseToken :=
  [tok tokenTypePAROPEN "(", tok tokenTypeLETTERS "IX", tok tokenTypeOP_PLUS "+",
   tok tokenTypeDECNUMBER "5", tok tokenTypePARCLOSE ")"]

/-- The tokens of `(0x1234)`. -/
def tokensInd1234 : List ParseToken :=
  [tok tokenTypePAROPEN "(", tok tokenTypeHEXNUMBER "0x1234", tok tokenTypePARCLOSE ")"]

/-- The tokens of `(1+(2)`: the first parenthesis is never closed. -/
def tokensUnclosed : List ParseToken :=
  [tok tokenTypePAROPEN "(", tok tokenTypeDECNUMBER "1", tok tokenTypeOP_PLUS "+",
   tok tokenTypePAROPEN "(", tok tokenTypeDECNUMBER "2", tok tokenTypePARCLOSE ")"]

/-- The tokens of `((1)+2)`: the expression between the parentheses starts with a
parenthesis. -/
def tokensNested : List ParseToken :=
  [tok tokenTypePAROPEN "(", tok tokenTypePAROPEN "(", tok tokenTypeDECNUMBER "1",
   tok tokenTypePARCLOSE ")", tok tokenTypeOP_PLUS "+", tok tokenTypeDECNUMBER "2",
   tok tokenTypePARCLOSE ")"]

/-- The tokens of `(IX+5+6`: the parenthesis is never closed. -/
def tokensIXUnclosed : List ParseToken :=
  [tok tokenTypePAROPEN "(", tok tokenTypeLETTERS "IX", tok tokenTypeOP_PLUS "+",
   tok tokenTypeDECNUMBER "5", tok tokenTypeOP_PLUS "+", tok tokenTypeDECNUMBER "6"]

/-- The sample collaborators with the sign of the number changed: a lexeme `5` is read
as -5.  They give the evaluator a negative result to hand out. -/
def sampleNegExt : Externals where
  Evaluate := sampleEvaluate
  asNumber := fun token => - sampleAsNumber token
  ordinal := fun reg => reg.toCtorIdx

/-! ## Case analysis of the matchers -/

theorem reg8_cases (tokens : List ParseToken) (c : Int) (reg : OperandType)
    (out : Bool × Int × OperandType) (h : reg8 tokens c reg = some out) :
    (out.1 = false ∧ out.2.1 = c ∧ out.2.2 = reg) ∨ (out.1 = true ∧ out.2.1 = c + 1) := by
  unfold reg8 at h
  cases ht : tokenAt tokens c with
  | none => simp [ht] at h
  | some token =>
    simp only [ht, Option.some_bind] at h
    split at h
    · cases h; simp
    · split at h <;> cases h <;> simp

theorem reg16_cases (tokens : List ParseToken) (c : Int) (reg : OperandType)
    (out : Bool × Int × OperandType) (h : reg16 tokens c reg = some out) :
    (out.1 = false ∧ out.2.1 = c ∧ out.2.2 = reg) ∨ (out.1 = true ∧ out.2.1 = c + 1) := by
  unfold reg16 at h
  cases ht : tokenAt tokens c with
  | none => simp [ht] at h
  | some token =>
    simp only [ht, Option.some_bind] at h
    split at h
    · cases h; simp
    · split at h <;> cases h <;> simp

theorem indirectReg_cases (name : String) (ind : OperandType) (tokens : List ParseToken)
    (c : Int) (reg : OperandType) (out : Bool × Int × OperandType)
    (h : indirectReg name ind tokens c reg = some out) :
    (out.1 = false ∧ out.2.1 = c ∧ out.2.2 = reg) ∨
      (out.1 = true ∧ out.2.1 = c + 3 ∧ out.2.2 = ind) := by
  unfold indirectReg at h
  split at h
  · cases h; simp
  · cases h0 : tokenAt tokens c with
    | none => simp [h0] at h
    | some token0 =>
      simp only [h0, Option.some_bind] at h
      split at h
      · cases h; simp
      · cases h1 : tokenAt tokens (c + 1) with
        | none => simp [h1] at h
        | some token1 =>
          simp only [h1, Option.some_bind] at h
          split at h
          · cases h; simp
          · split at h
            · cases h; simp
            · cases h2 : tokenAt tokens (c + 2) with
              | none => simp [h2] at h
              | some token2 =>
                simp only [h2, Option.some_bind] at h
                split at h <;> cases h <;> simp

theorem condition_cases (tokens : List ParseToken) (c : Int) (cond : OperandType)
    (out : OperandError × Int × OperandType) (h : condition tokens c cond = some out) :
    (out.1 = operrNOTSTRING ∧ out.2.1 = c ∧ out.2.2 = cond) ∨
      (out.1 = operrNOTCONDITION ∧ out.2.1 = c ∧ out.2.2 = cond) ∨
      (out.1 = operrOK ∧ out.2.1 = c + 1) := by
  unfold condition at h
  cases ht : tokenAt tokens c with
  | none => simp [ht] at h
  | some token =>
    simp only [ht, Option.some_bind] at h
    split at h
    · cases h; simp
    · split at h <;> cases h <;> simp

theorem indirectX_cases (ext : Externals) (tokens : List ParseToken) (c : Int)
    (regX : OperandType) (value : Int) (out : OperandError × Int × OperandType × Int)
    (h : indirectX ext tokens c regX value = some out) :
    ((out.1 = operrTOKENNUMBER ∨ out.1 = operrMISSINGPAROPEN ∨ out.1 = operrREGISTERNAME ∨
        out.1 = operrWRONGOP) ∧ out.2.1 = c ∧ out.2.2.2 = value) ∨
      (∃ last : Int,
        (out.1 = operrUNSOLVED ∧ (ext.Evaluate tokens (c + 3) last).1.unsolved = true ∧
            out.2.2.2 = 0 ∨
          out.1 = operrOK ∧ (ext.Evaluate tokens (c + 3) last).1.unsolved = false) ∧
        (out.2.2.1 = regIX ∨ out.2.2.1 = regIY) ∧
        out.2.1 = (ext.Evaluate tokens (c + 3) last).2 + 1) := by
  unfold indirectX at h
  split at h
  · cases h; simp
  · cases h0 : tokenAt tokens c with
    | none => simp [h0] at h
    | some token0 =>
      simp only [h0, Option.some_bind] at h
      split at h
      · cases h; simp
      · cases hr : reg16 tokens (c + 1) regX with
        | none => simp [hr] at h
        | some r =>
          simp only [hr, Option.some_bind] at h
          split at h
          · cases h; simp
          · split at h
            · cases h; simp
            · cases h2 : tokenAt tokens (c + 2) with
              | none => simp [h2] at h
              | some token2 =>
                simp only [h2, Option.some_bind] at h
                split at h
                · cases h; simp
                · rename_i hne _
                  have hreg : r.2.2 = regIX ∨ r.2.2 = regIY := by
                    by_contra hcon
                    push_neg at hcon
                    exact hne hcon
                  right
                  refine ⟨(findClose (tokens.drop (c + 3).toNat) (c + 3) 1 token2).1 - 1, ?_⟩
                  split at h
                  · rename_i hu
                    cases h
                    exact ⟨Or.inl ⟨rfl, hu, rfl⟩, hreg, rfl⟩
                  · rename_i hu
                    cases h
                    exact ⟨Or.inr ⟨rfl, by simpa using hu⟩, hreg, rfl⟩

theorem bitnumber_cases (ext : Externals) (tokens : List ParseToken) (c : Int)
    (bit : OperandType) :
    ((bitnumber ext tokens c bit).1 = operrNOTBIT ∧ (bitnumber ext tokens c bit).2.1 = c ∧
        (bitnumber ext tokens c bit).2.2 = bit ∧ (ext.Evaluate tokens c (-1)).1.unsolved = false) ∨
      ((bitnumber ext tokens c bit).1 = operrUNSOLVED ∧
        (ext.Evaluate tokens c (-1)).1.unsolved = true ∧
        (bitnumber ext tokens c bit).2.1 = (ext.Evaluate tokens c (-1)).2 ∧
        (bitnumber ext tokens c bit).2.2 = bit0) ∨
      ((bitnumber ext tokens c bit).1 = operrOK ∧
        (ext.Evaluate tokens c (-1)).1.unsolved = false ∧
        (bitnumber ext tokens c bit).2.1 = (ext.Evaluate tokens c (-1)).2) := by
  unfold bitnumber
  dsimp only
  cases hu : (ext.Evaluate tokens c (-1)).1.unsolved
  · simp only [Bool.false_eq_true, if_false]
    by_cases ht : (ext.Evaluate tokens c (-1)).1.type = tokenTypeSTRING ∨
        (ext.Evaluate tokens c (-1)).1.type = tokenTypeDECNUMBER
    · rw [if_pos ht]
      by_cases hv : ext.asNumber (ext.Evaluate tokens c (-1)).1 < 0 ∨
          ext.asNumber (ext.Evaluate tokens c (-1)).1 > 7
      · rw [if_pos hv]; simp
      · rw [if_neg hv]; simp
    · rw [if_neg ht]; simp
  · simp

theorem number8_cases (ext : Externals) (tokens : List ParseToken) (c : Int) (value : Int) :
    (((number8 ext tokens c value).1 = operrTOOBIG ∨
        (number8 ext tokens c value).1 = operrNOTNUMBER) ∧
        (number8 ext tokens c value).2.1 = c ∧
        (ext.Evaluate tokens c (-1)).1.unsolved = false) ∨
      ((number8 ext tokens c value).1 = operrUNSOLVED ∧
        (ext.Evaluate tokens c (-1)).1.unsolved = true ∧
        (number8 ext tokens c value).2.1 = (ext.Evaluate tokens c (-1)).2 + 1 ∧
        (number8 ext tokens c value).2.2 = 0) ∨
      ((number8 ext tokens c value).1 = operrOK ∧
        (ext.Evaluate tokens c (-1)).1.unsolved = false ∧
        (number8 ext tokens c value).2.1 = (ext.Evaluate tokens c (-1)).2 + 1) := by
  unfold number8
  dsimp only
  cases hu : (ext.Evaluate tokens c (-1)).1.unsolved
  · simp only [Bool.false_eq_true, if_false]
    by_cases ht : (ext.Evaluate tokens c (-1)).1.type = tokenTypeSTRING ∨
        (ext.Evaluate tokens c (-1)).1.type = tokenTypeDECNUMBER
    · rw [if_pos ht]
      by_cases hv : ext.asNumber (ext.Evaluate tokens c (-1)).1 > 255
      · rw [if_pos hv]; simp
      · rw [if_neg hv]; simp
    · rw [if_neg ht]; simp
  · simp

theorem number16_cases (ext : Externals) (tokens : List ParseToken) (c : Int) (value : Int) :
    (((number16 ext tokens c value).1 = operrTOOBIG ∨
        (number16 ext tokens c value).1 = operrNOTNUMBER) ∧
        (number16 ext tokens c value).2.1 = c ∧
        (ext.Evaluate tokens c (-1)).1.unsolved = false) ∨
      ((number16 ext tokens c value).1 = operrUNSOLVED ∧
        (ext.Evaluate tokens c (-1)).1.unsolved = true ∧
        (number16 ext tokens c value).2.1 = (ext.Evaluate tokens c (-1)).2 + 1 ∧
        (number16 ext tokens c value).2.2 = 0) ∨
      ((number16 ext tokens c value).1 = operrOK ∧
        (ext.Evaluate tokens c (-1)).1.unsolved = false ∧
        (number16 ext tokens c value).2.1 = (ext.Evaluate tokens c (-1)).2 + 1) := by
  unfold number16
  dsimp only
  cases hu : (ext.Evaluate tokens c (-1)).1.unsolved
  · simp only [Bool.false_eq_true, if_false]
    by_cases ht : (ext.Evaluate tokens c (-1)).1.type = tokenTypeSTRING ∨
        (ext.Evaluate tokens c (-1)).1.type = tokenTypeDECNUMBER
    · rw [if_pos ht]
      by_cases hv : ext.asNumber (ext.Evaluate tokens c (-1)).1 > 65535
      · rw [if_pos hv]; simp
      · rw [if_neg hv]; simp
    · rw [if_neg ht]; simp
  · simp

theorem indirect16_cases (ext : Externals) (tokens : List ParseToken) (c : Int)
    (value lasttoken : Int) (out : OperandError × Int × Int)
    (h : indirect16 ext tokens c value lasttoken = some out) :
    out.1 = operrTOKENNUMBER ∨ out.1 = operrMISSINGPAROPEN ∨ out.1 = operrMISSINGPARCLOSE ∨
      out.1 = operrNOTNUMBER ∨ out.1 = operrOK ∨ (out.1 = operrUNSOLVED ∧ out.2.1 = 0) := by
  unfold indirect16 at h
  split at h
  · cases h; simp
  · cases h0 : tokenAt tokens c with
    | none => simp [h0] at h
    | some token0 =>
      simp only [h0, Option.some_bind] at h
      split at h
      · cases h; simp
      · cases h1 : tokenAt tokens (c + 1) with
        | none => simp [h1] at h
        | some token1 =>
          simp only [h1, Option.some_bind] at h
          split at h
          · cases h; simp
          · split at h
            · cases h; simp
            · split at h <;> cases h <;> simp

/-! ## The register probes of the numeric gates -/

theorem tokenAt_some_enough (codeline : CodeLine) (t : ParseToken)
    (ht : tokenAt codeline.tokens codeline.curtoken = some t) :
    EnoughTokensLeft codeline 1 = true := by
  unfold tokenAt at ht
  split at ht
  · cases ht
  · rename_i hneg
    have hlt : codeline.curtoken.toNat < codeline.tokens.length := by
      by_contra hge
      rw [List.getElem?_eq_none (by omega)] at ht
      cases ht
    simp only [EnoughTokensLeft, decide_eq_true_eq]
    omega

theorem probes_fail (tokens : List ParseToken) (c : Int) (t : ParseToken)
    (ht : tokenAt tokens c = some t) (hr : isRegisterName t = false) (reg : OperandType) :
    reg8 tokens c reg = some (false, c, reg) ∧ reg16 tokens c reg = some (false, c, reg) := by
  unfold reg8 reg16
  simp only [ht, Option.some_bind]
  by_cases hl : t.type = tokenTypeLETTERS
  · simp only [isRegisterName, hl, decide_True, Bool.true_and, Bool.or_eq_false_iff] at hr
    obtain ⟨h8, h16⟩ := hr
    cases e8 : registers8.lookup (to_upper t.source) with
    | some r => simp [e8] at h8
    | none =>
      cases e16 : registers16.lookup (to_upper t.source) with
      | some r => simp [e16] at h16
      | none => simp [hl]
  · simp [hl]

/-! ## The gates once their matcher is reached -/

theorem GetBitNumber_reach (ext : Externals) (codeline : CodeLine) (bit : OperandType)
    (t : ParseToken) (ht : tokenAt codeline.tokens codeline.curtoken = some t)
    (hr : isRegisterName t = false) :
    GetBitNumber ext codeline bit =
      some (if (bitnumber ext codeline.tokens codeline.curtoken bit).1 = operrOK then
          (operrOK,
            { codeline with
              curtoken := (bitnumber ext codeline.tokens codeline.curtoken bit).2.1 },
            (bitnumber ext codeline.tokens codeline.curtoken bit).2.2)
        else if IsFirstPass codeline.as = true ∧
            (bitnumber ext codeline.tokens codeline.curtoken bit).1 = operrUNSOLVED then
          (operrOK,
            { codeline with
              curtoken := (bitnumber ext codeline.tokens codeline.curtoken bit).2.1 },
            bit0)
        else
          ((bitnumber ext codeline.tokens codeline.curtoken bit).1,
            { codeline with
              curtoken := (bitnumber ext codeline.tokens codeline.curtoken bit).2.1 },
            (bitnumber ext codeline.tokens codeline.curtoken bit).2.2)) := by
  have he := tokenAt_some_enough codeline t ht
  obtain ⟨h8, h16⟩ := probes_fail codeline.tokens codeline.curtoken t ht hr bit
  unfold GetBitNumber
  simp only [he, h8, h16, Option.some_bind, Bool.true_eq_false, Bool.false_eq_true, if_false]
  split_ifs <;> rfl

theorem GetNum8_reach (ext : Externals) (scratch : OperandType) (codeline : CodeLine)
    (value : Int) (t : ParseToken) (ht : tokenAt codeline.tokens codeline.curtoken = some t)
    (hr : isRegisterName t = false) :
    GetNum8 ext scratch codeline value =
      some (if (number8 ext codeline.tokens codeline.curtoken value).1 = operrOK then
          (operrOK,
            { codeline with
              curtoken := (number8 ext codeline.tokens codeline.curtoken value).2.1 },
            (number8 ext codeline.tokens codeline.curtoken value).2.2)
        else if IsFirstPass codeline.as = true ∧
            (number8 ext codeline.tokens codeline.curtoken value).1 = operrUNSOLVED then
          (operrOK,
            { codeline with
              curtoken := (number8 ext codeline.tokens codeline.curtoken value).2.1 },
            0)
        else
          (operrNOTNUMBER,
            { codeline with
              curtoken := (number8 ext codeline.tokens codeline.curtoken value).2.1 },
            (number8 ext codeline.tokens codeline.curtoken value).2.2)) := by
  have he := tokenAt_some_enough codeline t ht
  obtain ⟨h8, h16⟩ := probes_fail codeline.tokens codeline.curtoken t ht hr scratch
  unfold GetNum8
  simp only [he, h8, h16, Option.some_bind, Bool.true_eq_false, Bool.false_eq_true, if_false]
  split_ifs <;> rfl

theorem GetNum16_reach (ext : Externals) (scratch : OperandType) (codeline : CodeLine)
    (value : Int) (t : ParseToken) (ht : tokenAt codeline.tokens codeline.curtoken = some t)
    (hr : isRegisterName t = false) :
    GetNum16 ext scratch codeline value =
      some (if (number16 ext codeline.tokens codeline.curtoken value).1 = operrOK then
          (operrOK,
            { codeline with
              curtoken := (number16 ext codeline.tokens codeline.curtoken value).2.1 },
            (number16 ext codeline.tokens codeline.curtoken value).2.2)
        else if IsFirstPass codeline.as = true ∧
            (number16 ext codeline.tokens codeline.curtoken value).1 = operrUNSOLVED then
          (operrOK,
            { codeline with
              curtoken := (number16 ext codeline.tokens codeline.curtoken value).2.1 },
            0)
        else
          (operrNOTNUMBER,
            { codeline with
              curtoken := (number16 ext codeline.tokens codeline.curtoken value).2.1 },
            (number16 ext codeline.tokens codeline.curtoken value).2.2)) := by
  have he := tokenAt_some_enough codeline t ht
  obtain ⟨h8, h16⟩ := probes_fail codeline.tokens codeline.curtoken t ht hr scratch
  unfold GetNum16
  simp only [he, h8, h16, Option.some_bind, Bool.true_eq_false, Bool.false_eq_true, if_false]
  split_ifs <;> rfl

theorem GetIndX_reach (ext : Externals) (codeline : CodeLine) (regX : OperandType)
    (value : Int) (m : OperandError × Int × OperandType × Int)
    (he : EnoughTokensLeft codeline 5 = true)
    (hm : indirectX ext codeline.tokens codeline.curtoken regX value = some m) :
    GetIndX ext codeline regX value =
      some (if m.1 = operrOK then (operrOK, { codeline with curtoken := m.2.1 }, m.2.2.1, m.2.2.2)
        else if IsFirstPass codeline.as = true ∧ m.1 = operrUNSOLVED then
          (operrOK, { codeline with curtoken := m.2.1 }, m.2.2.1, 0)
        else (operrWRONGREGISTER, { codeline with curtoken := m.2.1 }, m.2.2.1, m.2.2.2)) := by
  unfold GetIndX
  simp only [he, hm, Option.some_bind, Bool.true_eq_false, if_false]
  split_ifs <;> rfl

theorem GetCond_reach (codeline : CodeLine) (cond : OperandType)
    (m : OperandError × Int × OperandType)
    (he : EnoughTokensLeft codeline 1 = true)
    (hm : condition codeline.tokens codeline.curtoken cond = some m) :
    GetCond codeline cond =
      some (if m.1 = operrOK then (operrOK, { codeline with curtoken := m.2.1 }, m.2.2)
        else (operrNOTCONDITION, { codeline with curtoken := m.2.1 }, m.2.2)) := by
  unfold GetCond
  simp only [he, hm, Option.some_bind, Bool.true_eq_false, if_false]
  split_ifs <;> rfl

theorem GetInd16_reach (ext : Externals) (scratch : Int) (codeline : CodeLine)
    (value : Int) (m : OperandError × Int × Int)
    (he : EnoughTokensLeft codeline 3 = true)
    (hm : indirect16 ext codeline.tokens codeline.curtoken value scratch = some m) :
    GetInd16 ext scratch codeline value =
      some (if m.1 = operrOK then (operrOK, { codeline with curtoken := m.2.2 }, m.2.1)
        else if m.1 = operrUNSOLVED ∧ IsFirstPass codeline.as = true then
          (operrOK, { codeline with curtoken := m.2.2 }, 0)
        else (operrNOTNUMBER, codeline, m.2.1)) := by
  unfold GetInd16
  simp only [he, hm, Option.some_bind, Bool.true_eq_false, if_false]
  split_ifs <;> rfl

/-! ## Results of the gates on an unresolved expression -/

/-- C1, counterexample: on pass 2, on the line `(IX+LABEL)` whose label is unresolved,
`indirectX` reaches the evaluator and reports `operrUNSOLVED`, but `GetIndX` returns
`operrWRONGREGISTER` (with `d = 0`), not `operrUNSOLVED`. -/
theorem C1_GetIndX_pass2_replaces_unsolved :
    IsFirstPass (lineOf tokensIXLabel false).as = false ∧
    (sampleExt.Evaluate tokensIXLabel 3 3).1.unsolved = true ∧
    (indirectX sampleExt tokensIXLabel 0 regA 7).map Prod.fst = some operrUNSOLVED ∧
    GetIndX sampleExt (lineOf tokensIXLabel false) regA 7 =
      some (operrWRONGREGISTER, { lineOf tokensIXLabel false with curtoken := 4 }, regIX, 0) ∧
    (GetIndX sampleExt (lineOf tokensIXLabel false) regA 7).map Prod.fst ≠
      some operrUNSOLVED := by
  decide

/-- C2: on pass 1 none of `GetIndX`, `GetBitNumber`, `GetNum8`, `GetNum16`, `GetInd16`
returns `operrUNSOLVED`, whatever the line and the evaluator; and when the matcher the
gate calls returns `operrUNSOLVED`, the gate returns `operrOK` with the neutral value
(0 for a displacement or an immediate, `bit0` for a bit number). -/
theorem C2_pass1_unsolved_policy (ext : Externals) (codeline : CodeLine)
    (hpass : IsFirstPass codeline.as = true) :
    ((∀ (regX : OperandType) (value : Int) (out : OperandError × CodeLine × OperandType × Int),
        GetIndX ext codeline regX value = some out → out.1 ≠ operrUNSOLVED) ∧
      (∀ (bit : OperandType) (out : OperandError × CodeLine × OperandType),
        GetBitNumber ext codeline bit = some out → out.1 ≠ operrUNSOLVED) ∧
      (∀ (scratch : OperandType) (value : Int) (out : OperandError × CodeLine × Int),
        GetNum8 ext scratch codeline value = some out → out.1 ≠ operrUNSOLVED) ∧
      (∀ (scratch : OperandType) (value : Int) (out : OperandError × CodeLine × Int),
        GetNum16 ext scratch codeline value = some out → out.1 ≠ operrUNSOLVED) ∧
      (∀ (scratch value : Int) (out : OperandError × CodeLine × Int),
        GetInd16 ext scratch codeline value = some out → out.1 ≠ operrUNSOLVED)) ∧
    ((∀ (regX : OperandType) (value : Int) (m : OperandError × Int × OperandType × Int),
        EnoughTokensLeft codeline 5 = true →
        indirectX ext codeline.tokens codeline.curtoken regX value = some m →
        m.1 = operrUNSOLVED →
        GetIndX ext codeline regX value =
          some (operrOK, { codeline with curtoken := m.2.1 }, m.2.2.1, 0)) ∧
      (∀ (bit : OperandType) (t : ParseToken),
        tokenAt codeline.tokens codeline.curtoken = some t → isRegisterName t = false →
        (bitnumber ext codeline.tokens codeline.curtoken bit).1 = operrUNSOLVED →
        GetBitNumber ext codeline bit =
          some (operrOK,
            { codeline with
              curtoken := (bitnumber ext codeline.tokens codeline.curtoken bit).2.1 },
            bit0)) ∧
      (∀ (scratch : OperandType) (value : Int) (t : ParseToken),
        tokenAt codeline.tokens codeline.curtoken = some t → isRegisterName t = false →
        (number8 ext codeline.tokens codeline.curtoken value).1 = operrUNSOLVED →
        GetNum8 ext scratch codeline value =
          some (operrOK,
            { codeline with
              curtoken := (number8 ext codeline.tokens codeline.curtoken value).2.1 },
            0)) ∧
      (∀ (scratch : OperandType) (value : Int) (t : ParseToken),
        tokenAt codeline.tokens codeline.curtoken = some t → isRegisterName t = false →
        (number16 ext codeline.tokens codeline.curtoken value).1 = operrUNSOLVED →
        GetNum16 ext scratch codeline value =
          some (operrOK,
            { codeline with
              curtoken := (number16 ext codeline.tokens codeline.curtoken value).2.1 },
            0)) ∧
      (∀ (scratch value : Int) (m : OperandError × Int × Int),
        EnoughTokensLeft codeline 3 = true →
        indirect16 ext codeline.tokens codeline.curtoken value scratch = some m →
        m.1 = operrUNSOLVED →
        GetInd16 ext scratch codeline value =
          some (operrOK, { codeline with curtoken := m.2.2 }, 0))) := by
  refine ⟨⟨?_, ?_, ?_, ?_, ?_⟩, ⟨?_, ?_, ?_, ?_, ?_⟩⟩
  · intro regX value out h
    unfold GetIndX at h
    split at h
    · cases h; simp
    · cases hm : indirectX ext codeline.tokens codeline.curtoken regX value with
      | none => simp [hm] at h
      | some m =>
        simp only [hm, Option.some_bind] at h
        split_ifs at h <;> cases h <;> simp
  · intro bit out h
    unfold GetBitNumber at h
    split at h
    · cases h; simp
    · cases h8 : reg8 codeline.tokens codeline.curtoken bit with
      | none => simp [h8] at h
      | some r8 =>
        simp only [h8, Option.some_bind] at h
        split at h
        · cases h; simp
        · cases h16 : reg16 codeline.tokens r8.2.1 r8.2.2 with
          | none => simp [h16] at h
          | some r16 =>
            simp only [h16, Option.some_bind] at h
            split at h
            · cases h; simp
            · split_ifs at h with h1 h2
              · cases h; simp
              · cases h; simp
              · cases h
                intro hu
                exact h2 ⟨hpass, hu⟩
  · intro scratch value out h
    unfold GetNum8 at h
    split at h
    · cases h; simp
    · cases h8 : reg8 codeline.tokens codeline.curtoken scratch with
      | none => simp [h8] at h
      | some r8 =>
        simp only [h8, Option.some_bind] at h
        split at h
        · cases h; simp
        · cases h16 : reg16 codeline.tokens r8.2.1 r8.2.2 with
          | none => simp [h16] at h
          | some r16 =>
            simp only [h16, Option.some_bind] at h
            split at h
            · cases h; simp
            · split_ifs at h <;> cases h <;> simp
  · intro scratch value out h
    unfold GetNum16 at h
    split at h
    · cases h; simp
    · cases h8 : reg8 codeline.tokens codeline.curtoken scratch with
      | none => simp [h8] at h
      | some r8 =>
        simp only [h8, Option.some_bind] at h
        split at h
        · cases h; simp
        · cases h16 : reg16 codeline.tokens r8.2.1 r8.2.2 with
          | none => simp [h16] at h
          | some r16 =>
            simp only [h16, Option.some_bind] at h
            split at h
            · cases h; simp
            · split_ifs at h <;> cases h <;> simp
  · intro scratch value out h
    unfold GetInd16 at h
    split at h
    · cases h; simp
    · cases hm : indirect16 ext codeline.tokens codeline.curtoken value scratch with
      | none => simp [hm] at h
      | some m =>
        simp only [hm, Option.some_bind] at h
        split_ifs at h <;> cases h <;> simp
  · intro regX value m he hm hu
    rw [GetIndX_reach ext codeline regX value m he hm]
    simp [hu, hpass]
  · intro bit t ht hr hu
    rw [GetBitNumber_reach ext codeline bit t ht hr]
    simp [hu, hpass]
  · intro scratch value t ht hr hu
    rw [GetNum8_reach ext scratch codeline value t ht hr]
    simp [hu, hpass]
  · intro scratch value t ht hr hu
    rw [GetNum16_reach ext scratch codeline value t ht hr]
    simp [hu, hpass]
  · intro scratch value m he hm hu
    rw [GetInd16_reach ext scratch codeline value m he hm]
    simp [hu, hpass]

/-- C2, witness: on pass 1, on `(IX+LABEL)` with the label unresolved, `indirectX`
returns `operrUNSOLVED` and `GetIndX` returns `operrOK` with `d = 0`. -/
theorem C2_pass1_unsolved_policy_witness :
    IsFirstPass (lineOf tokensIXLabel true).as = true ∧
    EnoughTokensLeft (lineOf tokensIXLabel true) 5 = true ∧
    indirectX sampleExt tokensIXLabel 0 regA 7 = some (operrUNSOLVED, 4, regIX, 0) ∧
    GetIndX sampleExt (lineOf tokensIXLabel true) regA 7 =
      some (operrOK, { lineOf tokensIXLabel true with curtoken := 4 }, regIX, 0) :=
  ⟨by decide, by decide, by decide,
    (C2_pass1_unsolved_policy sampleExt (lineOf tokensIXLabel true) (by decide)).2.1
      regA 7 (operrUNSOLVED, 4, regIX, 0) (by decide) (by decide) rfl⟩

/-! ## Which error code a gate returns -/

/-- C3, counterexample: on a line whose first token is the number `5`, `condition`
returns `operrNOTSTRING` but `GetCond` returns `operrNOTCONDITION`; on `5 IX + 5 )`,
`indirectX` returns `operrMISSINGPAROPEN` but `GetIndX` returns `operrWRONGREGISTER`;
and `indirect16` returns `operrMISSINGPAROPEN` there but `GetInd16` returns
`operrNOTNUMBER`.  The pass is pass 2, and none of these errors is `operrUNSOLVED`. -/
theorem C3_gates_replace_matcher_errors :
    (condition [tok tokenTypeDECNUMBER "5"] 0 regA).map Prod.fst = some operrNOTSTRING ∧
    (GetCond (lineOf [tok tokenTypeDECNUMBER "5"] false) regA).map Prod.fst =
      some operrNOTCONDITION ∧
    (indirectX sampleExt (tok tokenTypeDECNUMBER "5" :: tokensIX5.tail) 0 regA 7).map Prod.fst =
      some operrMISSINGPAROPEN ∧
    (GetIndX sampleExt (lineOf (tok tokenTypeDECNUMBER "5" :: tokensIX5.tail) false)
      regA 7).map Prod.fst = some operrWRONGREGISTER ∧
    (indirect16 sampleExt (tok tokenTypeDECNUMBER "5" :: tokensIX5.tail) 0 7 0).map Prod.fst =
      some operrMISSINGPAROPEN ∧
    (GetInd16 sampleExt 0 (lineOf (tok tokenTypeDECNUMBER "5" :: tokensIX5.tail) false)
      7).map Prod.fst = some operrNOTNUMBER := by
  decide

/-- C3, amended: when the matcher a gate calls returns an error `e` (a code other than
`operrOK`) that is not a pass-1 `operrUNSOLVED`, `GetBitNumber` returns exactly `e`;
every other gate returns one fixed code whatever `e` is: `operrWRONGREGISTER` for
`GetIndX`, `operrNOTCONDITION` for `GetCond`, and `operrNOTNUMBER` for `GetNum8`,
`GetNum16` and `GetInd16`. -/
theorem C3_gate_error_codes (ext : Externals) (codeline : CodeLine) :
    (∀ (regX : OperandType) (value : Int) (m : OperandError × Int × OperandType × Int),
        EnoughTokensLeft codeline 5 = true →
        indirectX ext codeline.tokens codeline.curtoken regX value = some m →
        m.1 ≠ operrOK → ¬ (IsFirstPass codeline.as = true ∧ m.1 = operrUNSOLVED) →
        (GetIndX ext codeline regX value).map Prod.fst = some operrWRONGREGISTER) ∧
    (∀ (bit : OperandType) (t : ParseToken),
        tokenAt codeline.tokens codeline.curtoken = some t → isRegisterName t = false →
        (bitnumber ext codeline.tokens codeline.curtoken bit).1 ≠ operrOK →
        ¬ (IsFirstPass codeline.as = true ∧
          (bitnumber ext codeline.tokens codeline.curtoken bit).1 = operrUNSOLVED) →
        (GetBitNumber ext codeline bit).map Prod.fst =
          some (bitnumber ext codeline.tokens codeline.curtoken bit).1) ∧
    (∀ (cond : OperandType) (m : OperandError × Int × OperandType),
        EnoughTokensLeft codeline 1 = true →
        condition codeline.tokens codeline.curtoken cond = some m →
        m.1 ≠ operrOK →
        (GetCond codeline cond).map Prod.fst = some operrNOTCONDITION) ∧
    (∀ (scratch : OperandType) (value : Int) (t : ParseToken),
        tokenAt codeline.tokens codeline.curtoken = some t → isRegisterName t = false →
        (number8 ext codeline.tokens codeline.curtoken value).1 ≠ operrOK →
        ¬ (IsFirstPass codeline.as = true ∧
          (number8 ext codeline.tokens codeline.curtoken value).1 = operrUNSOLVED) →
        (GetNum8 ext scratch codeline value).map Prod.fst = some operrNOTNUMBER) ∧
    (∀ (scratch : OperandType) (value : Int) (t : ParseToken),
        tokenAt codeline.tokens codeline.curtoken = some t → isRegisterName t = false →
        (number16 ext codeline.tokens codeline.curtoken value).1 ≠ operrOK →
        ¬ (IsFirstPass codeline.as = true ∧
          (number16 ext codeline.tokens codeline.curtoken value).1 = operrUNSOLVED) →
        (GetNum16 ext scratch codeline value).map Prod.fst = some operrNOTNUMBER) ∧
    (∀ (scratch value : Int) (m : OperandError × Int × Int),
        EnoughTokensLeft codeline 3 = true →
        indirect16 ext codeline.tokens codeline.curtoken value scratch = some m →
        m.1 ≠ operrOK → ¬ (IsFirstPass codeline.as = true ∧ m.1 = operrUNSOLVED) →
        (GetInd16 ext scratch codeline value).map Prod.fst = some operrNOTNUMBER) := by
  refine ⟨?_, ?_, ?_, ?_, ?_, ?_⟩
  · intro regX value m he hm hok hun
    rw [GetIndX_reach ext codeline regX value m he hm, if_neg hok, if_neg hun]
    rfl
  · intro bit t ht hr hok hun
    rw [GetBitNumber_reach ext codeline bit t ht hr, if_neg hok, if_neg hun]
    rfl
  · intro cond m he hm hok
    rw [GetCond_reach codeline cond m he hm, if_neg hok]
    rfl
  · intro scratch value t ht hr hok hun
    rw [GetNum8_reach ext scratch codeline value t ht hr, if_neg hok, if_neg hun]
    rfl
  · intro scratch value t ht hr hok hun
    rw [GetNum16_reach ext scratch codeline value t ht hr, if_neg hok, if_neg hun]
    rfl
  · intro scratch value m he hm hok hun
    have hun2 : ¬ (m.1 = operrUNSOLVED ∧ IsFirstPass codeline.as = true) :=
      fun h => hun ⟨h.2, h.1⟩
    rw [GetInd16_reach ext scratch codeline value m he hm, if_neg hok, if_neg hun2]
    rfl

/-- C3, witness: the amended statement applied to `GetBitNumber` on the one-token line
`9` on pass 2, where `bitnumber` returns `operrNOTBIT` and so does the gate. -/
theorem C3_gate_error_codes_witness :
    isRegisterName (tok tokenTypeDECNUMBER "9") = false ∧
    (bitnumber sampleExt [tok tokenTypeDECNUMBER "9"] 0 regA).1 = operrNOTBIT ∧
    (GetBitNumber sampleExt (lineOf [tok tokenTypeDECNUMBER "9"] false) regA).map Prod.fst =
      some (bitnumber sampleExt (lineOf [tok tokenTypeDECNUMBER "9"] false).tokens
        (lineOf [tok tokenTypeDECNUMBER "9"] false).curtoken regA).1 :=
  ⟨by decide, by decide,
    (C3_gate_error_codes sampleExt (lineOf [tok tokenTypeDECNUMBER "9"] false)).2.1 regA
      (tok tokenTypeDECNUMBER "9") (by decide) (by decide) (by decide) (by decide)⟩

/-! ## Oversize immediates -/

/-- C4, counterexample: on the single token `256`, on either pass, `number8` returns
`operrTOOBIG` but `GetNum8` returns `operrNOTNUMBER`. -/
theorem C4_GetNum8_256_not_toobig :
    isRegisterName (tok tokenTypeDECNUMBER "256") = false ∧
    sampleExt.asNumber (sampleExt.Evaluate [tok tokenTypeDECNUMBER "256"] 0 (-1)).1 = 256 ∧
    number8 sampleExt [tok tokenTypeDECNUMBER "256"] 0 7 = (operrTOOBIG, 0, 256) ∧
    GetNum8 sampleExt regA (lineOf [tok tokenTypeDECNUMBER "256"] true) 7 =
      some (operrNOTNUMBER, lineOf [tok tokenTypeDECNUMBER "256"] true, 256) ∧
    GetNum8 sampleExt regA (lineOf [tok tokenTypeDECNUMBER "256"] false) 7 =
      some (operrNOTNUMBER, lineOf [tok tokenTypeDECNUMBER "256"] false, 256) := by
  decide

/-- C4, amended: on either pass, when the token at the cursor is not a register name
and the evaluator resolves the expression to a numeric kind (`STRING` or `DECNUMBER`)
with a value above 255, `number8` returns `operrTOOBIG` and `GetNum8` returns
`operrNOTNUMBER`; the code line is left as it was and `value` holds the oversize
number. -/
theorem C4_GetNum8_oversize (ext : Externals) (scratch : OperandType) (codeline : CodeLine)
    (value : Int) (t : ParseToken)
    (ht : tokenAt codeline.tokens codeline.curtoken = some t)
    (hreg : isRegisterName t = false)
    (hsolved : (ext.Evaluate codeline.tokens codeline.curtoken (-1)).1.unsolved = false)
    (hkind : (ext.Evaluate codeline.tokens codeline.curtoken (-1)).1.type = tokenTypeSTRING ∨
      (ext.Evaluate codeline.tokens codeline.curtoken (-1)).1.type = tokenTypeDECNUMBER)
    (hbig : ext.asNumber (ext.Evaluate codeline.tokens codeline.curtoken (-1)).1 > 255) :
    number8 ext codeline.tokens codeline.curtoken value =
        (operrTOOBIG, codeline.curtoken,
          ext.asNumber (ext.Evaluate codeline.tokens codeline.curtoken (-1)).1) ∧
      GetNum8 ext scratch codeline value =
        some (operrNOTNUMBER, codeline,
          ext.asNumber (ext.Evaluate codeline.tokens codeline.curtoken (-1)).1) := by
  have hn : number8 ext codeline.tokens codeline.curtoken value =
      (operrTOOBIG, codeline.curtoken,
        ext.asNumber (ext.Evaluate codeline.tokens codeline.curtoken (-1)).1) := by
    unfold number8
    dsimp only
    rw [hsolved]
    simp only [Bool.false_eq_true, if_false]
    rw [if_pos hkind, if_pos hbig]
  refine ⟨hn, ?_⟩
  rw [GetNum8_reach ext scratch codeline value t ht hreg, hn]
  simp

/-- C4, witness: the amended statement applied to the single token `300` on pass 2. -/
theorem C4_GetNum8_oversize_witness :
    number8 sampleExt [tok tokenTypeDECNUMBER "300"] 0 7 = (operrTOOBIG, 0, 300) ∧
    GetNum8 sampleExt regB (lineOf [tok tokenTypeDECNUMBER "300"] false) 7 =
      some (operrNOTNUMBER, lineOf [tok tokenTypeDECNUMBER "300"] false, 300) :=
  C4_GetNum8_oversize sampleExt regB (lineOf [tok tokenTypeDECNUMBER "300"] false) 7
    (tok tokenTypeDECNUMBER "300") (by decide) (by decide) (by decide) (by decide) (by decide)

/-! ## The cursor after a failed match -/

/-- C5: a low-level matcher that returns `false`, or an error other than
`operrUNSOLVED`, leaves the cursor it received by reference where it was.  This holds
for `reg8`, `reg16`, `indirectC`, `indirectHL`, `indirectBC`, `indirectDE`,
`indirectSP`, `indirectX`, `bitnumber`, `condition`, `number8` and `number16`, for
every token sequence, cursor and evaluator. -/
theorem C5_failed_matcher_keeps_cursor (ext : Externals) (tokens : List ParseToken)
    (c : Int) :
    (∀ (reg : OperandType) (out : Bool × Int × OperandType),
        reg8 tokens c reg = some out → out.1 = false → out.2.1 = c) ∧
    (∀ (reg : OperandType) (out : Bool × Int × OperandType),
        reg16 tokens c reg = some out → out.1 = false → out.2.1 = c) ∧
    (∀ (reg : OperandType) (out : Bool × Int × OperandType),
        indirectC tokens c reg = some out → out.1 = false → out.2.1 = c) ∧
    (∀ (reg : OperandType) (out : Bool × Int × OperandType),
        indirectHL tokens c reg = some out → out.1 = false → out.2.1 = c) ∧
    (∀ (reg : OperandType) (out : Bool × Int × OperandType),
        indirectBC tokens c reg = some out → out.1 = false → out.2.1 = c) ∧
    (∀ (reg : OperandType) (out : Bool × Int × OperandType),
        indirectDE tokens c reg = some out → out.1 = false → out.2.1 = c) ∧
    (∀ (reg : OperandType) (out : Bool × Int × OperandType),
        indirectSP tokens c reg = some out → out.1 = false → out.2.1 = c) ∧
    (∀ (regX : OperandType) (value : Int) (out : OperandError × Int × OperandType × Int),
        indirectX ext tokens c regX value = some out →
        out.1 ≠ operrOK → out.1 ≠ operrUNSOLVED → out.2.1 = c) ∧
    (∀ (bit : OperandType),
        (bitnumber ext tokens c bit).1 ≠ operrOK →
        (bitnumber ext tokens c bit).1 ≠ operrUNSOLVED → (bitnumber ext tokens c bit).2.1 = c) ∧
    (∀ (cond : OperandType) (out : OperandError × Int × OperandType),
        condition tokens c cond = some out →
        out.1 ≠ operrOK → out.1 ≠ operrUNSOLVED → out.2.1 = c) ∧
    (∀ (value : Int),
        (number8 ext tokens c value).1 ≠ operrOK →
        (number8 ext tokens c value).1 ≠ operrUNSOLVED → (number8 ext tokens c value).2.1 = c) ∧
    (∀ (value : Int),
        (number16 ext tokens c value).1 ≠ operrOK →
        (number16 ext tokens c value).1 ≠ operrUNSOLVED →
        (number16 ext tokens c value).2.1 = c) := by
  refine ⟨?_, ?_, ?_, ?_, ?_, ?_, ?_, ?_, ?_, ?_, ?_, ?_⟩
  · intro reg out h hf
    rcases reg8_cases tokens c reg out h with ⟨-, hc, -⟩ | ⟨ht, -⟩
    · exact hc
    · rw [hf] at ht; cases ht
  · intro reg out h hf
    rcases reg16_cases tokens c reg out h with ⟨-, hc, -⟩ | ⟨ht, -⟩
    · exact hc
    · rw [hf] at ht; cases ht
  · intro reg out h hf
    rcases indirectReg_cases "C" indC tokens c reg out h with ⟨-, hc, -⟩ | ⟨ht, -⟩
    · exact hc
    · rw [hf] at ht; cases ht
  · intro reg out h hf
    rcases indirectReg_cases "HL" indHL tokens c reg out h with ⟨-, hc, -⟩ | ⟨ht, -⟩
    · exact hc
    · rw [hf] at ht; cases ht
  · intro reg out h hf
    rcases indirectReg_cases "BC" indBC tokens c reg out h with ⟨-, hc, -⟩ | ⟨ht, -⟩
    · exact hc
    · rw [hf] at ht; cases ht
  · intro reg out h hf
    rcases indirectReg_cases "DE" indDE tokens c reg out h with ⟨-, hc, -⟩ | ⟨ht, -⟩
    · exact hc
    · rw [hf] at ht; cases ht
  · intro reg out h hf
    rcases indirectReg_cases "SP" indSP tokens c reg out h with ⟨-, hc, -⟩ | ⟨ht, -⟩
    · exact hc
    · rw [hf] at ht; cases ht
  · intro regX value out h hok hun
    rcases indirectX_cases ext tokens c regX value out h with ⟨-, hc, -⟩ | ⟨last, hr, -, -⟩
    · exact hc
    · rcases hr with ⟨hu, -, -⟩ | ⟨ho, -⟩
      · exact absurd hu hun
      · exact absurd ho hok
  · intro bit hok hun
    rcases bitnumber_cases ext tokens c bit with ⟨-, hc, -⟩ | ⟨hu, -⟩ | ⟨ho, -⟩
    · exact hc
    · exact absurd hu hun
    · exact absurd ho hok
  · intro cond out h hok _
    rcases condition_cases tokens c cond out h with ⟨-, hc, -⟩ | ⟨-, hc, -⟩ | ⟨ho, -⟩
    · exact hc
    · exact hc
    · exact absurd ho hok
  · intro value hok hun
    rcases number8_cases ext tokens c value with ⟨-, hc, -⟩ | ⟨hu, -⟩ | ⟨ho, -⟩
    · exact hc
    · exact absurd hu hun
    · exact absurd ho hok
  · intro value hok hun
    rcases number16_cases ext tokens c value with ⟨-, hc, -⟩ | ⟨hu, -⟩ | ⟨ho, -⟩
    · exact hc
    · exact absurd hu hun
    · exact absurd ho hok

/-- C5, witness: on `(HL+5)`, `indirectX` fails with `operrREGISTERNAME` and the cursor
stays at 0, although the register probe inside it has matched `HL`. -/
theorem C5_failed_matcher_keeps_cursor_witness :
    indirectX sampleExt
        [tok tokenTypePAROPEN "(", tok tokenTypeLETTERS "HL", tok tokenTypeOP_PLUS "+",
          tok tokenTypeDECNUMBER "5", tok tokenTypePARCLOSE ")"] 0 regA 7 =
      some (operrREGISTERNAME, 0, regHL, 7) ∧
    (operrREGISTERNAME, (0 : Int), regHL, (7 : Int)).2.1 = 0 :=
  ⟨by decide,
    (C5_failed_matcher_keeps_cursor sampleExt
      [tok tokenTypePAROPEN "(", tok tokenTypeLETTERS "HL", tok tokenTypeOP_PLUS "+",
        tok tokenTypeDECNUMBER "5", tok tokenTypePARCLOSE ")"] 0).2.2.2.2.2.2.2.1
      regA 7 (operrREGISTERNAME, 0, regHL, 7) (by decide) (by decide) (by decide)⟩

/-! ## The cursor of the code line after a gate -/

theorem GetReg8_failure_cursor (ext : Externals) (codeline : CodeLine) (reg : OperandType)
    (regs : Nat) (out : OperandError × CodeLine × OperandType)
    (h : GetReg8 ext codeline reg regs = some out) (hne : out.1 ≠ operrOK) :
    out.2.1.curtoken = codeline.curtoken := by
  unfold GetReg8 at h
  split at h
  · cases h; rfl
  · cases hr : reg8 codeline.tokens codeline.curtoken reg with
    | none => simp [hr] at h
    | some r =>
      simp only [hr, Option.some_bind] at h
      split_ifs at h
      · cases h; exact absurd rfl hne
      · cases h; rfl
      · cases h; rfl

theorem GetReg16_failure_cursor (ext : Externals) (codeline : CodeLine) (reg : OperandType)
    (regs : Nat) (out : OperandError × CodeLine × OperandType)
    (h : GetReg16 ext codeline reg regs = some out) (hne : out.1 ≠ operrOK) :
    out.2.1.curtoken = codeline.curtoken := by
  unfold GetReg16 at h
  split at h
  · cases h; rfl
  · cases hr : reg16 codeline.tokens codeline.curtoken reg with
    | none => simp [hr] at h
    | some r =>
      simp only [hr, Option.some_bind] at h
      split_ifs at h
      · cases h; exact absurd rfl hne
      · cases h; rfl
      · cases h; rfl

theorem GetIndReg_failure_cursor (name : String) (ind scratch : OperandType)
    (codeline : CodeLine) (out : OperandError × CodeLine)
    (h : GetIndReg (indirectReg name ind) scratch codeline = some out)
    (hne : out.1 ≠ operrOK) : out.2.curtoken = codeline.curtoken := by
  unfold GetIndReg at h
  split at h
  · cases h; rfl
  · cases hr : indirectReg name ind codeline.tokens codeline.curtoken scratch with
    | none => simp [hr] at h
    | some r =>
      simp only [hr, Option.some_bind] at h
      rcases indirectReg_cases name ind _ _ _ _ hr with ⟨hf, hc, -⟩ | ⟨ht, -⟩
      · simp only [hf, Bool.false_eq_true, if_false] at h
        cases h
        exact hc
      · simp only [ht, if_true] at h
        cases h
        exact absurd rfl hne

theorem GetIndX_failure_cursor (ext : Externals) (codeline : CodeLine) (regX : OperandType)
    (value : Int) (out : OperandError × CodeLine × OperandType × Int)
    (h : GetIndX ext codeline regX value = some out) (hne : out.1 ≠ operrOK) :
    out.2.1.curtoken = codeline.curtoken ∨
      (IsFirstPass codeline.as = false ∧
        ∃ m, indirectX ext codeline.tokens codeline.curtoken regX value = some m ∧
          m.1 = operrUNSOLVED ∧ out.2.1.curtoken = m.2.1) := by
  unfold GetIndX at h
  split at h
  · cases h; exact Or.inl rfl
  · cases hm : indirectX ext codeline.tokens codeline.curtoken regX value with
    | none => simp [hm] at h
    | some m =>
      simp only [hm, Option.some_bind] at h
      split_ifs at h with h1 h2
      · cases h; exact absurd rfl hne
      · cases h; exact absurd rfl hne
      · cases h
        rcases indirectX_cases ext _ _ _ _ _ hm with ⟨-, hc, -⟩ | ⟨last, hr, -, -⟩
        · exact Or.inl hc
        · rcases hr with ⟨hu, -, -⟩ | ⟨ho, -⟩
          · right
            refine ⟨?_, m, rfl, hu, rfl⟩
            cases hp : IsFirstPass codeline.as
            · rfl
            · exact absurd ⟨hp, hu⟩ h2
          · exact absurd ho h1

theorem GetBitNumber_failure_cursor (ext : Externals) (codeline : CodeLine)
    (bit : OperandType) (out : OperandError × CodeLine × OperandType)
    (h : GetBitNumber ext codeline bit = some out) (hne : out.1 ≠ operrOK) :
    out.2.1.curtoken = codeline.curtoken ∨
      (IsFirstPass codeline.as = false ∧
        (ext.Evaluate codeline.tokens codeline.curtoken (-1)).1.unsolved = true ∧
        out.2.1.curtoken = (ext.Evaluate codeline.tokens codeline.curtoken (-1)).2) := by
  unfold GetBitNumber at h
  split at h
  · cases h; exact Or.inl rfl
  · cases h8 : reg8 codeline.tokens codeline.curtoken bit with
    | none => simp [h8] at h
    | some r8 =>
      simp only [h8, Option.some_bind] at h
      split at h
      · cases h; exact Or.inl rfl
      · cases h16 : reg16 codeline.tokens r8.2.1 r8.2.2 with
        | none => simp [h16] at h
        | some r16 =>
          simp only [h16, Option.some_bind] at h
          split at h
          · cases h; exact Or.inl rfl
          · split_ifs at h with h1 h2
            · cases h; exact absurd rfl hne
            · cases h; exact absurd rfl hne
            · cases h
              rcases bitnumber_cases ext codeline.tokens codeline.curtoken r16.2.2 with
                ⟨-, hc, -⟩ | ⟨hu, hev, hc, -⟩ | ⟨ho, -⟩
              · exact Or.inl hc
              · right
                refine ⟨?_, hev, hc⟩
                cases hp : IsFirstPass codeline.as
                · rfl
                · exact absurd ⟨hp, hu⟩ h2
              · exact absurd ho h1

theorem GetCond_failure_cursor (codeline : CodeLine) (cond : OperandType)
    (out : OperandError × CodeLine × OperandType)
    (h : GetCond codeline cond = some out) (hne : out.1 ≠ operrOK) :
    out.2.1.curtoken = codeline.curtoken := by
  unfold GetCond at h
  split at h
  · cases h; rfl
  · cases hm : condition codeline.tokens codeline.curtoken cond with
    | none => simp [hm] at h
    | some m =>
      simp only [hm, Option.some_bind] at h
      split_ifs at h with h1
      · cases h; exact absurd rfl hne
      · cases h
        rcases condition_cases _ _ _ _ hm with ⟨-, hc, -⟩ | ⟨-, hc, -⟩ | ⟨ho, -⟩
        · exact hc
        · exact hc
        · exact absurd ho h1

theorem GetNum8_failure_cursor (ext : Externals) (scratch : OperandType)
    (codeline : CodeLine) (value : Int) (out : OperandError × CodeLine × Int)
    (h : GetNum8 ext scratch codeline value = some out) (hne : out.1 ≠ operrOK) :
    out.2.1.curtoken = codeline.curtoken ∨
      (IsFirstPass codeline.as = false ∧
        (ext.Evaluate codeline.tokens codeline.curtoken (-1)).1.unsolved = true ∧
        out.2.1.curtoken = (ext.Evaluate codeline.tokens codeline.curtoken (-1)).2 + 1) := by
  unfold GetNum8 at h
  split at h
  · cases h; exact Or.inl rfl
  · cases h8 : reg8 codeline.tokens codeline.curtoken scratch with
    | none => simp [h8] at h
    | some r8 =>
      simp only [h8, Option.some_bind] at h
      split at h
      · cases h; exact Or.inl rfl
      · cases h16 : reg16 codeline.tokens r8.2.1 r8.2.2 with
        | none => simp [h16] at h
        | some r16 =>
          simp only [h16, Option.some_bind] at h
          split at h
          · cases h; exact Or.inl rfl
          · split_ifs at h with h1 h2
            · cases h; exact absurd rfl hne
            · cases h; exact absurd rfl hne
            · cases h
              rcases number8_cases ext codeline.tokens codeline.curtoken value with
                ⟨-, hc, -⟩ | ⟨hu, hev, hc, -⟩ | ⟨ho, -⟩
              · exact Or.inl hc
              · right
                refine ⟨?_, hev, hc⟩
                cases hp : IsFirstPass codeline.as
                · rfl
                · exact absurd ⟨hp, hu⟩ h2
              · exact absurd ho h1

theorem GetNum16_failure_cursor (ext : Externals) (scratch : OperandType)
    (codeline : CodeLine) (value : Int) (out : OperandError × CodeLine × Int)
    (h : GetNum16 ext scratch codeline value = some out) (hne : out.1 ≠ operrOK) :
    out.2.1.curtoken = codeline.curtoken ∨
      (IsFirstPass codeline.as = false ∧
        (ext.Evaluate codeline.tokens codeline.curtoken (-1)).1.unsolved = true ∧
        out.2.1.curtoken = (ext.Evaluate codeline.tokens codeline.curtoken (-1)).2 + 1) := by
  unfold GetNum16 at h
  split at h
  · cases h; exact Or.inl rfl
  · cases h8 : reg8 codeline.tokens codeline.curtoken scratch with
    | none => simp [h8] at h
    | some r8 =>
      simp only [h8, Option.some_bind] at h
      split at h
      · cases h; exact Or.inl rfl
      · cases h16 : reg16 codeline.tokens r8.2.1 r8.2.2 with
        | none => simp [h16] at h
        | some r16 =>
          simp only [h16, Option.some_bind] at h
          split at h
          · cases h; exact Or.inl rfl
          · split_ifs at h with h1 h2
            · cases h; exact absurd rfl hne
            · cases h; exact absurd rfl hne
            · cases h
              rcases number16_cases ext codeline.tokens codeline.curtoken value with
                ⟨-, hc, -⟩ | ⟨hu, hev, hc, -⟩ | ⟨ho, -⟩
              · exact Or.inl hc
              · right
                refine ⟨?_, hev, hc⟩
                cases hp : IsFirstPass codeline.as
                · rfl
                · exact absurd ⟨hp, hu⟩ h2
              · exact absurd ho h1

theorem GetInd16_failure_cursor (ext : Externals) (scratch : Int) (codeline : CodeLine)
    (value : Int) (out : OperandError × CodeLine × Int)
    (h : GetInd16 ext scratch codeline value = some out) (hne : out.1 ≠ operrOK) :
    out.2.1.curtoken = codeline.curtoken := by
  unfold GetInd16 at h
  split at h
  · cases h; rfl
  · cases hm : indirect16 ext codeline.tokens codeline.curtoken value scratch with
    | none => simp [hm] at h
    | some m =>
      simp only [hm, Option.some_bind] at h
      split_ifs at h
      · cases h; exact absurd rfl hne
      · cases h; exact absurd rfl hne
      · cases h; rfl

/-- C6, counterexample: on pass 2, on the one-token line `LABEL` (unresolved), `GetNum8`
returns `operrNOTNUMBER` and yet the cursor of the code line has moved from 0 to 1; on
`(IX+LABEL)`, `GetIndX` returns `operrWRONGREGISTER` and the cursor has moved from 0
to 4. -/
theorem C6_failed_gate_moves_cursor :
    (lineOf [tok tokenTypeLETTERS "LABEL"] false).curtoken = 0 ∧
    GetNum8 sampleExt regA (lineOf [tok tokenTypeLETTERS "LABEL"] false) 7 =
      some (operrNOTNUMBER,
        { lineOf [tok tokenTypeLETTERS "LABEL"] false with curtoken := 1 }, 0) ∧
    (lineOf tokensIXLabel false).curtoken = 0 ∧
    GetIndX sampleExt (lineOf tokensIXLabel false) regA 7 =
      some (operrWRONGREGISTER, { lineOf tokensIXLabel false with curtoken := 4 },
        regIX, 0) := by
  decide

/-- C6, amended: when a gate returns a result other than `operrOK`, the cursor of the
code line is unchanged, except on pass 2 in `GetIndX`, `GetBitNumber`, `GetNum8` and
`GetNum16` when the evaluator has reported the expression unresolved: the cursor is
then where the matcher has left it (for `GetIndX` the cursor of `indirectX`, for
`GetBitNumber` the index written back by the evaluator, for `GetNum8` and `GetNum16`
that index plus one). -/
theorem C6_gate_cursor_rule (ext : Externals) (codeline : CodeLine) :
    (∀ (reg : OperandType) (regs : Nat) (out : OperandError × CodeLine × OperandType),
        GetReg8 ext codeline reg regs = some out → out.1 ≠ operrOK →
        out.2.1.curtoken = codeline.curtoken) ∧
    (∀ (reg : OperandType) (regs : Nat) (out : OperandError × CodeLine × OperandType),
        GetReg16 ext codeline reg regs = some out → out.1 ≠ operrOK →
        out.2.1.curtoken = codeline.curtoken) ∧
    (∀ (scratch : OperandType) (out : OperandError × CodeLine),
        GetIndC scratch codeline = some out → out.1 ≠ operrOK →
        out.2.curtoken = codeline.curtoken) ∧
    (∀ (scratch : OperandType) (out : OperandError × CodeLine),
        GetIndHL scratch codeline = some out → out.1 ≠ operrOK →
        out.2.curtoken = codeline.curtoken) ∧
    (∀ (scratch : OperandType) (out : OperandError × CodeLine),
        GetIndBC scratch codeline = some out → out.1 ≠ operrOK →
        out.2.curtoken = codeline.curtoken) ∧
    (∀ (scratch : OperandType) (out : OperandError × CodeLine),
        GetIndDE scratch codeline = some out → out.1 ≠ operrOK →
        out.2.curtoken = codeline.curtoken) ∧
    (∀ (scratch : OperandType) (out : OperandError × CodeLine),
        GetIndSP scratch codeline = some out → out.1 ≠ operrOK →
        out.2.curtoken = codeline.curtoken) ∧
    (∀ (regX : OperandType) (value : Int) (out : OperandError × CodeLine × OperandType × Int),
        GetIndX ext codeline regX value = some out → out.1 ≠ operrOK →
        out.2.1.curtoken = codeline.curtoken ∨
          (IsFirstPass codeline.as = false ∧
            ∃ m, indirectX ext codeline.tokens codeline.curtoken regX value = some m ∧
              m.1 = operrUNSOLVED ∧ out.2.1.curtoken = m.2.1)) ∧
    (∀ (bit : OperandType) (out : OperandError × CodeLine × OperandType),
        GetBitNumber ext codeline bit = some out → out.1 ≠ operrOK →
        out.2.1.curtoken = codeline.curtoken ∨
          (IsFirstPass codeline.as = false ∧
            (ext.Evaluate codeline.tokens codeline.curtoken (-1)).1.unsolved = true ∧
            out.2.1.curtoken = (ext.Evaluate codeline.tokens codeline.curtoken (-1)).2)) ∧
    (∀ (cond : OperandType) (out : OperandError × CodeLine × OperandType),
        GetCond codeline cond = some out → out.1 ≠ operrOK →
        out.2.1.curtoken = codeline.curtoken) ∧
    (∀ (scratch : OperandType) (value : Int) (out : OperandError × CodeLine × Int),
        GetNum8 ext scratch codeline value = some out → out.1 ≠ operrOK →
        out.2.1.curtoken = codeline.curtoken ∨
          (IsFirstPass codeline.as = false ∧
            (ext.Evaluate codeline.tokens codeline.curtoken (-1)).1.unsolved = true ∧
            out.2.1.curtoken =
              (ext.Evaluate codeline.tokens codeline.curtoken (-1)).2 + 1)) ∧
    (∀ (scratch : OperandType) (value : Int) (out : OperandError × CodeLine × Int),
        GetNum16 ext scratch codeline value = some out → out.1 ≠ operrOK →
        out.2.1.curtoken = codeline.curtoken ∨
          (IsFirstPass codeline.as = false ∧
            (ext.Evaluate codeline.tokens codeline.curtoken (-1)).1.unsolved = true ∧
            out.2.1.curtoken =
              (ext.Evaluate codeline.tokens codeline.curtoken (-1)).2 + 1)) ∧
    (∀ (scratch value : Int) (out : OperandError × CodeLine × Int),
        GetInd16 ext scratch codeline value = some out → out.1 ≠ operrOK →
        out.2.1.curtoken = codeline.curtoken) :=
  ⟨fun reg regs out => GetReg8_failure_cursor ext codeline reg regs out,
    fun reg regs out => GetReg16_failure_cursor ext codeline reg regs out,
    fun scratch out => GetIndReg_failure_cursor "C" indC scratch codeline out,
    fun scratch out => GetIndReg_failure_cursor "HL" indHL scratch codeline out,
    fun scratch out => GetIndReg_failure_cursor "BC" indBC scratch codeline out,
    fun scratch out => GetIndReg_failure_cursor "DE" indDE scratch codeline out,
    fun scratch out => GetIndReg_failure_cursor "SP" indSP scratch codeline out,
    fun regX value out => GetIndX_failure_cursor ext codeline regX value out,
    fun bit out => GetBitNumber_failure_cursor ext codeline bit out,
    fun cond out => GetCond_failure_cursor codeline cond out,
    fun scratch value out => GetNum8_failure_cursor ext scratch codeline value out,
    fun scratch value out => GetNum16_failure_cursor ext scratch codeline value out,
    fun scratch value out => GetInd16_failure_cursor ext scratch codeline value out⟩

/-- C6, witness: the amended statement applied to `GetReg8` on the line `A` with an
empty mask: the result is `operrWRONGREGISTER` and the cursor stays at 0. -/
theorem C6_gate_cursor_rule_witness :
    GetReg8 sampleExt (lineOf [tok tokenTypeLETTERS "A"] true) regB 0 =
      some (operrWRONGREGISTER, lineOf [tok tokenTypeLETTERS "A"] true, regA) ∧
    (lineOf [tok tokenTypeLETTERS "A"] true).curtoken =
      (lineOf [tok tokenTypeLETTERS "A"] true).curtoken :=
  ⟨by decide,
    (C6_gate_cursor_rule sampleExt (lineOf [tok tokenTypeLETTERS "A"] true)).1 regB 0
      (operrWRONGREGISTER, lineOf [tok tokenTypeLETTERS "A"] true, regA) (by decide)
      (by decide)⟩

/-! ## The cursor after a successful match -/

theorem sampleExt_writes_last_consumed : EvaluatorWritesLastConsumed sampleExt := by
  intro tokens start last
  show start ≤ (sampleEvaluate tokens start last).2
  unfold sampleEvaluate
  dsimp only
  cases tokenAt tokens start <;> dsimp only <;> split_ifs <;> omega

/-- Under the protocol of the spec for the evaluator, every matcher other than
`bitnumber` moves the cursor forward when it succeeds, and `bitnumber` does not move
it backward. -/
theorem success_advances_cursor (ext : Externals) (hext : EvaluatorWritesLastConsumed ext)
    (tokens : List ParseToken) (c : Int) :
    (∀ (reg : OperandType) (out : Bool × Int × OperandType),
        reg8 tokens c reg = some out → out.1 = true → c < out.2.1) ∧
    (∀ (reg : OperandType) (out : Bool × Int × OperandType),
        reg16 tokens c reg = some out → out.1 = true → c < out.2.1) ∧
    (∀ (name : String) (ind reg : OperandType) (out : Bool × Int × OperandType),
        indirectReg name ind tokens c reg = some out → out.1 = true → c < out.2.1) ∧
    (∀ (regX : OperandType) (value : Int) (out : OperandError × Int × OperandType × Int),
        indirectX ext tokens c regX value = some out → out.1 = operrOK → c < out.2.1) ∧
    (∀ (cond : OperandType) (out : OperandError × Int × OperandType),
        condition tokens c cond = some out → out.1 = operrOK → c < out.2.1) ∧
    (∀ (value : Int),
        (number8 ext tokens c value).1 = operrOK → c < (number8 ext tokens c value).2.1) ∧
    (∀ (value : Int),
        (number16 ext tokens c value).1 = operrOK → c < (number16 ext tokens c value).2.1) ∧
    (∀ (bit : OperandType),
        (bitnumber ext tokens c bit).1 = operrOK → c ≤ (bitnumber ext tokens c bit).2.1) := by
  refine ⟨?_, ?_, ?_, ?_, ?_, ?_, ?_, ?_⟩
  · intro reg out h ht
    rcases reg8_cases tokens c reg out h with ⟨hf, -⟩ | ⟨-, hc⟩
    · rw [ht] at hf; cases hf
    · omega
  · intro reg out h ht
    rcases reg16_cases tokens c reg out h with ⟨hf, -⟩ | ⟨-, hc⟩
    · rw [ht] at hf; cases hf
    · omega
  · intro name ind reg out h ht
    rcases indirectReg_cases name ind tokens c reg out h with ⟨hf, -⟩ | ⟨-, hc, -⟩
    · rw [ht] at hf; cases hf
    · omega
  · intro regX value out h hok
    rcases indirectX_cases ext tokens c regX value out h with ⟨he, -⟩ | ⟨last, -, -, hc⟩
    · rw [hok] at he; simp at he
    · have := hext tokens (c + 3) last
      omega
  · intro cond out h hok
    rcases condition_cases tokens c cond out h with ⟨he, -⟩ | ⟨he, -⟩ | ⟨-, hc⟩
    · rw [hok] at he; cases he
    · rw [hok] at he; cases he
    · omega
  · intro value hok
    rcases number8_cases ext tokens c value with ⟨he, -⟩ | ⟨he, -⟩ | ⟨-, -, hc⟩
    · rw [hok] at he; simp at he
    · rw [hok] at he; cases he
    · have := hext tokens c (-1)
      omega
  · intro value hok
    rcases number16_cases ext tokens c value with ⟨he, -⟩ | ⟨he, -⟩ | ⟨-, -, hc⟩
    · rw [hok] at he; simp at he
    · rw [hok] at he; cases he
    · have := hext tokens c (-1)
      omega
  · intro bit hok
    rcases bitnumber_cases ext tokens c bit with ⟨he, -⟩ | ⟨he, -⟩ | ⟨-, -, hc⟩
    · rw [hok] at he; cases he
    · rw [hok] at he; cases he
    · have := hext tokens c (-1)
      omega

/-- C7, failing input: the one-token line `3` with the cursor at 0, and an evaluator
that follows the protocol of the spec (it writes back 0, the index of the only token it
consumed).  `bitnumber` returns `operrOK` with `bit3` and leaves the cursor at 0, so the
cursor has not advanced, and `GetBitNumber` returns `operrOK` on a code line whose
cursor is still 0; on the same line `number8` leaves the cursor at 1. -/
theorem C7_bitnumber_success_keeps_cursor :
    EvaluatorWritesLastConsumed sampleExt ∧
    sampleExt.Evaluate [tok tokenTypeDECNUMBER "3"] 0 (-1) =
      ({ type := tokenTypeDECNUMBER, source := "3", unsolved := false }, 0) ∧
    bitnumber sampleExt [tok tokenTypeDECNUMBER "3"] 0 regA = (operrOK, 0, bit3) ∧
    ¬ ((0 : Int) < (bitnumber sampleExt [tok tokenTypeDECNUMBER "3"] 0 regA).2.1) ∧
    GetBitNumber sampleExt (lineOf [tok tokenTypeDECNUMBER "3"] false) regA =
      some (operrOK, lineOf [tok tokenTypeDECNUMBER "3"] false, bit3) ∧
    number8 sampleExt [tok tokenTypeDECNUMBER "3"] 0 7 = (operrOK, 1, 3) :=
  ⟨sampleExt_writes_last_consumed, by decide, by decide, by decide, by decide, by decide⟩

/-! ## The closing parenthesis -/

/-- The cursor `indirectX` leaves on `operrOK` or `operrUNSOLVED` is the index written
back by the evaluator plus one, the evaluator having been called with the index that
precedes the one where the scan stopped. -/
theorem indirectX_cursor_formula (ext : Externals) (tokens : List ParseToken) (c : Int)
    (regX : OperandType) (value : Int) (out : OperandError × Int × OperandType × Int)
    (h : indirectX ext tokens c regX value = some out)
    (hs : out.1 = operrOK ∨ out.1 = operrUNSOLVED) :
    ∃ token2, tokenAt tokens (c + 2) = some token2 ∧
      out.2.1 = (ext.Evaluate tokens (c + 3)
        ((findClose (tokens.drop (c + 3).toNat) (c + 3) 1 token2).1 - 1)).2 + 1 := by
  unfold indirectX at h
  split at h
  · cases h; simp at hs
  · cases h0 : tokenAt tokens c with
    | none => simp [h0] at h
    | some token0 =>
      simp only [h0, Option.some_bind] at h
      split at h
      · cases h; simp at hs
      · cases hr : reg16 tokens (c + 1) regX with
        | none => simp [hr] at h
        | some r =>
          simp only [hr, Option.some_bind] at h
          split at h
          · cases h; simp at hs
          · split at h
            · cases h; simp at hs
            · cases h2 : tokenAt tokens (c + 2) with
              | none => simp [h2] at h
              | some token2 =>
                simp only [h2, Option.some_bind] at h
                split at h
                · cases h; simp at hs
                · refine ⟨token2, rfl, ?_⟩
                  split at h <;> cases h <;> rfl

/-- With an evaluator that consumes the whole range it is given and writes back the
index of its last token, the cursor `indirectX` leaves is the index where the scan
stopped: that of the closing parenthesis, not the one after it. -/
theorem indirectX_cursor_on_close (ext : Externals) (tokens : List ParseToken) (c : Int)
    (regX : OperandType) (value : Int) (out : OperandError × Int × OperandType × Int)
    (h : indirectX ext tokens c regX value = some out)
    (hs : out.1 = operrOK ∨ out.1 = operrUNSOLVED)
    (hw : ∀ last : Int, (ext.Evaluate tokens (c + 3) last).2 = last) :
    ∃ token2, tokenAt tokens (c + 2) = some token2 ∧
      out.2.1 = (findClose (tokens.drop (c + 3).toNat) (c + 3) 1 token2).1 := by
  obtain ⟨token2, h2, hc⟩ := indirectX_cursor_formula ext tokens c regX value out h hs
  refine ⟨token2, h2, ?_⟩
  rw [hc, hw]
  omega

/-- C8, failing input: `(IX+5)` and `(0x1234)` with the cursor at 0 and an evaluator
that writes back the index of the last token it consumed (3 and 1, the index before
the closing parenthesis).  The closing parentheses are at 4 and 2; `indirectX` leaves
the cursor at 4 and `indirect16` reports 2, which `GetIndX` and `GetInd16` commit: the
cursor is on the `)`, not past it (5 and 3).  The same holds for an unresolved
displacement, `(IX+LABEL)`. -/
theorem C8_cursor_left_on_closing_parenthesis :
    EvaluatorWritesLastConsumed sampleExt ∧
    (tokenAt tokensIX5 4).map ParseToken.type = some tokenTypePARCLOSE ∧
    (sampleExt.Evaluate tokensIX5 3 3).2 = 3 ∧
    indirectX sampleExt tokensIX5 0 regA 7 = some (operrOK, 4, regIX, 5) ∧
    GetIndX sampleExt (lineOf tokensIX5 false) regA 7 =
      some (operrOK, { lineOf tokensIX5 false with curtoken := 4 }, regIX, 5) ∧
    indirectX sampleExt tokensIXLabel 0 regA 7 = some (operrUNSOLVED, 4, regIX, 0) ∧
    (tokenAt tokensInd1234 2).map ParseToken.type = some tokenTypePARCLOSE ∧
    (sampleExt.Evaluate tokensInd1234 1 1).2 = 1 ∧
    indirect16 sampleExt tokensInd1234 0 7 0 = some (operrOK, 0x1234, 2) ∧
    GetInd16 sampleExt 0 (lineOf tokensInd1234 false) 7 =
      some (operrOK, { lineOf tokensInd1234 false with curtoken := 2 }, 0x1234) :=
  ⟨sampleExt_writes_last_consumed, by decide, by decide, by decide, by decide, by decide,
    by decide, by decide, by decide, by decide⟩

/-- C9, failing inputs.  On `(1+(2)` no closing parenthesis balances the first one, yet
`indirect16` does not return `operrMISSINGPARCLOSE`: the scan ends on the last token,
which is a `)`, and the evaluator is handed the tokens 1 to 5.  On `((1)+2)` the
balancing parenthesis is at 6, but the scan starts at the third token with depth 1 and
stops at 3: the evaluator is handed the tokens 1 to 2.  On `()5` the balancing
parenthesis is at 1, before the scan starts, and the result is
`operrMISSINGPARCLOSE`. -/
theorem C9_indirect16_misplaced_close :
    (specBalancedClose (tokensUnclosed.drop 1) 1 1 = none ∧
      indirect16 sampleExt tokensUnclosed 0 7 0 = some (operrOK, 1, 6) ∧
      (sampleExt.Evaluate tokensUnclosed 1 5).2 + 1 = 6) ∧
    (specBalancedClose (tokensNested.drop 1) 1 1 = some 6 ∧
      (findClose (tokensNested.drop 2) 2 1 (tok tokenTypePAROPEN "(")).1 = 3 ∧
      indirect16 sampleExt tokensNested 0 7 0 = some (operrOK, 0, 3) ∧
      (sampleExt.Evaluate tokensNested 1 2).2 + 1 = 3) ∧
    (specBalancedClose
        ([tok tokenTypePAROPEN "(", tok tokenTypePARCLOSE ")",
          tok tokenTypeDECNUMBER "5"].drop 1) 1 1 = some 1 ∧
      indirect16 sampleExt
        [tok tokenTypePAROPEN "(", tok tokenTypePARCLOSE ")", tok tokenTypeDECNUMBER "5"]
        0 7 0 = some (operrMISSINGPARCLOSE, 7, 3)) := by
  decide

/-! ## Subcodes of the 8-bit registers -/

/-- C10, counterexample: `R` is an 8-bit register (a value of `registers8`) and its
subcode is `0x0F`, which is not in the range 0..7. -/
theorem C10_subcode_of_R_out_of_range :
    regR ∈ registers8.map Prod.snd ∧ GetSubCode regR = 0x0F ∧
    ¬ (0 ≤ GetSubCode regR ∧ GetSubCode regR ≤ 7) := by
  decide

/-- C10, amended: for every 8-bit register variant other than `R` (that is `A`, `B`,
`C`, `D`, `E`, `H`, `L`, `I`, `F`, `IXH`, `IXL`, `IYH`, `IYL`), `GetSubCode` lies in
the range 0..7; for `R` it is `0x0F`. -/
theorem C10_subcode_range_reg8 :
    (∀ v : OperandType, v ∈ registers8.map Prod.snd → v ≠ regR →
        0 ≤ GetSubCode v ∧ GetSubCode v ≤ 7) ∧
    GetSubCode regR = 0x0F := by
  refine ⟨?_, by decide⟩
  intro v hv hne
  simp only [registers8, InitRegisterMap, List.map, List.mem_cons, List.mem_nil_iff,
    or_false] at hv
  rcases hv with rfl | rfl | rfl | rfl | rfl | rfl | rfl | rfl | rfl | rfl | rfl | rfl |
    rfl | rfl
  all_goals first | exact absurd rfl hne | decide

/-- C10, witness: the amended statement applied to the register `IYL`, whose subcode
is 5. -/
theorem C10_subcode_range_reg8_witness :
    regIYL ∈ registers8.map Prod.snd ∧ regIYL ≠ regR ∧
    (0 ≤ GetSubCode regIYL ∧ GetSubCode regIYL ≤ 7) :=
  ⟨by decide, by decide, C10_subcode_range_reg8.1 regIYL (by decide) (by decide)⟩

/-! ## The encoding tables -/

/-- C11: after `InitRegisterMap`, `GetSubCode` returns the fixed encoding table:
`B=0, C=1, D=2, E=3, H=4, L=5, F=6, (HL)=6, A=7`, `IXH=IYH=4`, `IXL=IYL=5`, `I=0x07`,
`R=0x0F`, `BC=0x00, DE=0x10, HL=0x20, SP=0x30, AF=0x30`, `IX=IY=0x20`, `n << 3` for
`bit_n` and `i << 3` for the `i`-th condition in the order `NZ, Z, NC, C, PO, PE, P, M`;
the variants the table does not hold are exactly `AF'`, `(BC)`, `(DE)`, `(SP)`, `(C)`,
`(IX+d)` and `(IY+d)`, and `GetSubCode` returns 0 for them. -/
theorem C11_GetSubCode_table :
    (GetSubCode regB = 0 ∧ GetSubCode regC = 1 ∧ GetSubCode regD = 2 ∧ GetSubCode regE = 3 ∧
      GetSubCode regH = 4 ∧ GetSubCode regL = 5 ∧ GetSubCode regF = 6 ∧
      GetSubCode indHL = 6 ∧ GetSubCode regA = 7) ∧
    (GetSubCode regIXH = 4 ∧ GetSubCode regIYH = 4 ∧ GetSubCode regIXL = 5 ∧
      GetSubCode regIYL = 5) ∧
    (GetSubCode regI = 0x07 ∧ GetSubCode regR = 0x0F) ∧
    (GetSubCode regBC = 0x00 ∧ GetSubCode regDE = 0x10 ∧ GetSubCode regHL = 0x20 ∧
      GetSubCode regSP = 0x30 ∧ GetSubCode regAF = 0x30) ∧
    (GetSubCode regIX = 0x20 ∧ GetSubCode regIY = 0x20) ∧
    bitVariants.map GetSubCode = (List.range 8).map (fun n => ((n <<< 3 : Nat) : Int)) ∧
    conditionVariants.map GetSubCode =
      (List.range 8).map (fun i => ((i <<< 3 : Nat) : Int)) ∧
    (∀ v : OperandType, regsubcode.lookup v = none ↔
      v ∈ [regAFp, indBC, indDE, indSP, indC, indIX, indIY]) ∧
    (∀ v : OperandType, v ∈ [regAFp, indBC, indDE, indSP, indC, indIX, indIY] →
      GetSubCode v = 0) := by
  refine ⟨by decide, by decide, by decide, by decide, by decide, by decide, by decide,
    ?_, ?_⟩
  · intro v
    cases v <;> decide
  · intro v
    cases v <;> decide

/-- C12: for every operand variant, `GetPrefix` is 0, `0xDD` or `0xFD`; it is `0xDD`
exactly for `IX`, `IXH`, `IXL` and `0xFD` exactly for `IY`, `IYH`, `IYL`, so that every
other variant, `(IX+d)` and `(IY+d)` included, has prefix 0. -/
theorem C12_GetPrefix_consistency (v : OperandType) :
    (GetPrefix v = 0 ∨ GetPrefix v = 0xDD ∨ GetPrefix v = 0xFD) ∧
    (GetPrefix v = 0xDD ↔ v = regIX ∨ v = regIXH ∨ v = regIXL) ∧
    (GetPrefix v = 0xFD ↔ v = regIY ∨ v = regIYH ∨ v = regIYL) ∧
    GetPrefix indIX = 0 ∧ GetPrefix indIY = 0 := by
  cases v <;> decide

/-! ## The register mask -/

theorem RegAccept_eq_testBit (ext : Externals) (m : Nat) (v : OperandType) :
    RegAccept ext m v = m.testBit (ext.ordinal v % 32) := by
  unfold RegAccept oneShiftLeft32
  dsimp only
  rw [Nat.one_shiftLeft, Nat.and_comm, Nat.and_two_pow]
  cases hb : m.testBit (ext.ordinal v % 32)
  · have hpos : 0 < 2 ^ (ext.ordinal v % 32) := Nat.two_pow_pos _
    have hne : (0 == 2 ^ (ext.ordinal v % 32)) = false := by
      rw [beq_eq_false_iff_ne]
      omega
    simpa using hne
  · simp

/-- C13: for every operand variant `v`, taken as its enumeration ordinal, `RegAccept`
is a single-bit membership test on the 32-bit mask: `RegAccept(1 << v, v)` is true,
`RegAccept(~(1 << v), v)` is false, and for every mask `m`, `RegAccept(m, v)` is true
exactly when `(1 << v) & m == (1 << v)`, that is when one bit of `m` is set: the bit of
rank `v` modulo 32, which is the bit of rank `v` for an ordinal below 32. -/
theorem C13_RegAccept_single_bit (ext : Externals) (v : OperandType) :
    RegAccept ext (oneShiftLeft32 (ext.ordinal v)) v = true ∧
    RegAccept ext (complement32 (oneShiftLeft32 (ext.ordinal v))) v = false ∧
    (∀ m : Nat, RegAccept ext m v =
      decide (oneShiftLeft32 (ext.ordinal v) &&& m = oneShiftLeft32 (ext.ordinal v))) ∧
    (∀ m : Nat, RegAccept ext m v = m.testBit (ext.ordinal v % 32)) ∧
    (ext.ordinal v < 32 →
      oneShiftLeft32 (ext.ordinal v) = 1 <<< ext.ordinal v ∧
      ∀ m : Nat, RegAccept ext m v = m.testBit (ext.ordinal v)) := by
  have hmod : ext.ordinal v % 32 < 32 := Nat.mod_lt _ (by decide)
  have hlt : 2 ^ (ext.ordinal v % 32) < 2 ^ 32 := Nat.pow_lt_pow_right (by decide) hmod
  have hshift : oneShiftLeft32 (ext.ordinal v) = 2 ^ (ext.ordinal v % 32) := by
    unfold oneShiftLeft32
    rw [Nat.one_shiftLeft]
  refine ⟨?_, ?_, ?_, fun m => RegAccept_eq_testBit ext m v, ?_⟩
  · rw [RegAccept_eq_testBit, hshift, Nat.testBit_two_pow_self]
  · rw [RegAccept_eq_testBit, hshift]
    unfold complement32
    rw [Nat.mod_eq_of_lt hlt]
    have he : 2 ^ 32 - 1 - 2 ^ (ext.ordinal v % 32) =
        2 ^ 32 - (2 ^ (ext.ordinal v % 32) + 1) := by omega
    rw [he, Nat.testBit_two_pow_sub_succ hlt, Nat.testBit_two_pow_self]
    simp
  · intro m
    unfold RegAccept
    dsimp only
    by_cases hm : oneShiftLeft32 (ext.ordinal v) &&& m = oneShiftLeft32 (ext.ordinal v)
    · simp [hm]
    · simp [hm]
  · intro hv
    refine ⟨?_, fun m => ?_⟩
    · unfold oneShiftLeft32
      rw [Nat.mod_eq_of_lt hv]
    · rw [RegAccept_eq_testBit, Nat.mod_eq_of_lt hv]

/-- C13, witness: the statement evaluated on `bit7`, whose ordinal in the order of
declaration is 44 (the bit of rank 12 of the mask), and on the register `HL`, whose
ordinal is 18. -/
theorem C13_RegAccept_single_bit_witness :
    sampleExt.ordinal bit7 = 44 ∧
    RegAccept sampleExt (oneShiftLeft32 (sampleExt.ordinal bit7)) bit7 = true ∧
    RegAccept sampleExt (complement32 (oneShiftLeft32 (sampleExt.ordinal bit7))) bit7 =
      false ∧
    RegAccept sampleExt (1 <<< 18) regHL = true ∧
    RegAccept sampleExt (complement32 (1 <<< 18)) regHL = false :=
  ⟨by decide, (C13_RegAccept_single_bit sampleExt bit7).1,
    (C13_RegAccept_single_bit sampleExt bit7).2.1, by decide, by decide⟩

/-! ## Register names -/

theorem lookup_isSome_iff_mem_keys (l : List (String × OperandType)) (s : String) :
    (∃ r, l.lookup s = some r) ↔ s ∈ l.map Prod.fst := by
  induction l with
  | nil => simp
  | cons p l ih =>
    obtain ⟨k, b⟩ := p
    by_cases h : s = k
    · subst h
      simp [List.lookup_cons]
    · have hb : (s == k) = false := by simpa using h
      simp only [List.lookup_cons, hb, List.map_cons, List.mem_cons, h, false_or]
      exact ih

theorem tokenAt_some_range (tokens : List ParseToken) (c : Int) (t : ParseToken)
    (ht : tokenAt tokens c = some t) : 0 ≤ c ∧ c < (tokens.length : Int) := by
  unfold tokenAt at ht
  split at ht
  · cases ht
  · have hlt : c.toNat < tokens.length := by
      by_contra hge
      rw [List.getElem?_eq_none (by omega)] at ht
      cases ht
    omega

theorem reg8_eq (tokens : List ParseToken) (c : Int) (reg : OperandType) (t : ParseToken)
    (ht : tokenAt tokens c = some t) :
    reg8 tokens c reg =
      some (match lookupReg8 t with
        | some r => (true, c + 1, r)
        | none => (false, c, reg)) := by
  unfold reg8 lookupReg8
  simp only [ht, Option.some_bind]
  by_cases hl : t.type = tokenTypeLETTERS
  · simp only [hl, ne_eq, not_true_eq_false, if_false, if_true]
    cases registers8.lookup (to_upper t.source) <;> rfl
  · simp [hl]

theorem reg16_eq (tokens : List ParseToken) (c : Int) (reg : OperandType) (t : ParseToken)
    (ht : tokenAt tokens c = some t) :
    reg16 tokens c reg =
      some (match lookupReg16 t with
        | some r => (true, c + 1, r)
        | none => (false, c, reg)) := by
  unfold reg16 lookupReg16
  simp only [ht, Option.some_bind]
  by_cases hl : t.type = tokenTypeLETTERS
  · simp only [hl, ne_eq, not_true_eq_false, if_false, if_true]
    cases registers16.lookup (to_upper t.source) <;> rfl
  · simp [hl]

theorem lookupReg8_isSome_iff (t : ParseToken) :
    (∃ r, lookupReg8 t = some r) ↔
      t.type = tokenTypeLETTERS ∧ to_upper t.source ∈ reg8Names := by
  unfold lookupReg8
  by_cases hl : t.type = tokenTypeLETTERS
  · simp only [hl, if_true, true_and]
    exact lookup_isSome_iff_mem_keys registers8 (to_upper t.source)
  · simp [hl]

theorem lookupReg16_isSome_iff (t : ParseToken) :
    (∃ r, lookupReg16 t = some r) ↔
      t.type = tokenTypeLETTERS ∧ to_upper t.source ∈ reg16Names := by
  unfold lookupReg16
  by_cases hl : t.type = tokenTypeLETTERS
  · simp only [hl, if_true, true_and]
    exact lookup_isSome_iff_mem_keys registers16 (to_upper t.source)
  · simp [hl]

/-- C14: with the cursor on a token `t`, `reg8` returns `true` exactly when `t` is a
name whose upper-cased lexeme is one of `A, B, C, D, E, H, L, I, R, F, IXH, IXL, IYH,
IYL` (`reg16`: one of `AF, AF', BC, DE, HL, SP, IX, IY`); on `true` the variant written
out is the entry of the catalog for that name and the cursor is `c + 1`; on `false` the
cursor and the variant are unchanged.  The result depends on the lexeme only through
its upper-cased form: a token `a` yields the same variant as `A`. -/
theorem C14_reg8_reg16_contract (tokens : List ParseToken) (c : Int) (reg : OperandType)
    (t : ParseToken) (ht : tokenAt tokens c = some t) :
    ((∃ out, reg8 tokens c reg = some out) ∧
      ∀ out, reg8 tokens c reg = some out →
        (out.1 = true ↔ t.type = tokenTypeLETTERS ∧ to_upper t.source ∈ reg8Names) ∧
        (out.1 = true →
          registers8.lookup (to_upper t.source) = some out.2.2 ∧ out.2.1 = c + 1) ∧
        (out.1 = false → out.2.1 = c ∧ out.2.2 = reg)) ∧
    ((∃ out, reg16 tokens c reg = some out) ∧
      ∀ out, reg16 tokens c reg = some out →
        (out.1 = true ↔ t.type = tokenTypeLETTERS ∧ to_upper t.source ∈ reg16Names) ∧
        (out.1 = true →
          registers16.lookup (to_upper t.source) = some out.2.2 ∧ out.2.1 = c + 1) ∧
        (out.1 = false → out.2.1 = c ∧ out.2.2 = reg)) ∧
    (∀ (tokens2 : List ParseToken) (t2 : ParseToken), tokenAt tokens2 c = some t2 →
      t2.type = t.type → to_upper t2.source = to_upper t.source →
      reg8 tokens2 c reg = reg8 tokens c reg ∧ reg16 tokens2 c reg = reg16 tokens c reg) ∧
    (reg8 [tok tokenTypeLETTERS "a"] 0 reg = some (true, 1, regA) ∧
      reg8 [tok tokenTypeLETTERS "A"] 0 reg = some (true, 1, regA) ∧
      reg16 [tok tokenTypeLETTERS "hl"] 0 reg = some (true, 1, regHL) ∧
      reg16 [tok tokenTypeLETTERS "HL"] 0 reg = some (true, 1, regHL)) := by
  refine ⟨⟨⟨_, reg8_eq tokens c reg t ht⟩, ?_⟩, ⟨⟨_, reg16_eq tokens c reg t ht⟩, ?_⟩, ?_, ?_⟩
  · intro out hout
    rw [reg8_eq tokens c reg t ht] at hout
    have hiff := lookupReg8_isSome_iff t
    cases hl : lookupReg8 t with
    | none =>
      rw [hl] at hout hiff
      cases hout
      refine ⟨?_, by simp, fun _ => ⟨rfl, rfl⟩⟩
      constructor
      · intro h; cases h
      · intro h
        obtain ⟨r, hr⟩ := hiff.mpr h
        cases hr
    | some r =>
      rw [hl] at hout hiff
      cases hout
      refine ⟨⟨fun _ => hiff.mp ⟨r, rfl⟩, fun _ => rfl⟩, fun _ => ⟨?_, rfl⟩, by simp⟩
      unfold lookupReg8 at hl
      split at hl
      · exact hl
      · cases hl
  · intro out hout
    rw [reg16_eq tokens c reg t ht] at hout
    have hiff := lookupReg16_isSome_iff t
    cases hl : lookupReg16 t with
    | none =>
      rw [hl] at hout hiff
      cases hout
      refine ⟨?_, by simp, fun _ => ⟨rfl, rfl⟩⟩
      constructor
      · intro h; cases h
      · intro h
        obtain ⟨r, hr⟩ := hiff.mpr h
        cases hr
    | some r =>
      rw [hl] at hout hiff
      cases hout
      refine ⟨⟨fun _ => hiff.mp ⟨r, rfl⟩, fun _ => rfl⟩, fun _ => ⟨?_, rfl⟩, by simp⟩
      unfold lookupReg16 at hl
      split at hl
      · exact hl
      · cases hl
  · intro tokens2 t2 ht2 htype hsrc
    rw [reg8_eq tokens c reg t ht, reg8_eq tokens2 c reg t2 ht2,
      reg16_eq tokens c reg t ht, reg16_eq tokens2 c reg t2 ht2]
    unfold lookupReg8 lookupReg16
    rw [htype, hsrc]
    exact ⟨rfl, rfl⟩
  · refine ⟨?_, ?_, ?_, ?_⟩
    · rw [reg8_eq _ 0 reg (tok tokenTypeLETTERS "a") (by decide)]
      have : lookupReg8 (tok tokenTypeLETTERS "a") = some regA := by decide
      rw [this]
      rfl
    · rw [reg8_eq _ 0 reg (tok tokenTypeLETTERS "A") (by decide)]
      have : lookupReg8 (tok tokenTypeLETTERS "A") = some regA := by decide
      rw [this]
      rfl
    · rw [reg16_eq _ 0 reg (tok tokenTypeLETTERS "hl") (by decide)]
      have : lookupReg16 (tok tokenTypeLETTERS "hl") = some regHL := by decide
      rw [this]
      rfl
    · rw [reg16_eq _ 0 reg (tok tokenTypeLETTERS "HL") (by decide)]
      have : lookupReg16 (tok tokenTypeLETTERS "HL") = some regHL := by decide
      rw [this]
      rfl

/-- C14, witness: on the line `ixh` with the cursor at 0, `reg8` returns `true` with the
variant `IXH` and the cursor 1. -/
theorem C14_reg8_reg16_contract_witness :
    reg8 [tok tokenTypeLETTERS "ixh"] 0 regB = some (true, 1, regIXH) ∧
    ((true, (1 : Int), regIXH).1 = true ↔
      (tok tokenTypeLETTERS "ixh").type = tokenTypeLETTERS ∧
        to_upper (tok tokenTypeLETTERS "ixh").source ∈ reg8Names) :=
  ⟨by decide,
    ((C14_reg8_reg16_contract [tok tokenTypeLETTERS "ixh"] 0 regB (tok tokenTypeLETTERS "ixh")
      (by decide)).1.2 (true, 1, regIXH) (by decide)).1⟩

/-! ## Indirect register operands -/

theorem geSize_false_of_tokenAt (tokens : List ParseToken) (i : Int) (t : ParseToken)
    (ht : tokenAt tokens i = some t) : geSize i tokens = false := by
  obtain ⟨h0, h1⟩ := tokenAt_some_range tokens i t ht
  unfold geSize
  rw [decide_eq_false_iff_not]
  omega

theorem indirectReg_of_shape (name : String) (ind : OperandType) (tokens : List ParseToken)
    (c : Int) (reg : OperandType) (h : indirectShape name tokens c = true) :
    indirectReg name ind tokens c reg = some (true, c + 3, ind) ∧
      0 ≤ c ∧ c + 3 ≤ (tokens.length : Int) := by
  unfold indirectShape at h
  split at h
  · rename_i t0 t1 t2 h0 h1 h2
    simp only [Bool.and_eq_true, decide_eq_true_eq] at h
    obtain ⟨⟨⟨hp, hl⟩, hs⟩, hc⟩ := h
    have hge := geSize_false_of_tokenAt tokens (c + 2) t2 h2
    have hr0 := tokenAt_some_range tokens c t0 h0
    have hr2 := tokenAt_some_range tokens (c + 2) t2 h2
    refine ⟨?_, hr0.1, by omega⟩
    unfold indirectReg
    simp [hge, h0, h1, h2, hp, hl, hs, hc]
  · cases h

theorem shape_of_indirectReg (name : String) (ind : OperandType) (tokens : List ParseToken)
    (c : Int) (reg : OperandType) (out : Bool × Int × OperandType)
    (h : indirectReg name ind tokens c reg = some out) (ht : out.1 = true) :
    indirectShape name tokens c = true := by
  unfold indirectReg at h
  split at h
  · cases h; cases ht
  · cases h0 : tokenAt tokens c with
    | none => simp [h0] at h
    | some token0 =>
      simp only [h0, Option.some_bind] at h
      split at h
      · cases h; cases ht
      · rename_i hp
        cases h1 : tokenAt tokens (c + 1) with
        | none => simp [h1] at h
        | some token1 =>
          simp only [h1, Option.some_bind] at h
          split at h
          · cases h; cases ht
          · rename_i hl
            split at h
            · cases h; cases ht
            · rename_i hs
              cases h2 : tokenAt tokens (c + 2) with
              | none => simp [h2] at h
              | some token2 =>
                simp only [h2, Option.some_bind] at h
                split at h
                · cases h; cases ht
                · rename_i hc
                  simp only [ne_eq, not_not] at hp hl hs hc
                  simp [indirectShape, h0, h1, h2, hp, hl, hs, hc]

/-- C15: each of `indirectC`, `indirectHL`, `indirectBC`, `indirectDE`, `indirectSP`
returns `true` exactly when the tokens at `c`, `c + 1`, `c + 2` exist (so at least 3
tokens remain from `c`) and are an opening parenthesis, a name whose lexeme is exactly
the upper-case register name, and a closing parenthesis; on `true` the variant is the
matching `(R)` tag and the cursor is `c + 3`, on `false` the cursor and the variant are
unchanged.  In particular `(hl)` in lower case is rejected by `indirectHL` although
`reg16` accepts `hl`. -/
theorem C15_indirect_register_shape :
    (∀ e ∈ indirectMatchers, ∀ (tokens : List ParseToken) (c : Int) (reg : OperandType),
      (indirectShape e.1 tokens c = true →
        e.2.2 tokens c reg = some (true, c + 3, e.2.1) ∧
          0 ≤ c ∧ c + 3 ≤ (tokens.length : Int)) ∧
      (∀ out, e.2.2 tokens c reg = some out →
        (out.1 = true ↔ indirectShape e.1 tokens c = true) ∧
        (out.1 = true → out.2.1 = c + 3 ∧ out.2.2 = e.2.1) ∧
        (out.1 = false → out.2.1 = c ∧ out.2.2 = reg))) ∧
    (indirectHL [tok tokenTypePAROPEN "(", tok tokenTypeLETTERS "hl",
        tok tokenTypePARCLOSE ")"] 0 regA = some (false, 0, regA) ∧
      reg16 [tok tokenTypeLETTERS "hl"] 0 regA = some (true, 1, regHL) ∧
      indirectHL [tok tokenTypePAROPEN "(", tok tokenTypeLETTERS "HL",
        tok tokenTypePARCLOSE ")"] 0 regA = some (true, 3, indHL)) := by
  have key : ∀ (name : String) (ind : OperandType) (tokens : List ParseToken) (c : Int)
      (reg : OperandType),
      (indirectShape name tokens c = true →
        indirectReg name ind tokens c reg = some (true, c + 3, ind) ∧
          0 ≤ c ∧ c + 3 ≤ (tokens.length : Int)) ∧
      (∀ out, indirectReg name ind tokens c reg = some out →
        (out.1 = true ↔ indirectShape name tokens c = true) ∧
        (out.1 = true → out.2.1 = c + 3 ∧ out.2.2 = ind) ∧
        (out.1 = false → out.2.1 = c ∧ out.2.2 = reg)) := by
    intro name ind tokens c reg
    refine ⟨indirectReg_of_shape name ind tokens c reg, ?_⟩
    intro out hout
    refine ⟨⟨shape_of_indirectReg name ind tokens c reg out hout, ?_⟩, ?_, ?_⟩
    · intro hs
      rw [(indirectReg_of_shape name ind tokens c reg hs).1] at hout
      cases hout
      rfl
    · intro ht
      rcases indirectReg_cases name ind tokens c reg out hout with ⟨hf, -⟩ | ⟨-, hc, hv⟩
      · rw [ht] at hf; cases hf
      · exact ⟨hc, hv⟩
    · intro hf
      rcases indirectReg_cases name ind tokens c reg out hout with ⟨-, hc, hv⟩ | ⟨ht, -⟩
      · exact ⟨hc, hv⟩
      · rw [hf] at ht; cases ht
  refine ⟨?_, by decide, by decide, by decide⟩
  intro e he
  simp only [indirectMatchers, List.mem_cons, List.mem_singleton, List.mem_nil_iff,
    or_false] at he
  rcases he with rfl | rfl | rfl | rfl | rfl
  · exact key "C" indC
  · exact key "HL" indHL
  · exact key "BC" indBC
  · exact key "DE" indDE
  · exact key "SP" indSP

/-- C15, witness: on `(BC)` with the cursor at 0 the shape holds and `indirectBC`
returns `true` with the variant `(BC)` and the cursor 3. -/
theorem C15_indirect_register_shape_witness :
    indirectShape "BC" [tok tokenTypePAROPEN "(", tok tokenTypeLETTERS "BC",
      tok tokenTypePARCLOSE ")"] 0 = true ∧
    indirectBC [tok tokenTypePAROPEN "(", tok tokenTypeLETTERS "BC",
      tok tokenTypePARCLOSE ")"] 0 regA = some (true, 0 + 3, indBC) :=
  ⟨by decide,
    ((C15_indirect_register_shape.1 ("BC", indBC, indirectBC) (by simp [indirectMatchers])
      [tok tokenTypePAROPEN "(", tok tokenTypeLETTERS "BC", tok tokenTypePARCLOSE ")"]
      0 regA).1 (by decide)).1⟩

/-! ## The register filter of `GetReg8` and `GetReg16` -/

theorem GetReg8_eq (ext : Externals) (codeline : CodeLine) (reg : OperandType) (regs : Nat)
    (t : ParseToken) (ht : tokenAt codeline.tokens codeline.curtoken = some t) :
    GetReg8 ext codeline reg regs =
      match lookupReg8 t with
      | none => some (operrNOTREGISTER, codeline, reg)
      | some r =>
        if RegAccept ext regs r = true then
          some (operrOK, { codeline with curtoken := codeline.curtoken + 1 }, r)
        else some (operrWRONGREGISTER, codeline, r) := by
  have he := tokenAt_some_enough codeline t ht
  unfold GetReg8
  rw [reg8_eq codeline.tokens codeline.curtoken reg t ht]
  simp only [he, Bool.true_eq_false, if_false, Option.some_bind]
  cases lookupReg8 t <;> simp

theorem GetReg16_eq (ext : Externals) (codeline : CodeLine) (reg : OperandType) (regs : Nat)
    (t : ParseToken) (ht : tokenAt codeline.tokens codeline.curtoken = some t) :
    GetReg16 ext codeline reg regs =
      match lookupReg16 t with
      | none => some (operrNOTREGISTER, codeline, reg)
      | some r =>
        if RegAccept ext regs r = true then
          some (operrOK, { codeline with curtoken := codeline.curtoken + 1 }, r)
        else some (operrWRONGREGISTER, codeline, r) := by
  have he := tokenAt_some_enough codeline t ht
  unfold GetReg16
  rw [reg16_eq codeline.tokens codeline.curtoken reg t ht]
  simp only [he, Bool.true_eq_false, if_false, Option.some_bind]
  cases lookupReg16 t <;> simp

theorem register_filter (ext : Externals) (codeline : CodeLine) (reg : OperandType)
    (regs : Nat) (found : Option OperandType)
    (result : Option (OperandError × CodeLine × OperandType))
    (hres : result =
      match found with
      | none => some (operrNOTREGISTER, codeline, reg)
      | some r =>
        if RegAccept ext regs r = true then
          some (operrOK, { codeline with curtoken := codeline.curtoken + 1 }, r)
        else some (operrWRONGREGISTER, codeline, r)) :
    (∀ r, found = some r → RegAccept ext regs r = true →
        result = some (operrOK, { codeline with curtoken := codeline.curtoken + 1 }, r)) ∧
    (∀ r, found = some r → RegAccept ext regs r = false →
        result = some (operrWRONGREGISTER, codeline, r)) ∧
    (found = none → result = some (operrNOTREGISTER, codeline, reg)) ∧
    (∀ r, found = some r → ext.ordinal r < 32 →
        result =
          some (if regs.testBit (ext.ordinal r) = true then
              (operrOK, { codeline with curtoken := codeline.curtoken + 1 }, r)
            else (operrWRONGREGISTER, codeline, r))) ∧
    (∀ out, result = some out →
        (out.1 = operrOK ↔ ∃ r, found = some r ∧ RegAccept ext regs r = true) ∧
        (out.1 = operrWRONGREGISTER ↔
          ∃ r, found = some r ∧ RegAccept ext regs r = false) ∧
        (out.1 = operrOK → out.2.1.curtoken = codeline.curtoken + 1) ∧
        (out.1 ≠ operrOK → out.2.1 = codeline)) := by
  subst hres
  refine ⟨?_, ?_, ?_, ?_, ?_⟩
  · intro r hf ha
    subst hf
    simp [ha]
  · intro r hf ha
    subst hf
    simp [ha]
  · intro hf
    subst hf
    rfl
  · intro r hf ho
    subst hf
    simp only [RegAccept_eq_testBit ext regs r, Nat.mod_eq_of_lt ho]
    split_ifs <;> rfl
  · intro out hout
    cases found with
    | none =>
      simp only [Option.some.injEq] at hout
      subst hout
      simp
    | some r =>
      cases ha : RegAccept ext regs r with
      | false =>
        simp only [ha, Bool.false_eq_true, if_false, Option.some.injEq] at hout
        subst hout
        simp [ha]
      | true =>
        simp only [ha, if_true, Option.some.injEq] at hout
        subst hout
        simp [ha]

/-- C16: with the cursor on a token `t` (at least one token remains), `GetReg8` returns
`operrOK` with `curtoken` advanced by 1 exactly when `t` names an 8-bit register and
`RegAccept(mask, variant)` is true; it returns `operrWRONGREGISTER` with the code line
unchanged exactly when `t` names an 8-bit register and `RegAccept` is false, that is
(for a register numbered below 32) when its bit is not set in the mask; and it returns
`operrNOTREGISTER` with the code line unchanged when `t` names no 8-bit register.  The
same holds for `GetReg16` and the 16-bit registers. -/
theorem C16_register_filter_mask (ext : Externals) (codeline : CodeLine) (reg : OperandType)
    (regs : Nat) (t : ParseToken)
    (ht : tokenAt codeline.tokens codeline.curtoken = some t) :
    ((∀ r, lookupReg8 t = some r → RegAccept ext regs r = true →
        GetReg8 ext codeline reg regs =
          some (operrOK, { codeline with curtoken := codeline.curtoken + 1 }, r)) ∧
      (∀ r, lookupReg8 t = some r → RegAccept ext regs r = false →
        GetReg8 ext codeline reg regs = some (operrWRONGREGISTER, codeline, r)) ∧
      (lookupReg8 t = none →
        GetReg8 ext codeline reg regs = some (operrNOTREGISTER, codeline, reg)) ∧
      (∀ r, lookupReg8 t = some r → ext.ordinal r < 32 →
        GetReg8 ext codeline reg regs =
          some (if regs.testBit (ext.ordinal r) = true then
              (operrOK, { codeline with curtoken := codeline.curtoken + 1 }, r)
            else (operrWRONGREGISTER, codeline, r))) ∧
      (∀ out, GetReg8 ext codeline reg regs = some out →
        (out.1 = operrOK ↔ ∃ r, lookupReg8 t = some r ∧ RegAccept ext regs r = true) ∧
        (out.1 = operrWRONGREGISTER ↔
          ∃ r, lookupReg8 t = some r ∧ RegAccept ext regs r = false) ∧
        (out.1 = operrOK → out.2.1.curtoken = codeline.curtoken + 1) ∧
        (out.1 ≠ operrOK → out.2.1 = codeline))) ∧
    ((∀ r, lookupReg16 t = some r → RegAccept ext regs r = true →
        GetReg16 ext codeline reg regs =
          some (operrOK, { codeline with curtoken := codeline.curtoken + 1 }, r)) ∧
      (∀ r, lookupReg16 t = some r → RegAccept ext regs r = false →
        GetReg16 ext codeline reg regs = some (operrWRONGREGISTER, codeline, r)) ∧
      (lookupReg16 t = none →
        GetReg16 ext codeline reg regs = some (operrNOTREGISTER, codeline, reg)) ∧
      (∀ r, lookupReg16 t = some r → ext.ordinal r < 32 →
        GetReg16 ext codeline reg regs =
          some (if regs.testBit (ext.ordinal r) = true then
              (operrOK, { codeline with curtoken := codeline.curtoken + 1 }, r)
            else (operrWRONGREGISTER, codeline, r))) ∧
      (∀ out, GetReg16 ext codeline reg regs = some out →
        (out.1 = operrOK ↔ ∃ r, lookupReg16 t = some r ∧ RegAccept ext regs r = true) ∧
        (out.1 = operrWRONGREGISTER ↔
          ∃ r, lookupReg16 t = some r ∧ RegAccept ext regs r = false) ∧
        (out.1 = operrOK → out.2.1.curtoken = codeline.curtoken + 1) ∧
        (out.1 ≠ operrOK → out.2.1 = codeline))) :=
  ⟨register_filter ext codeline reg regs (lookupReg8 t) _
      (GetReg8_eq ext codeline reg regs t ht),
    register_filter ext codeline reg regs (lookupReg16 t) _
      (GetReg16_eq ext codeline reg regs t ht)⟩

/-- C16, witness: on the line `A`, `GetReg8` with the mask `1 << ordinal(A)` returns
`operrOK` with the cursor at 1, and with the mask `1 << ordinal(B)` it returns
`operrWRONGREGISTER` with the code line unchanged. -/
theorem C16_register_filter_mask_witness :
    lookupReg8 (tok tokenTypeLETTERS "A") = some regA ∧
    RegAccept sampleExt (1 <<< sampleExt.ordinal regA) regA = true ∧
    GetReg8 sampleExt (lineOf [tok tokenTypeLETTERS "A"] true) regB
        (1 <<< sampleExt.ordinal regA) =
      some (operrOK,
        { lineOf [tok tokenTypeLETTERS "A"] true with
          curtoken := (lineOf [tok tokenTypeLETTERS "A"] true).curtoken + 1 }, regA) ∧
    RegAccept sampleExt (1 <<< sampleExt.ordinal regB) regA = false ∧
    GetReg8 sampleExt (lineOf [tok tokenTypeLETTERS "A"] true) regB
        (1 <<< sampleExt.ordinal regB) =
      some (operrWRONGREGISTER, lineOf [tok tokenTypeLETTERS "A"] true, regA) :=
  ⟨by decide, by decide,
    (C16_register_filter_mask sampleExt (lineOf [tok tokenTypeLETTERS "A"] true) regB
      (1 <<< sampleExt.ordinal regA) (tok tokenTypeLETTERS "A") (by decide)).1.1 regA
      (by decide) (by decide),
    by decide,
    (C16_register_filter_mask sampleExt (lineOf [tok tokenTypeLETTERS "A"] true) regB
      (1 <<< sampleExt.ordinal regB) (tok tokenTypeLETTERS "A") (by decide)).1.2.1 regA
      (by decide) (by decide)⟩

/-! ## Register names where a number is expected -/

/-- C17: when the token at the cursor is a name whose upper-cased lexeme is the name of
an 8-bit or a 16-bit register (so in any letter case), `GetBitNumber`, `GetNum8` and
`GetNum16` return `operrWRONGREGISTER` and leave the code line unchanged, on both passes
(the code line, hence the pass, is arbitrary) and whatever the evaluator, which they do
not consult: the result is the same for any two sets of collaborators. -/
theorem C17_register_exclusion (ext : Externals) (codeline : CodeLine) (t : ParseToken)
    (ht : tokenAt codeline.tokens codeline.curtoken = some t)
    (hletters : t.type = tokenTypeLETTERS)
    (hname : to_upper t.source ∈ reg8Names ∨ to_upper t.source ∈ reg16Names) :
    (∀ bit : OperandType, ∃ r : OperandType,
        GetBitNumber ext codeline bit = some (operrWRONGREGISTER, codeline, r)) ∧
    (∀ (scratch : OperandType) (value : Int),
        GetNum8 ext scratch codeline value = some (operrWRONGREGISTER, codeline, value)) ∧
    (∀ (scratch : OperandType) (value : Int),
        GetNum16 ext scratch codeline value = some (operrWRONGREGISTER, codeline, value)) ∧
    (∀ (ext2 : Externals) (scratch : OperandType) (bit : OperandType) (value : Int),
        GetBitNumber ext2 codeline bit = GetBitNumber ext codeline bit ∧
        GetNum8 ext2 scratch codeline value = GetNum8 ext scratch codeline value ∧
        GetNum16 ext2 scratch codeline value = GetNum16 ext scratch codeline value) := by
  have he := tokenAt_some_enough codeline t ht
  have hfound : (∃ r, lookupReg8 t = some r) ∨
      (lookupReg8 t = none ∧ ∃ r, lookupReg16 t = some r) := by
    cases h8 : lookupReg8 t with
    | some r => exact Or.inl ⟨r, rfl⟩
    | none =>
      right
      refine ⟨rfl, ?_⟩
      rcases hname with h | h
      · obtain ⟨r, hr⟩ := (lookupReg8_isSome_iff t).mpr ⟨hletters, h⟩
        rw [h8] at hr
        cases hr
      · exact (lookupReg16_isSome_iff t).mpr ⟨hletters, h⟩
  have hbit : ∀ (e : Externals) (bit : OperandType), ∃ r : OperandType,
      GetBitNumber e codeline bit = some (operrWRONGREGISTER, codeline, r) ∧
      ∀ e2 : Externals, GetBitNumber e2 codeline bit = some (operrWRONGREGISTER, codeline, r) := by
    intro e bit
    rcases hfound with ⟨r, hr⟩ | ⟨h8, r, hr⟩
    · refine ⟨r, ?_, fun e2 => ?_⟩ <;>
      · unfold GetBitNumber
        rw [reg8_eq codeline.tokens codeline.curtoken bit t ht, hr]
        simp [he]
    · refine ⟨r, ?_, fun e2 => ?_⟩ <;>
      · unfold GetBitNumber
        rw [reg8_eq codeline.tokens codeline.curtoken bit t ht, h8]
        simp only [he, Bool.true_eq_false, if_false, Option.some_bind, Bool.false_eq_true]
        rw [reg16_eq codeline.tokens codeline.curtoken bit t ht, hr]
        simp
  have hnum8 : ∀ (e : Externals) (scratch : OperandType) (value : Int),
      GetNum8 e scratch codeline value = some (operrWRONGREGISTER, codeline, value) := by
    intro e scratch value
    rcases hfound with ⟨r, hr⟩ | ⟨h8, r, hr⟩
    · unfold GetNum8
      rw [reg8_eq codeline.tokens codeline.curtoken scratch t ht, hr]
      simp [he]
    · unfold GetNum8
      rw [reg8_eq codeline.tokens codeline.curtoken scratch t ht, h8]
      simp only [he, Bool.true_eq_false, if_false, Option.some_bind, Bool.false_eq_true]
      rw [reg16_eq codeline.tokens codeline.curtoken scratch t ht, hr]
      simp
  have hnum16 : ∀ (e : Externals) (scratch : OperandType) (value : Int),
      GetNum16 e scratch codeline value = some (operrWRONGREGISTER, codeline, value) := by
    intro e scratch value
    rcases hfound with ⟨r, hr⟩ | ⟨h8, r, hr⟩
    · unfold GetNum16
      rw [reg8_eq codeline.tokens codeline.curtoken scratch t ht, hr]
      simp [he]
    · unfold GetNum16
      rw [reg8_eq codeline.tokens codeline.curtoken scratch t ht, h8]
      simp only [he, Bool.true_eq_false, if_false, Option.some_bind, Bool.false_eq_true]
      rw [reg16_eq codeline.tokens codeline.curtoken scratch t ht, hr]
      simp
  refine ⟨fun bit => ?_, hnum8 ext, hnum16 ext, fun ext2 scratch bit value => ⟨?_, ?_, ?_⟩⟩
  · obtain ⟨r, hr, -⟩ := hbit ext bit
    exact ⟨r, hr⟩
  · obtain ⟨r, hr, hall⟩ := hbit ext bit
    rw [hr, hall ext2]
  · rw [hnum8 ext, hnum8 ext2]
  · rw [hnum16 ext, hnum16 ext2]

/-- C17, witness: on the line `hl` (lower case), on pass 2, `GetNum16` returns
`operrWRONGREGISTER` with the code line unchanged. -/
theorem C17_register_exclusion_witness :
    to_upper (tok tokenTypeLETTERS "hl").source ∈ reg16Names ∧
    GetNum16 sampleExt regA (lineOf [tok tokenTypeLETTERS "hl"] false) 7 =
      some (operrWRONGREGISTER, lineOf [tok tokenTypeLETTERS "hl"] false, 7) :=
  ⟨by decide,
    (C17_register_exclusion sampleExt (lineOf [tok tokenTypeLETTERS "hl"] false)
      (tok tokenTypeLETTERS "hl") (by decide) (by decide) (Or.inr (by decide))).2.2.1 regA 7⟩

/-! ## Bit numbers -/

/-- C18: when the evaluator resolves the expression at the cursor to a numeric kind
(`STRING` or `DECNUMBER`) with value `v`, `bitnumber` returns `operrOK` exactly when
`0 <= v <= 7`, and the variant is then `bit_v`, whose subcode is `v << 3`; for `v < 0`
or `v > 7`, and for an evaluated token of any other kind, it returns `operrNOTBIT` with
the cursor and the variant unchanged. -/
theorem C18_bitnumber_value (ext : Externals) (tokens : List ParseToken) (c : Int)
    (bit : OperandType)
    (hsolved : (ext.Evaluate tokens c (-1)).1.unsolved = false) :
    ((ext.Evaluate tokens c (-1)).1.type = tokenTypeSTRING ∨
        (ext.Evaluate tokens c (-1)).1.type = tokenTypeDECNUMBER →
      ((bitnumber ext tokens c bit).1 = operrOK ↔
        0 ≤ ext.asNumber (ext.Evaluate tokens c (-1)).1 ∧
          ext.asNumber (ext.Evaluate tokens c (-1)).1 ≤ 7) ∧
      ((bitnumber ext tokens c bit).1 = operrOK →
        bitVariants[(ext.asNumber (ext.Evaluate tokens c (-1)).1).toNat]? =
            some (bitnumber ext tokens c bit).2.2 ∧
          GetSubCode (bitnumber ext tokens c bit).2.2 =
            (((ext.asNumber (ext.Evaluate tokens c (-1)).1).toNat <<< 3 : Nat) : Int)) ∧
      (ext.asNumber (ext.Evaluate tokens c (-1)).1 < 0 ∨
          ext.asNumber (ext.Evaluate tokens c (-1)).1 > 7 →
        bitnumber ext tokens c bit = (operrNOTBIT, c, bit))) ∧
    (¬ ((ext.Evaluate tokens c (-1)).1.type = tokenTypeSTRING ∨
        (ext.Evaluate tokens c (-1)).1.type = tokenTypeDECNUMBER) →
      bitnumber ext tokens c bit = (operrNOTBIT, c, bit)) := by
  constructor
  · intro hkind
    unfold bitnumber
    dsimp only
    rw [hsolved]
    simp only [Bool.false_eq_true, if_false]
    rw [if_pos hkind]
    generalize ext.asNumber (ext.Evaluate tokens c (-1)).1 = v
    by_cases hv : v < 0 ∨ v > 7
    · rw [if_pos hv]
      refine ⟨?_, ?_, fun _ => rfl⟩
      · constructor
        · intro h; cases h
        · intro h; omega
      · intro h; cases h
    · rw [if_neg hv]
      have h0 : 0 ≤ v := by omega
      have h7 : v ≤ 7 := by omega
      refine ⟨⟨fun _ => ⟨h0, h7⟩, fun _ => rfl⟩, fun _ => ?_, fun h => absurd h hv⟩
      interval_cases v <;> (dsimp only; decide)
  · intro hkind
    unfold bitnumber
    dsimp only
    rw [hsolved]
    simp only [Bool.false_eq_true, if_false]
    rw [if_neg hkind]

/-- C18, witness: on the one-token line `3` the evaluator gives the decimal number 3 and
`bitnumber` returns `operrOK` with `bit3`, whose subcode is `3 << 3`; on `9` it returns
`operrNOTBIT` with the cursor and the variant unchanged. -/
theorem C18_bitnumber_value_witness :
    ((bitnumber sampleExt [tok tokenTypeDECNUMBER "3"] 0 regA).1 = operrOK ↔
      0 ≤ sampleExt.asNumber (sampleExt.Evaluate [tok tokenTypeDECNUMBER "3"] 0 (-1)).1 ∧
        sampleExt.asNumber (sampleExt.Evaluate [tok tokenTypeDECNUMBER "3"] 0 (-1)).1 ≤ 7) ∧
    (bitnumber sampleExt [tok tokenTypeDECNUMBER "3"] 0 regA).2.2 = bit3 ∧
    GetSubCode bit3 = ((3 <<< 3 : Nat) : Int) ∧
    bitnumber sampleExt [tok tokenTypeDECNUMBER "9"] 0 regA = (operrNOTBIT, 0, regA) :=
  ⟨((C18_bitnumber_value sampleExt [tok tokenTypeDECNUMBER "3"] 0 regA (by decide)).1
      (Or.inr (by decide))).1,
    by decide, by decide,
    ((C18_bitnumber_value sampleExt [tok tokenTypeDECNUMBER "9"] 0 regA (by decide)).1
      (Or.inr (by decide))).2.2 (Or.inr (by decide))⟩

/-! ## Conditions -/

theorem mem_condition_keys_iff (s : String) :
    s ∈ conditions.map Prod.fst ↔ s ∈ conditionNames := by
  simp only [conditions, InitRegisterMap, conditionNames, List.map, List.mem_cons,
    List.mem_nil_iff, or_false]
  tauto

/-- C20: with the cursor on a token `t`, `condition` returns `operrOK` exactly when `t`
is a name whose lexeme is, as written, one of `NZ, Z, NC, C, PO, PE, P, M`; the variant
is then the entry of the catalog for that lexeme and the cursor is `c + 1`.  A name with
any other lexeme (the lower-case `nz` for one) gives `operrNOTCONDITION` and a token of
another kind gives `operrNOTSTRING`, both with the cursor and the variant unchanged.
`GetCond` returns `operrOK` with `condNZ` on `NZ`. -/
theorem C20_condition_case_sensitive (tokens : List ParseToken) (c : Int)
    (cond : OperandType) (t : ParseToken) (ht : tokenAt tokens c = some t) :
    (∃ out, condition tokens c cond = some out) ∧
    (∀ out, condition tokens c cond = some out →
      (out.1 = operrOK ↔ t.type = tokenTypeLETTERS ∧ t.source ∈ conditionNames) ∧
      (out.1 = operrOK → conditions.lookup t.source = some out.2.2 ∧ out.2.1 = c + 1) ∧
      (t.type = tokenTypeLETTERS → t.source ∉ conditionNames →
        out = (operrNOTCONDITION, c, cond)) ∧
      (t.type ≠ tokenTypeLETTERS → out = (operrNOTSTRING, c, cond))) ∧
    conditionNames.map (fun name => conditions.lookup name) = conditionVariants.map some ∧
    condition [tok tokenTypeLETTERS "nz"] 0 cond = some (operrNOTCONDITION, 0, cond) ∧
    GetCond (lineOf [tok tokenTypeLETTERS "NZ"] true) cond =
      some (operrOK, { lineOf [tok tokenTypeLETTERS "NZ"] true with curtoken := 1 },
        condNZ) := by
  have hiff : (∃ r, conditions.lookup t.source = some r) ↔ t.source ∈ conditionNames :=
    (lookup_isSome_iff_mem_keys conditions t.source).trans (mem_condition_keys_iff t.source)
  have heq : condition tokens c cond =
      some (if t.type ≠ tokenTypeLETTERS then (operrNOTSTRING, c, cond)
        else match conditions.lookup t.source with
          | some r => (operrOK, c + 1, r)
          | none => (operrNOTCONDITION, c, cond)) := by
    unfold condition
    simp only [ht, Option.some_bind]
    split_ifs
    · rfl
    · cases conditions.lookup t.source <;> rfl
  refine ⟨⟨_, heq⟩, ?_, by decide, ?_, ?_⟩
  · intro out hout
    rw [heq] at hout
    by_cases hl : t.type = tokenTypeLETTERS
    · rw [if_neg (not_not.mpr hl)] at hout
      cases hlook : conditions.lookup t.source with
      | none =>
        rw [hlook] at hout hiff
        cases hout
        have hnot : t.source ∉ conditionNames := fun h => by
          obtain ⟨r, hr⟩ := hiff.mpr h
          cases hr
        refine ⟨⟨fun h => (by cases h), fun h => absurd h.2 hnot⟩, fun h => (by cases h),
          fun _ _ => rfl, fun h => absurd hl h⟩
      | some r =>
        rw [hlook] at hout hiff
        cases hout
        have hin : t.source ∈ conditionNames := hiff.mp ⟨r, rfl⟩
        exact ⟨⟨fun _ => ⟨hl, hin⟩, fun _ => rfl⟩, fun _ => ⟨rfl, rfl⟩,
          fun _ h => absurd hin h, fun h => absurd hl h⟩
    · rw [if_pos hl] at hout
      cases hout
      exact ⟨⟨fun h => (by cases h), fun h => absurd h.1 hl⟩, fun h => (by cases h),
        fun h => absurd h hl, fun _ => rfl⟩
  · have h1 : tokenAt [tok tokenTypeLETTERS "nz"] 0 = some (tok tokenTypeLETTERS "nz") := by
      decide
    unfold condition
    rw [h1]
    have h2 : conditions.lookup (tok tokenTypeLETTERS "nz").source = none := by decide
    simp only [Option.some_bind, h2]
    rfl
  · have h1 : EnoughTokensLeft (lineOf [tok tokenTypeLETTERS "NZ"] true) 1 = true := by
      decide
    have h2 : condition (lineOf [tok tokenTypeLETTERS "NZ"] true).tokens
        (lineOf [tok tokenTypeLETTERS "NZ"] true).curtoken cond =
          some (operrOK, 1, condNZ) := by
      have h3 : tokenAt (lineOf [tok tokenTypeLETTERS "NZ"] true).tokens
          (lineOf [tok tokenTypeLETTERS "NZ"] true).curtoken =
            some (tok tokenTypeLETTERS "NZ") := by decide
      unfold condition
      rw [h3]
      have h4 : conditions.lookup (tok tokenTypeLETTERS "NZ").source = some condNZ := by
        decide
      simp only [Option.some_bind, h4]
      rfl
    rw [GetCond_reach _ cond _ h1 h2]
    rfl

/-- C20, witness: on the line `PE` with the cursor at 0, `condition` returns `operrOK`
with `condPE` and the cursor 1. -/
theorem C20_condition_case_sensitive_witness :
    condition [tok tokenTypeLETTERS "PE"] 0 regA = some (operrOK, 1, condPE) ∧
    ((operrOK, (1 : Int), condPE).1 = operrOK ↔
      (tok tokenTypeLETTERS "PE").type = tokenTypeLETTERS ∧
        (tok tokenTypeLETTERS "PE").source ∈ conditionNames) :=
  ⟨by decide,
    ((C20_condition_case_sensitive [tok tokenTypeLETTERS "PE"] 0 regA
      (tok tokenTypeLETTERS "PE") (by decide)).2.1 (operrOK, 1, condPE) (by decide)).1⟩

/-! ## The shape of an indexed operand -/

theorem tokenAt_of_range (tokens : List ParseToken) (i : Int) (h0 : 0 ≤ i)
    (h1 : i < (tokens.length : Int)) : ∃ t, tokenAt tokens i = some t := by
  have hlt : i.toNat < tokens.length := by omega
  refine ⟨tokens[i.toNat], ?_⟩
  unfold tokenAt
  rw [if_neg (by omega), List.getElem?_eq_getElem hlt]

theorem lookupReg16_eq_IX_iff (t : ParseToken) :
    (lookupReg16 t = some regIX ↔
      t.type = tokenTypeLETTERS ∧ to_upper t.source = "IX") ∧
    (lookupReg16 t = some regIY ↔
      t.type = tokenTypeLETTERS ∧ to_upper t.source = "IY") := by
  have key : ∀ s : String,
      (registers16.lookup s = some regIX ↔ s = "IX") ∧
      (registers16.lookup s = some regIY ↔ s = "IY") := by
    intro s
    constructor
    · constructor
      · intro h
        have hm : s ∈ reg16Names := (lookup_isSome_iff_mem_keys registers16 s).mp ⟨_, h⟩
        simp only [reg16Names, List.mem_cons, List.mem_nil_iff, or_false] at hm
        rcases hm with rfl | rfl | rfl | rfl | rfl | rfl | rfl | rfl <;> revert h <;> decide
      · rintro rfl
        decide
    · constructor
      · intro h
        have hm : s ∈ reg16Names := (lookup_isSome_iff_mem_keys registers16 s).mp ⟨_, h⟩
        simp only [reg16Names, List.mem_cons, List.mem_nil_iff, or_false] at hm
        rcases hm with rfl | rfl | rfl | rfl | rfl | rfl | rfl | rfl <;> revert h <;> decide
      · rintro rfl
        decide
  unfold lookupReg16
  by_cases hl : t.type = tokenTypeLETTERS
  · simp only [hl, if_true, true_and]
    exact key (to_upper t.source)
  · simp [hl]

theorem indirectX_eq (ext : Externals) (tokens : List ParseToken) (c : Int)
    (regX : OperandType) (value : Int) (t0 t1 t2 : ParseToken)
    (hge : geSize (c + 4) tokens = false)
    (h0 : tokenAt tokens c = some t0) (h1 : tokenAt tokens (c + 1) = some t1)
    (h2 : tokenAt tokens (c + 2) = some t2) :
    indirectX ext tokens c regX value =
      if t0.type ≠ tokenTypePAROPEN then some (operrMISSINGPAROPEN, c, regX, value)
      else
        match lookupReg16 t1 with
        | none => some (operrREGISTERNAME, c, regX, value)
        | some r =>
          if r ≠ regIX ∧ r ≠ regIY then some (operrREGISTERNAME, c, r, value)
          else if t2.type ≠ tokenTypeOP_PLUS then some (operrWRONGOP, c, r, value)
          else
            if (ext.Evaluate tokens (c + 3)
                ((findClose (tokens.drop (c + 3).toNat) (c + 3) 1 t2).1 - 1)).1.unsolved
                = true then
              some (operrUNSOLVED,
                (ext.Evaluate tokens (c + 3)
                  ((findClose (tokens.drop (c + 3).toNat) (c + 3) 1 t2).1 - 1)).2 + 1, r, 0)
            else
              some (operrOK,
                (ext.Evaluate tokens (c + 3)
                  ((findClose (tokens.drop (c + 3).toNat) (c + 3) 1 t2).1 - 1)).2 + 1, r,
                ext.asNumber (ext.Evaluate tokens (c + 3)
                  ((findClose (tokens.drop (c + 3).toNat) (c + 3) 1 t2).1 - 1)).1) := by
  unfold indirectX
  rw [hge]
  simp only [Bool.false_eq_true, if_false, h0, Option.some_bind]
  rw [reg16_eq tokens (c + 1) regX t1 h1]
  simp only [Option.some_bind, h2]
  by_cases hp : t0.type ≠ tokenTypePAROPEN
  · rw [if_pos hp, if_pos hp]
  · rw [if_neg hp, if_neg hp]
    cases lookupReg16 t1 with
    | none => simp
    | some r =>
      simp only [Bool.true_eq_false, if_false]

/-- C19: with `c` a cursor (a non-negative `int`), `indirectX` returns
`operrTOKENNUMBER` if fewer than 5 tokens remain from `c`; otherwise
`operrMISSINGPAROPEN` if the token at `c` is not an opening parenthesis; otherwise
`operrREGISTERNAME` if the token at `c + 1` is not a name whose upper-cased lexeme is
`IX` or `IY`; otherwise `operrWRONGOP` if the token at `c + 2` is not a `+`.  In these
four cases the cursor stays at `c`, `value` is unchanged and the evaluator is not called
(the result is the same for every set of collaborators).  When none applies the result
is `operrOK` or `operrUNSOLVED` with the variant `IX` or `IY` of the name. -/
theorem C19_indirectX_rejections (ext : Externals) (tokens : List ParseToken) (c : Int)
    (regX : OperandType) (value : Int) (hc0 : 0 ≤ c) (hc31 : c < 2 ^ 31) :
    ((tokens.length : Int) < c + 5 →
      ∀ e : Externals,
        indirectX e tokens c regX value = some (operrTOKENNUMBER, c, regX, value)) ∧
    (c + 5 ≤ (tokens.length : Int) →
      ∃ t0 t1 t2 : ParseToken,
        tokenAt tokens c = some t0 ∧ tokenAt tokens (c + 1) = some t1 ∧
        tokenAt tokens (c + 2) = some t2 ∧
        (t0.type ≠ tokenTypePAROPEN →
          ∀ e : Externals,
            indirectX e tokens c regX value = some (operrMISSINGPAROPEN, c, regX, value)) ∧
        (t0.type = tokenTypePAROPEN →
          ¬ (t1.type = tokenTypeLETTERS ∧
            (to_upper t1.source = "IX" ∨ to_upper t1.source = "IY")) →
          ∃ r : OperandType, ∀ e : Externals,
            indirectX e tokens c regX value = some (operrREGISTERNAME, c, r, value)) ∧
        (t0.type = tokenTypePAROPEN → t1.type = tokenTypeLETTERS →
          to_upper t1.source = "IX" ∨ to_upper t1.source = "IY" →
          t2.type ≠ tokenTypeOP_PLUS →
          ∃ r : OperandType, ∀ e : Externals,
            indirectX e tokens c regX value = some (operrWRONGOP, c, r, value)) ∧
        (t0.type = tokenTypePAROPEN → t1.type = tokenTypeLETTERS →
          to_upper t1.source = "IX" ∨ to_upper t1.source = "IY" →
          t2.type = tokenTypeOP_PLUS →
          ∃ out, indirectX ext tokens c regX value = some out ∧
            (out.1 = operrOK ∨ out.1 = operrUNSOLVED) ∧
            (to_upper t1.source = "IX" → out.2.2.1 = regIX) ∧
            (to_upper t1.source = "IY" → out.2.2.1 = regIY))) := by
  constructor
  · intro hlen e
    have hge : geSize (c + 4) tokens = true := by
      unfold geSize
      rw [decide_eq_true_eq]
      omega
    unfold indirectX
    rw [if_pos hge]
  · intro hlen
    obtain ⟨t0, h0⟩ := tokenAt_of_range tokens c hc0 (by omega)
    obtain ⟨t1, h1⟩ := tokenAt_of_range tokens (c + 1) (by omega) (by omega)
    obtain ⟨t2, h2⟩ := tokenAt_of_range tokens (c + 2) (by omega) (by omega)
    have hge : geSize (c + 4) tokens = false := by
      unfold geSize
      rw [decide_eq_false_iff_not]
      omega
    obtain ⟨hIX, hIY⟩ := lookupReg16_eq_IX_iff t1
    refine ⟨t0, t1, t2, h0, h1, h2, ?_, ?_, ?_, ?_⟩
    · intro hp e
      rw [indirectX_eq e tokens c regX value t0 t1 t2 hge h0 h1 h2, if_pos hp]
    · intro hp hname
      cases hl : lookupReg16 t1 with
      | none =>
        refine ⟨regX, fun e => ?_⟩
        rw [indirectX_eq e tokens c regX value t0 t1 t2 hge h0 h1 h2,
          if_neg (not_not.mpr hp), hl]
      | some r =>
        have hr : r ≠ regIX ∧ r ≠ regIY := by
          constructor
          · rintro rfl
            exact hname ⟨(hIX.mp hl).1, Or.inl (hIX.mp hl).2⟩
          · rintro rfl
            exact hname ⟨(hIY.mp hl).1, Or.inr (hIY.mp hl).2⟩
        refine ⟨r, fun e => ?_⟩
        rw [indirectX_eq e tokens c regX value t0 t1 t2 hge h0 h1 h2,
          if_neg (not_not.mpr hp), hl]
        simp only []
        rw [if_pos hr]
    · intro hp hl hname hplus
      have hlook : ∃ r, lookupReg16 t1 = some r ∧ ¬ (r ≠ regIX ∧ r ≠ regIY) := by
        rcases hname with h | h
        · exact ⟨regIX, hIX.mpr ⟨hl, h⟩, fun hcon => hcon.1 rfl⟩
        · exact ⟨regIY, hIY.mpr ⟨hl, h⟩, fun hcon => hcon.2 rfl⟩
      obtain ⟨r, hr, hnot⟩ := hlook
      refine ⟨r, fun e => ?_⟩
      rw [indirectX_eq e tokens c regX value t0 t1 t2 hge h0 h1 h2,
        if_neg (not_not.mpr hp), hr]
      simp only []
      rw [if_neg hnot, if_pos hplus]
    · intro hp hl hname hplus
      have hlook : ∃ r, lookupReg16 t1 = some r ∧ ¬ (r ≠ regIX ∧ r ≠ regIY) ∧
          (to_upper t1.source = "IX" → r = regIX) ∧
          (to_upper t1.source = "IY" → r = regIY) := by
        rcases hname with h | h
        · refine ⟨regIX, hIX.mpr ⟨hl, h⟩, fun hcon => hcon.1 rfl, fun _ => rfl, fun h2 => ?_⟩
          rw [h] at h2
          exact absurd h2 (by decide)
        · refine ⟨regIY, hIY.mpr ⟨hl, h⟩, fun hcon => hcon.2 rfl, fun h2 => ?_, fun _ => rfl⟩
          rw [h] at h2
          exact absurd h2 (by decide)
      obtain ⟨r, hr, hnot, hix, hiy⟩ := hlook
      rw [indirectX_eq ext tokens c regX value t0 t1 t2 hge h0 h1 h2,
        if_neg (not_not.mpr hp), hr]
      simp only []
      rw [if_neg hnot, if_neg (not_not.mpr hplus)]
      split_ifs
      · exact ⟨_, rfl, Or.inr rfl, hix, hiy⟩
      · exact ⟨_, rfl, Or.inl rfl, hix, hiy⟩

/-- C19, witness: on `(IX+` with the cursor at 0 only three tokens remain, so
`indirectX` returns `operrTOKENNUMBER` with the cursor at 0; on `(HL+5)` five tokens
remain, the first is an opening parenthesis and the second names neither `IX` nor `IY`,
so `indirectX` returns `operrREGISTERNAME` with the cursor at 0. -/
theorem C19_indirectX_rejections_witness :
    (([tok tokenTypePAROPEN "(", tok tokenTypeLETTERS "IX",
        tok tokenTypeOP_PLUS "+"].length : Int) < 0 + 5) ∧
    indirectX sampleExt
        [tok tokenTypePAROPEN "(", tok tokenTypeLETTERS "IX", tok tokenTypeOP_PLUS "+"]
        0 regA 7 = some (operrTOKENNUMBER, 0, regA, 7) ∧
    indirectX sampleExt
        [tok tokenTypePAROPEN "(", tok tokenTypeLETTERS "HL", tok tokenTypeOP_PLUS "+",
          tok tokenTypeDECNUMBER "5", tok tokenTypePARCLOSE ")"] 0 regA 7 =
      some (operrREGISTERNAME, 0, regHL, 7) :=
  ⟨by decide,
    (C19_indirectX_rejections sampleExt
      [tok tokenTypePAROPEN "(", tok tokenTypeLETTERS "IX", tok tokenTypeOP_PLUS "+"]
      0 regA 7 (by decide) (by decide)).1 (by decide) sampleExt,
    by decide⟩

/-! ## The cursor committed by `GetInd16` -/

theorem indirect16_returns (ext : Externals) (tokens : List ParseToken) (c : Int)
    (value lasttoken : Int) (hc0 : 0 ≤ c) (hlen : c + 3 ≤ (tokens.length : Int)) :
    ∃ m, indirect16 ext tokens c value lasttoken = some m := by
  obtain ⟨t0, h0⟩ := tokenAt_of_range tokens c hc0 (by omega)
  obtain ⟨t1, h1⟩ := tokenAt_of_range tokens (c + 1) (by omega) (by omega)
  unfold indirect16
  simp only [h0, h1, Option.some_bind]
  split_ifs <;> exact ⟨_, rfl⟩

/-- C21: on a code line with at least 3 tokens remaining, on either pass, `GetInd16`
returns `operrOK` exactly when `indirect16` returned `operrOK`, or returned
`operrUNSOLVED` on pass 1; it then sets `codeline.curtoken` to the `lasttoken` reported
by `indirect16`, with the value of `indirect16` in the first case and 0 in the second.
Whenever it returns another result (which is `operrNOTNUMBER`), the code line is
unchanged: `indirect16` receives the cursor by value and has no cursor to write. -/
theorem C21_GetInd16_commits_on_acceptance (ext : Externals) (scratch : Int)
    (codeline : CodeLine) (value : Int) (hc0 : 0 ≤ codeline.curtoken)
    (hlen : EnoughTokensLeft codeline 3 = true) :
    ∃ m out, indirect16 ext codeline.tokens codeline.curtoken value scratch = some m ∧
      GetInd16 ext scratch codeline value = some out ∧
      (out.1 = operrOK ↔
        m.1 = operrOK ∨ (m.1 = operrUNSOLVED ∧ IsFirstPass codeline.as = true)) ∧
      (out.1 = operrOK → out.2.1 = { codeline with curtoken := m.2.2 }) ∧
      (m.1 = operrOK → out.2.2 = m.2.1) ∧
      (m.1 = operrUNSOLVED → IsFirstPass codeline.as = true → out.2.2 = 0) ∧
      (out.1 ≠ operrOK → out.1 = operrNOTNUMBER ∧ out.2.1 = codeline) := by
  have hlen2 : codeline.curtoken + 3 ≤ (codeline.tokens.length : Int) := by
    simpa [EnoughTokensLeft] using hlen
  obtain ⟨m, hm⟩ :=
    indirect16_returns ext codeline.tokens codeline.curtoken value scratch hc0 hlen2
  refine ⟨m, _, hm, GetInd16_reach ext scratch codeline value m hlen hm, ?_⟩
  by_cases hok : m.1 = operrOK
  · rw [if_pos hok]
    refine ⟨⟨fun _ => Or.inl hok, fun _ => rfl⟩, fun _ => rfl, fun _ => rfl, ?_, ?_⟩
    · intro hu
      rw [hok] at hu
      cases hu
    · intro h
      exact absurd rfl h
  · rw [if_neg hok]
    by_cases hun : m.1 = operrUNSOLVED ∧ IsFirstPass codeline.as = true
    · rw [if_pos hun]
      exact ⟨⟨fun _ => Or.inr hun, fun _ => rfl⟩, fun _ => rfl, fun h => absurd h hok,
        fun _ _ => rfl, fun h => absurd rfl h⟩
    · rw [if_neg hun]
      refine ⟨⟨fun h => (by cases h), ?_⟩, fun h => (by cases h), fun h => absurd h hok,
        fun hu hp => absurd ⟨hu, hp⟩ hun, fun _ => ⟨rfl, rfl⟩⟩
      rintro (h | h)
      · exact absurd h hok
      · exact absurd h hun

/-- C21, witness: on `(0x1234)` on pass 2, `indirect16` returns `operrOK` with the value
`0x1234` and `lasttoken = 2`, and `GetInd16` returns `operrOK` with the cursor at 2; on
`(LABEL)` with the label unresolved on pass 2, `GetInd16` returns `operrNOTNUMBER` and
the code line is unchanged. -/
theorem C21_GetInd16_commits_on_acceptance_witness :
    (∃ m out, indirect16 sampleExt (lineOf tokensInd1234 false).tokens
        (lineOf tokensInd1234 false).curtoken 7 0 = some m ∧
      GetInd16 sampleExt 0 (lineOf tokensInd1234 false) 7 = some out ∧
      (out.1 = operrOK ↔
        m.1 = operrOK ∨
          (m.1 = operrUNSOLVED ∧ IsFirstPass (lineOf tokensInd1234 false).as = true)) ∧
      (out.1 = operrOK → out.2.1 = { lineOf tokensInd1234 false with curtoken := m.2.2 }) ∧
      (m.1 = operrOK → out.2.2 = m.2.1) ∧
      (m.1 = operrUNSOLVED → IsFirstPass (lineOf tokensInd1234 false).as = true →
        out.2.2 = 0) ∧
      (out.1 ≠ operrOK → out.1 = operrNOTNUMBER ∧ out.2.1 = lineOf tokensInd1234 false)) ∧
    indirect16 sampleExt tokensInd1234 0 7 0 = some (operrOK, 0x1234, 2) ∧
    GetInd16 sampleExt 0 (lineOf tokensInd1234 false) 7 =
      some (operrOK, { lineOf tokensInd1234 false with curtoken := 2 }, 0x1234) ∧
    GetInd16 sampleExt 0
        (lineOf [tok tokenTypePAROPEN "(", tok tokenTypeLETTERS "LABEL",
          tok tokenTypePARCLOSE ")"] false) 7 =
      some (operrNOTNUMBER,
        lineOf [tok tokenTypePAROPEN "(", tok tokenTypeLETTERS "LABEL",
          tok tokenTypePARCLOSE ")"] false, 0) :=
  ⟨C21_GetInd16_commits_on_acceptance sampleExt 0 (lineOf tokensInd1234 false) 7
      (by decide) (by decide),
    by decide, by decide, by decide⟩

/-! ## The bounds of `number8` and `number16` -/

/-- C22: when the evaluator resolves the expression at the cursor to a numeric kind
(`STRING` or `DECNUMBER`) with value `v`, `number8` returns `operrOK` with `value = v`
for every `v <= 255`, and `number16` for every `v <= 65535`, negative values included:
no lower bound is checked.  For `v` above the bound the result is `operrTOOBIG` and the
cursor is unchanged, but `value` holds the oversize `v`. -/
theorem C22_numbers_upper_bound_only (ext : Externals) (tokens : List ParseToken) (c : Int)
    (value : Int)
    (hsolved : (ext.Evaluate tokens c (-1)).1.unsolved = false)
    (hkind : (ext.Evaluate tokens c (-1)).1.type = tokenTypeSTRING ∨
      (ext.Evaluate tokens c (-1)).1.type = tokenTypeDECNUMBER) :
    (ext.asNumber (ext.Evaluate tokens c (-1)).1 ≤ 255 →
      number8 ext tokens c value =
        (operrOK, (ext.Evaluate tokens c (-1)).2 + 1,
          ext.asNumber (ext.Evaluate tokens c (-1)).1)) ∧
    (255 < ext.asNumber (ext.Evaluate tokens c (-1)).1 →
      number8 ext tokens c value =
        (operrTOOBIG, c, ext.asNumber (ext.Evaluate tokens c (-1)).1)) ∧
    (ext.asNumber (ext.Evaluate tokens c (-1)).1 ≤ 65535 →
      number16 ext tokens c value =
        (operrOK, (ext.Evaluate tokens c (-1)).2 + 1,
          ext.asNumber (ext.Evaluate tokens c (-1)).1)) ∧
    (65535 < ext.asNumber (ext.Evaluate tokens c (-1)).1 →
      number16 ext tokens c value =
        (operrTOOBIG, c, ext.asNumber (ext.Evaluate tokens c (-1)).1)) := by
  refine ⟨?_, ?_, ?_, ?_⟩
  · intro hv
    unfold number8
    dsimp only
    rw [hsolved]
    simp only [Bool.false_eq_true, if_false]
    rw [if_pos hkind, if_neg (by omega)]
  · intro hv
    unfold number8
    dsimp only
    rw [hsolved]
    simp only [Bool.false_eq_true, if_false]
    rw [if_pos hkind, if_pos (by omega)]
  · intro hv
    unfold number16
    dsimp only
    rw [hsolved]
    simp only [Bool.false_eq_true, if_false]
    rw [if_pos hkind, if_neg (by omega)]
  · intro hv
    unfold number16
    dsimp only
    rw [hsolved]
    simp only [Bool.false_eq_true, if_false]
    rw [if_pos hkind, if_pos (by omega)]

/-- C22, witness: with collaborators that read the token `5` as -5, `number8` and
`number16` return `operrOK` with the value -5; with the usual ones `number8` on `256`
and `number16` on `65536` return `operrTOOBIG` with the cursor unchanged and the
oversize number in `value`. -/
theorem C22_numbers_upper_bound_only_witness :
    sampleNegExt.asNumber (sampleNegExt.Evaluate [tok tokenTypeDECNUMBER "5"] 0 (-1)).1 = -5 ∧
    number8 sampleNegExt [tok tokenTypeDECNUMBER "5"] 0 7 = (operrOK, 1, -5) ∧
    number16 sampleNegExt [tok tokenTypeDECNUMBER "5"] 0 7 = (operrOK, 1, -5) ∧
    number8 sampleExt [tok tokenTypeDECNUMBER "256"] 0 7 = (operrTOOBIG, 0, 256) ∧
    number16 sampleExt [tok tokenTypeDECNUMBER "65536"] 0 7 = (operrTOOBIG, 0, 65536) :=
  ⟨by decide,
    (C22_numbers_upper_bound_only sampleNegExt [tok tokenTypeDECNUMBER "5"] 0 7 (by decide)
      (Or.inr (by decide))).1 (by decide),
    (C22_numbers_upper_bound_only sampleNegExt [tok tokenTypeDECNUMBER "5"] 0 7 (by decide)
      (Or.inr (by decide))).2.2.1 (by decide),
    (C22_numbers_upper_bound_only sampleExt [tok tokenTypeDECNUMBER "256"] 0 7 (by decide)
      (Or.inr (by decide))).2.1 (by decide),
    (C22_numbers_upper_bound_only sampleExt [tok tokenTypeDECNUMBER "65536"] 0 7 (by decide)
      (Or.inr (by decide))).2.2.2 (by decide)⟩

/-! ## An indexed operand whose parenthesis is not closed -/

theorem findClose_of_no_close (l : List ParseToken) (index depth : Int) (t : ParseToken)
    (h : specBalancedClose l index depth = none) :
    (findClose l index depth t).1 = index + (l.length : Int) := by
  induction l generalizing index depth t with
  | nil => simp [findClose]
  | cons a rest ih =>
    unfold specBalancedClose at h
    unfold findClose
    split_ifs at h ⊢ with h1 h2 h3
    · rw [ih (index + 1) (depth + 1) a h]
      simp only [List.length_cons]
      push_cast
      omega
    · rw [ih (index + 1) (depth - 1) a h]
      simp only [List.length_cons]
      push_cast
      omega
    · rw [ih (index + 1) depth a h]
      simp only [List.length_cons]
      push_cast
      omega

/-- C23: on a line with at least 5 tokens remaining from the cursor `c` that starts
with an opening parenthesis, a name whose upper-cased lexeme is `IX` or `IY`, and a `+`,
and in which no later closing parenthesis brings the depth back to zero, `indirectX`
hands the evaluator the range from `c + 3` to the last token of the line, moves the
cursor to the index the evaluator writes back plus one, and returns `operrUNSOLVED`
(with value 0) or `operrOK` (with the evaluated number) according to the evaluator
alone.  On no input at all is its result `operrMISSINGPARCLOSE`. -/
theorem C23_indirectX_unclosed (ext : Externals) (tokens : List ParseToken) (c : Int)
    (regX : OperandType) (value : Int) (t0 t1 t2 : ParseToken)
    (hc0 : 0 ≤ c) (hc31 : c < 2 ^ 31) (hlen : c + 5 ≤ (tokens.length : Int))
    (h0 : tokenAt tokens c = some t0) (h1 : tokenAt tokens (c + 1) = some t1)
    (h2 : tokenAt tokens (c + 2) = some t2)
    (hopen : t0.type = tokenTypePAROPEN) (hletters : t1.type = tokenTypeLETTERS)
    (hname : to_upper t1.source = "IX" ∨ to_upper t1.source = "IY")
    (hplus : t2.type = tokenTypeOP_PLUS)
    (hnoclose : specBalancedClose (tokens.drop (c + 3).toNat) (c + 3) 1 = none) :
    (findClose (tokens.drop (c + 3).toNat) (c + 3) 1 t2).1 - 1 =
        (tokens.length : Int) - 1 ∧
    (∃ r : OperandType,
      (to_upper t1.source = "IX" → r = regIX) ∧ (to_upper t1.source = "IY" → r = regIY) ∧
      ((ext.Evaluate tokens (c + 3) ((tokens.length : Int) - 1)).1.unsolved = true →
        indirectX ext tokens c regX value =
          some (operrUNSOLVED,
            (ext.Evaluate tokens (c + 3) ((tokens.length : Int) - 1)).2 + 1, r, 0)) ∧
      ((ext.Evaluate tokens (c + 3) ((tokens.length : Int) - 1)).1.unsolved = false →
        indirectX ext tokens c regX value =
          some (operrOK,
            (ext.Evaluate tokens (c + 3) ((tokens.length : Int) - 1)).2 + 1, r,
            ext.asNumber (ext.Evaluate tokens (c + 3) ((tokens.length : Int) - 1)).1))) ∧
    (∀ (tokens2 : List ParseToken) (c2 : Int) (regX2 : OperandType) (value2 : Int)
        (out : OperandError × Int × OperandType × Int),
      indirectX ext tokens2 c2 regX2 value2 = some out →
      out.1 ≠ operrMISSINGPARCLOSE) := by
  have hscan : (findClose (tokens.drop (c + 3).toNat) (c + 3) 1 t2).1 =
      (tokens.length : Int) := by
    rw [findClose_of_no_close _ _ _ _ hnoclose, List.length_drop]
    omega
  have hge : geSize (c + 4) tokens = false := by
    unfold geSize
    rw [decide_eq_false_iff_not]
    omega
  obtain ⟨hIX, hIY⟩ := lookupReg16_eq_IX_iff t1
  have hlook : ∃ r, lookupReg16 t1 = some r ∧ ¬ (r ≠ regIX ∧ r ≠ regIY) ∧
      (to_upper t1.source = "IX" → r = regIX) ∧
      (to_upper t1.source = "IY" → r = regIY) := by
    rcases hname with h | h
    · refine ⟨regIX, hIX.mpr ⟨hletters, h⟩, fun hcon => hcon.1 rfl, fun _ => rfl,
        fun h3 => ?_⟩
      rw [h] at h3
      exact absurd h3 (by decide)
    · refine ⟨regIY, hIY.mpr ⟨hletters, h⟩, fun hcon => hcon.2 rfl, fun h3 => ?_,
        fun _ => rfl⟩
      rw [h] at h3
      exact absurd h3 (by decide)
  obtain ⟨r, hr, hnot, hix, hiy⟩ := hlook
  have heq := indirectX_eq ext tokens c regX value t0 t1 t2 hge h0 h1 h2
  rw [if_neg (not_not.mpr hopen), hr] at heq
  simp only [] at heq
  rw [if_neg hnot, if_neg (not_not.mpr hplus), hscan] at heq
  refine ⟨by rw [hscan], ⟨r, hix, hiy, ?_, ?_⟩, ?_⟩
  · intro hu
    rw [heq, if_pos hu]
  · intro hu
    rw [heq, if_neg (by simp [hu])]
  · intro tokens2 c2 regX2 value2 out hout hmiss
    rcases indirectX_cases ext tokens2 c2 regX2 value2 out hout with
      ⟨h, -⟩ | ⟨last, h, -, -⟩
    · rw [hmiss] at h
      simp at h
    · rw [hmiss] at h
      simp at h

/-- C23, witness: on `(IX+5+6` with the cursor at 0, no parenthesis closes the first
one; the evaluator is handed the tokens 3 to 5, and `indirectX` returns `operrOK` with
the variant `IX` and the cursor at 6, the index written back by the evaluator plus
one. -/
theorem C23_indirectX_unclosed_witness :
    specBalancedClose (tokensIXUnclosed.drop 3) 3 1 = none ∧
    (sampleExt.Evaluate tokensIXUnclosed 3 5).2 = 5 ∧
    indirectX sampleExt tokensIXUnclosed 0 regA 7 = some (operrOK, 6, regIX, 5) ∧
    (findClose (tokensIXUnclosed.drop ((0 : Int) + 3).toNat) (0 + 3) 1
        (tok tokenTypeOP_PLUS "+")).1 - 1 = (tokensIXUnclosed.length : Int) - 1 :=
  ⟨by decide, by decide, by decide,
    (C23_indirectX_unclosed sampleExt tokensIXUnclosed 0 regA 7
      (tok tokenTypePAROPEN "(") (tok tokenTypeLETTERS "IX") (tok tokenTypeOP_PLUS "+")
      (by decide) (by decide) (by decide) (by decide) (by decide) (by decide) (by decide)
      (by decide) (Or.inl (by decide)) (by decide) (by decide)).1⟩

/-! ## Pass 2 on an unresolved expression -/

theorem bitnumber_unsolved (ext : Externals) (tokens : List ParseToken) (c : Int)
    (bit : OperandType) (hu : (ext.Evaluate tokens c (-1)).1.unsolved = true) :
    bitnumber ext tokens c bit = (operrUNSOLVED, (ext.Evaluate tokens c (-1)).2, bit0) := by
  unfold bitnumber
  dsimp only
  rw [if_pos hu]

theorem number8_unsolved (ext : Externals) (tokens : List ParseToken) (c : Int)
    (value : Int) (hu : (ext.Evaluate tokens c (-1)).1.unsolved = true) :
    number8 ext tokens c value =
      (operrUNSOLVED, (ext.Evaluate tokens c (-1)).2 + 1, 0) := by
  unfold number8
  dsimp only
  rw [if_pos hu]

theorem number16_unsolved (ext : Externals) (tokens : List ParseToken) (c : Int)
    (value : Int) (hu : (ext.Evaluate tokens c (-1)).1.unsolved = true) :
    number16 ext tokens c value =
      (operrUNSOLVED, (ext.Evaluate tokens c (-1)).2 + 1, 0) := by
  unfold number16
  dsimp only
  rw [if_pos hu]

theorem indirectX_unsolved (ext : Externals) (tokens : List ParseToken) (c : Int)
    (regX : OperandType) (value : Int) (t0 t1 t2 : ParseToken)
    (hc0 : 0 ≤ c) (hc31 : c < 2 ^ 31) (hlen : c + 5 ≤ (tokens.length : Int))
    (h0 : tokenAt tokens c = some t0) (h1 : tokenAt tokens (c + 1) = some t1)
    (h2 : tokenAt tokens (c + 2) = some t2)
    (hopen : t0.type = tokenTypePAROPEN) (hletters : t1.type = tokenTypeLETTERS)
    (hname : to_upper t1.source = "IX" ∨ to_upper t1.source = "IY")
    (hplus : t2.type = tokenTypeOP_PLUS)
    (hu : (ext.Evaluate tokens (c + 3)
      ((findClose (tokens.drop (c + 3).toNat) (c + 3) 1 t2).1 - 1)).1.unsolved = true) :
    ∃ r : OperandType,
      (to_upper t1.source = "IX" → r = regIX) ∧ (to_upper t1.source = "IY" → r = regIY) ∧
      indirectX ext tokens c regX value =
        some (operrUNSOLVED,
          (ext.Evaluate tokens (c + 3)
            ((findClose (tokens.drop (c + 3).toNat) (c + 3) 1 t2).1 - 1)).2 + 1, r, 0) := by
  have hge : geSize (c + 4) tokens = false := by
    unfold geSize
    rw [decide_eq_false_iff_not]
    omega
  obtain ⟨hIX, hIY⟩ := lookupReg16_eq_IX_iff t1
  have hlook : ∃ r, lookupReg16 t1 = some r ∧ ¬ (r ≠ regIX ∧ r ≠ regIY) ∧
      (to_upper t1.source = "IX" → r = regIX) ∧
      (to_upper t1.source = "IY" → r = regIY) := by
    rcases hname with h | h
    · refine ⟨regIX, hIX.mpr ⟨hletters, h⟩, fun hcon => hcon.1 rfl, fun _ => rfl,
        fun h3 => ?_⟩
      rw [h] at h3
      exact absurd h3 (by decide)
    · refine ⟨regIY, hIY.mpr ⟨hletters, h⟩, fun hcon => hcon.2 rfl, fun h3 => ?_,
        fun _ => rfl⟩
      rw [h] at h3
      exact absurd h3 (by decide)
  obtain ⟨r, hr, hnot, hix, hiy⟩ := hlook
  refine ⟨r, hix, hiy, ?_⟩
  rw [indirectX_eq ext tokens c regX value t0 t1 t2 hge h0 h1 h2,
    if_neg (not_not.mpr hopen), hr]
  simp only []
  rw [if_neg hnot, if_neg (not_not.mpr hplus), if_pos hu]

theorem indirect16_unsolved (ext : Externals) (tokens : List ParseToken) (c : Int)
    (value lasttoken : Int) (t0 t1 : ParseToken)
    (hc0 : 0 ≤ c) (hc31 : c < 2 ^ 31) (hlen : c + 3 ≤ (tokens.length : Int))
    (h0 : tokenAt tokens c = some t0) (h1 : tokenAt tokens (c + 1) = some t1)
    (hopen : t0.type = tokenTypePAROPEN)
    (hclose : (findClose (tokens.drop (c + 2).toNat) (c + 2) 1 t1).2.type =
      tokenTypePARCLOSE)
    (hu : (ext.Evaluate tokens (c + 1)
      ((findClose (tokens.drop (c + 2).toNat) (c + 2) 1 t1).1 - 1)).1.unsolved = true) :
    indirect16 ext tokens c value lasttoken =
      some (operrUNSOLVED, 0,
        (ext.Evaluate tokens (c + 1)
          ((findClose (tokens.drop (c + 2).toNat) (c + 2) 1 t1).1 - 1)).2 + 1) := by
  have hge : geSize (c + 2) tokens = false := by
    unfold geSize
    rw [decide_eq_false_iff_not]
    omega
  unfold indirect16
  rw [hge]
  simp only [Bool.false_eq_true, if_false, h0, h1, Option.some_bind]
  rw [if_neg (not_not.mpr hopen), if_neg (not_not.mpr hclose), if_pos hu]

/-- C1, amended: on pass 2, on every code line on which the operand is syntactically
valid, so that the matcher reaches the evaluator, and the evaluator reports the
expression unresolved, only `GetBitNumber` returns `operrUNSOLVED`; `GetIndX` returns
`operrWRONGREGISTER` with `d = 0`, and `GetNum8`, `GetNum16` and `GetInd16` return
`operrNOTNUMBER` with value 0.  For `GetIndX` the valid operand is an opening
parenthesis, a name that reads `IX` or `IY` and a `+`, with at least 5 tokens; for
`GetBitNumber`, `GetNum8`, `GetNum16` a token that is not a register name; for
`GetInd16` an opening parenthesis whose scan ends on a closing parenthesis, with at
least 3 tokens. -/
theorem C1_pass2_unsolved_codes (ext : Externals) (codeline : CodeLine)
    (hpass : IsFirstPass codeline.as = false) :
    (∀ (regX : OperandType) (value : Int) (t0 t1 t2 : ParseToken),
        0 ≤ codeline.curtoken → codeline.curtoken < 2 ^ 31 →
        codeline.curtoken + 5 ≤ (codeline.tokens.length : Int) →
        tokenAt codeline.tokens codeline.curtoken = some t0 →
        tokenAt codeline.tokens (codeline.curtoken + 1) = some t1 →
        tokenAt codeline.tokens (codeline.curtoken + 2) = some t2 →
        t0.type = tokenTypePAROPEN → t1.type = tokenTypeLETTERS →
        to_upper t1.source = "IX" ∨ to_upper t1.source = "IY" →
        t2.type = tokenTypeOP_PLUS →
        (ext.Evaluate codeline.tokens (codeline.curtoken + 3)
          ((findClose (codeline.tokens.drop (codeline.curtoken + 3).toNat)
            (codeline.curtoken + 3) 1 t2).1 - 1)).1.unsolved = true →
        ∃ r : OperandType,
          (to_upper t1.source = "IX" → r = regIX) ∧
          (to_upper t1.source = "IY" → r = regIY) ∧
          GetIndX ext codeline regX value =
            some (operrWRONGREGISTER,
              { codeline with
                curtoken :=
                  (ext.Evaluate codeline.tokens (codeline.curtoken + 3)
                    ((findClose (codeline.tokens.drop (codeline.curtoken + 3).toNat)
                      (codeline.curtoken + 3) 1 t2).1 - 1)).2 + 1 },
              r, 0)) ∧
    (∀ (bit : OperandType) (t : ParseToken),
        tokenAt codeline.tokens codeline.curtoken = some t → isRegisterName t = false →
        (ext.Evaluate codeline.tokens codeline.curtoken (-1)).1.unsolved = true →
        GetBitNumber ext codeline bit =
          some (operrUNSOLVED,
            { codeline with
              curtoken := (ext.Evaluate codeline.tokens codeline.curtoken (-1)).2 },
            bit0)) ∧
    (∀ (scratch : OperandType) (value : Int) (t : ParseToken),
        tokenAt codeline.tokens codeline.curtoken = some t → isRegisterName t = false →
        (ext.Evaluate codeline.tokens codeline.curtoken (-1)).1.unsolved = true →
        GetNum8 ext scratch codeline value =
          some (operrNOTNUMBER,
            { codeline with
              curtoken := (ext.Evaluate codeline.tokens codeline.curtoken (-1)).2 + 1 },
            0)) ∧
    (∀ (scratch : OperandType) (value : Int) (t : ParseToken),
        tokenAt codeline.tokens codeline.curtoken = some t → isRegisterName t = false →
        (ext.Evaluate codeline.tokens codeline.curtoken (-1)).1.unsolved = true →
        GetNum16 ext scratch codeline value =
          some (operrNOTNUMBER,
            { codeline with
              curtoken := (ext.Evaluate codeline.tokens codeline.curtoken (-1)).2 + 1 },
            0)) ∧
    (∀ (scratch value : Int) (t0 t1 : ParseToken),
        0 ≤ codeline.curtoken → codeline.curtoken < 2 ^ 31 →
        codeline.curtoken + 3 ≤ (codeline.tokens.length : Int) →
        tokenAt codeline.tokens codeline.curtoken = some t0 →
        tokenAt codeline.tokens (codeline.curtoken + 1) = some t1 →
        t0.type = tokenTypePAROPEN →
        (findClose (codeline.tokens.drop (codeline.curtoken + 2).toNat)
          (codeline.curtoken + 2) 1 t1).2.type = tokenTypePARCLOSE →
        (ext.Evaluate codeline.tokens (codeline.curtoken + 1)
          ((findClose (codeline.tokens.drop (codeline.curtoken + 2).toNat)
            (codeline.curtoken + 2) 1 t1).1 - 1)).1.unsolved = true →
        GetInd16 ext scratch codeline value = some (operrNOTNUMBER, codeline, 0)) := by
  refine ⟨?_, ?_, ?_, ?_, ?_⟩
  · intro regX value t0 t1 t2 hc0 hc31 hlen h0 h1 h2 hopen hletters hname hplus hu
    obtain ⟨r, hix, hiy, hm⟩ := indirectX_unsolved ext codeline.tokens codeline.curtoken
      regX value t0 t1 t2 hc0 hc31 hlen h0 h1 h2 hopen hletters hname hplus hu
    have he : EnoughTokensLeft codeline 5 = true := by
      simpa [EnoughTokensLeft] using hlen
    refine ⟨r, hix, hiy, ?_⟩
    rw [GetIndX_reach ext codeline regX value _ he hm]
    simp [hpass]
  · intro bit t ht hr hu
    rw [GetBitNumber_reach ext codeline bit t ht hr,
      bitnumber_unsolved ext codeline.tokens codeline.curtoken bit hu]
    simp [hpass]
  · intro scratch value t ht hr hu
    rw [GetNum8_reach ext scratch codeline value t ht hr,
      number8_unsolved ext codeline.tokens codeline.curtoken value hu]
    simp [hpass]
  · intro scratch value t ht hr hu
    rw [GetNum16_reach ext scratch codeline value t ht hr,
      number16_unsolved ext codeline.tokens codeline.curtoken value hu]
    simp [hpass]
  · intro scratch value t0 t1 hc0 hc31 hlen h0 h1 hopen hclose hu
    have hm := indirect16_unsolved ext codeline.tokens codeline.curtoken value scratch
      t0 t1 hc0 hc31 hlen h0 h1 hopen hclose hu
    have he : EnoughTokensLeft codeline 3 = true := by
      simpa [EnoughTokensLeft] using hlen
    rw [GetInd16_reach ext scratch codeline value _ he hm]
    simp [hpass]

/-- C1, witness: on pass 2, on `(LABEL)` with the label unresolved, the scan of
`indirect16` ends on the closing parenthesis, the evaluator reports tokens 1 to 1
unresolved, and `GetInd16` returns `operrNOTNUMBER` with value 0 and the code line
unchanged. -/
theorem C1_pass2_unsolved_codes_witness :
    IsFirstPass (lineOf [tok tokenTypePAROPEN "(", tok tokenTypeLETTERS "LABEL",
      tok tokenTypePARCLOSE ")"] false).as = false ∧
    (sampleExt.Evaluate [tok tokenTypePAROPEN "(", tok tokenTypeLETTERS "LABEL",
      tok tokenTypePARCLOSE ")"] 1 1).1.unsolved = true ∧
    GetInd16 sampleExt 0
        (lineOf [tok tokenTypePAROPEN "(", tok tokenTypeLETTERS "LABEL",
          tok tokenTypePARCLOSE ")"] false) 7 =
      some (operrNOTNUMBER,
        lineOf [tok tokenTypePAROPEN "(", tok tokenTypeLETTERS "LABEL",
          tok tokenTypePARCLOSE ")"] false, 0) :=
  ⟨by decide, by decide,
    (C1_pass2_unsolved_codes sampleExt
      (lineOf [tok tokenTypePAROPEN "(", tok tokenTypeLETTERS "LABEL",
        tok tokenTypePARCLOSE ")"] false) (by decide)).2.2.2.2 0 7
      (tok tokenTypePAROPEN "(") (tok tokenTypeLETTERS "LABEL")
      (by decide) (by decide) (by decide) (by decide) (by decide) (by decide) (by decide)
      (by decide)⟩

end MUZ.Z80
